import Mathlib

/-!
Verification of the filament shader-compiler core and the astrict GLSL
translator helpers.

Part 1 models the asynchronous shader-program build coordinator declared in
`filament/backend/src/opengl/ShaderCompilerService.h`.  Only the header
(declarations and data members) is present in the repository excerpt; the
method bodies live in a `.cpp` file that is not part of the excerpt, so the
behavioural definitions below are modelled from the specification document
and are marked as such.

Part 2 embeds, directly from the source, the helper functions of
`libs/astrict/src/FromGlsl.cpp`: the id stores (`IdStoreByValue`,
`IdStoreByKey`), the type-name expansion helpers
(`expandTypeNameToVector`, `expandTypeNameToVectorOrMatrix`) and the two
operator-translation switches (`glslangOperatorToRValueOperator`,
`glslangOperatorToBranchOperator`).
-/

namespace ShaderCompilerService

/-- Modelled from the spec: the token state set of §3 DATA MODEL:
`{Initializing, Queued, Compiling, Linked, Ready, Error, Cancelled}`.
The `ProgramToken` struct itself is declared but not defined in
`ShaderCompilerService.h`. -/
inductive TokenState where
  | Initializing
  | Queued
  | Compiling
  | Linked
  | Ready
  | Error
  | Cancelled
deriving DecidableEq, Repr

/-- Modelled from the spec: `Ready`, `Error` and `Cancelled` are the terminal
states (§3 invariant). -/
def TokenState.terminal : TokenState → Bool
  | .Ready => true
  | .Error => true
  | .Cancelled => true
  | _ => false

/-- Modelled from the spec: `isReady(token) -> bool`, true iff state is
`Ready` or `Error` (§4.1); declared as `isProgramReady` in the header.
A pure function of the state: it cannot mutate the token. -/
def isProgramReady : TokenState → Bool
  | .Ready => true
  | .Error => true
  | _ => false

/-- Modelled from the spec: the admissible single-step state transitions of a
token (§3 lifecycle, §4 component design).  A token progresses
`Initializing → Queued → Compiling → Linked → {Ready, Error}`; the
synchronous path may skip the queue; any non-terminal state can be
cancelled.  No transition leaves a terminal state. -/
def allowedNext : TokenState → TokenState → Bool
  | .Initializing, .Queued => true
  | .Initializing, .Compiling => true
  | .Queued, .Compiling => true
  | .Compiling, .Linked => true
  | .Compiling, .Error => true
  | .Linked, .Ready => true
  | .Linked, .Error => true
  | .Initializing, .Cancelled => true
  | .Queued, .Cancelled => true
  | .Compiling, .Cancelled => true
  | .Linked, .Cancelled => true
  | _, _ => false

/-- A token's state evolves by zero or more allowed transitions. -/
def TokenSteps : TokenState → TokenState → Prop :=
  Relation.ReflTransGen (fun a b => allowedNext a b = true)

/-- Modelled from the spec: a live program token.  `glProgram` is the GL
handle produced by the worker (`0` is the GL sentinel for "no program"),
`valid` records whether the caller's handle has been consumed by
`getProgram`/`terminate`. -/
structure Token where
  state : TokenState
  glProgram : Nat
  valid : Bool
deriving DecidableEq, Repr

/-- Modelled from the spec: the blocking wait inside `getProgram`.  The
`future` list is the sequence of states the token will be driven through by
the workers and the tick scheduler; the wait consumes it until the token is
terminal.  A token that is already terminal waits on nothing. -/
def waitTerminal : TokenState → List TokenState → TokenState
  | s, [] => s
  | s, nxt :: rest => if s.terminal then s else waitTerminal nxt rest

/-- Modelled from the spec: `getProgram(token) -> handle` (§4.1): blocks the
caller until the token reaches a terminal state, then returns the compiled
program handle (or the sentinel invalid handle `0` on `Error`), and
invalidates the token.  Calling it on an already-consumed token is a
precondition violation, modelled as `none`. -/
def getProgram (t : Token) (future : List TokenState) : Option (Nat × Token) :=
  if t.valid then
    let s := waitTerminal t.state future
    some (if s = .Error then 0 else t.glProgram,
          { t with state := s, valid := false })
  else
    none

/-- Modelled from the spec: the synchronous-fallback branch of
`createProgram` (§4.3 step 1, header lines 122-126): when shared-context
parallel compilation is unsupported or disabled, compile and link inline on
the calling thread and return a token already in a terminal state. -/
def createProgramSync (compileOk : Bool) (handle : Nat) : Token :=
  if compileOk then
    { state := .Ready, glProgram := handle, valid := true }
  else
    { state := .Error, glProgram := 0, valid := true }

/-- Modelled from the spec: `createProgram` (§4.3): if parallel/shared
context compilation is unsupported or disabled, compile synchronously and
return a terminal token; otherwise return a `Queued` token whose job was
submitted to the pool. -/
def createProgram (parallelSupported : Bool) (compileOk : Bool) (handle : Nat) :
    Token :=
  if parallelSupported then
    { state := .Queued, glProgram := 0, valid := true }
  else
    createProgramSync compileOk handle

/-- Modelled from the spec: the two-level `CompilerPriorityQueue` used by the
pool and the tick queue (`{High, Low}`, §3). -/
inductive Priority where
  | High
  | Low
deriving DecidableEq, Repr

/-- Modelled from the spec: "at or below the requested priority" (§4.5),
where `High` is above `Low`. -/
def Priority.atOrBelow : Priority → Priority → Bool
  | _, .High => true
  | .Low, .Low => true
  | .High, .Low => false

/-- Modelled from the spec: the two FIFO job queues of `CompilerThreadPool`
(`std::array<Queue, 2> mQueues` in the header; jobs identified by id). -/
structure PoolState where
  high : List Nat
  low : List Nat
deriving DecidableEq, Repr

/-- Modelled from the spec: `queue(priority, token, job)` appends the job to
the queue of its priority (§4.2). -/
def PoolState.queueJob (s : PoolState) (p : Priority) (j : Nat) : PoolState :=
  match p with
  | .High => { s with high := s.high ++ [j] }
  | .Low => { s with low := s.low ++ [j] }

/-- Modelled from the spec: the worker loop's job selection (§4.2): when both
queues are non-empty the high-priority queue is always serviced first;
within a queue, strict FIFO (take from the front). -/
def PoolState.takeNext (s : PoolState) : Option (Nat × PoolState) :=
  match s.high with
  | j :: rest => some (j, { s with high := rest })
  | [] =>
    match s.low with
    | j :: rest => some (j, { s with low := rest })
    | [] => none

/-- An event at the pool: a submission or a worker picking up one job. -/
inductive PoolEv where
  | enq (p : Priority) (j : Nat)
  | deq
deriving DecidableEq, Repr

/-- Modelled from the spec: run a sequence of pool events, returning the
final queues and the jobs in the order workers executed them. -/
def runPool : PoolState → List PoolEv → PoolState × List Nat
  | s, [] => (s, [])
  | s, .enq p j :: rest => runPool (s.queueJob p j) rest
  | s, .deq :: rest =>
    match s.takeNext with
    | none => runPool s rest
    | some (j, s2) =>
      let (s3, out) := runPool s2 rest
      (s3, j :: out)

/-- Modelled from the spec: drain the pool completely (workers keep picking
jobs until both queues are empty), in execution order. -/
def PoolState.drain (s : PoolState) : List Nat :=
  match h : s.takeNext with
  | none => []
  | some (j, s2) => j :: s2.drain
termination_by s.high.length + s.low.length
decreasing_by
  simp only [PoolState.takeNext] at h
  rcases hh : s.high with _ | ⟨a, resth⟩ <;> rw [hh] at h
  · rcases hl : s.low with _ | ⟨b, restl⟩ <;> rw [hl] at h
    · simp at h
    · simp only [Option.some.injEq] at h
      cases h
      simp [hh, hl]
  · simp only [Option.some.injEq] at h
    cases h
    simp [hh]

/-- Modelled from the spec: a deferred tick operation (`TickOp`, §3).  `id`
identifies the op; `spawns` are the ops its deferred action enqueues (via
`runAtNextTick`) while it executes. -/
inductive TickOp where
  | mk (id : Nat) (spawns : List TickOp)

/-- The identifier of a tick op. -/
def TickOp.id : TickOp → Nat
  | .mk i _ => i

/-- The ops a tick op enqueues while executing. -/
def TickOp.spawns : TickOp → List TickOp
  | .mk _ s => s

/-- Modelled from the spec: the inner loop of `executeTickOps` (§4.4): walk
the snapshot of the op list taken at call time, execute each op in order
(emitting its id), appending anything it enqueues to the live (post-swap)
list.  Returns the execution order and the list pending after the call. -/
def drainTickOps : List TickOp → List TickOp → List Nat × List TickOp
  | [], pendingAfter => ([], pendingAfter)
  | op :: rest, pendingAfter =>
    let (out, fin) := drainTickOps rest (pendingAfter ++ op.spawns)
    (op.id :: out, fin)

/-- Modelled from the spec: `tick()` / `executeTickOps` (§4.4): drains the
TickOp list as it exists at call time, executing entries strictly in
insertion order; ops enqueued during draining are deferred to the next
call. -/
def executeTickOps (pending : List TickOp) : List Nat × List TickOp :=
  drainTickOps pending []

/-- Modelled from the spec: one registration of
`notifyWhenAllProgramsAreReady` (§4.5): the set of token ids it tracked at
registration time and whether its callback has fired
(state machine `Waiting -> Fired`). -/
structure Barrier where
  id : Nat
  tracked : List Nat
  fired : Bool
deriving DecidableEq, Repr

/-- Modelled from the spec: the service-level state the completion barrier
interacts with: the live tokens (id, priority, state) and the registered
barriers.  `nextBarrierId` numbers registrations. -/
structure Sys where
  tokens : List (Nat × Priority × TokenState)
  barriers : List Barrier
  nextBarrierId : Nat
deriving DecidableEq, Repr

/-- Look up a token's priority and state by id. -/
def Sys.lookupToken (sys : Sys) (tid : Nat) : Option (Priority × TokenState) :=
  (sys.tokens.find? (fun e => e.1 = tid)).map (·.2)

/-- Modelled from the spec: a tracked token counts as done once it has
reached a terminal state (a destroyed/unknown token is also done). -/
def Sys.tokenDone (sys : Sys) (tid : Nat) : Bool :=
  match sys.lookupToken tid with
  | some (_, st) => st.terminal
  | none => true

/-- All tokens tracked by a barrier have reached a terminal state. -/
def Sys.allTrackedDone (sys : Sys) (b : Barrier) : Bool :=
  b.tracked.all sys.tokenDone

/-- Modelled from the spec: the part of `tick()` that serves completion
barriers: every registration whose tracked tokens are all terminal and whose
callback has not fired yet fires now (callback ids returned in order) and
moves to `Fired`. -/
def fireBarriers (sys : Sys) : List Barrier → List Barrier × List Nat
  | [] => ([], [])
  | b :: rest =>
    let r := fireBarriers sys rest
    if !b.fired && sys.allTrackedDone b then
      ({ b with fired := true } :: r.1, b.id :: r.2)
    else
      (b :: r.1, r.2)

/-- An event of the barrier-facing service interface. -/
inductive SysEv where
  | create (tid : Nat) (p : Priority)
  | advance (tid : Nat) (s : TokenState)
  | register (p : Priority)
  | tick
deriving DecidableEq, Repr

/-- Modelled from the spec: one service event.  `create` makes a new token
(`createProgram`); `advance` is a worker/tick-driven token state transition
(only allowed transitions apply, so terminal states never change);
`register` is `notifyWhenAllProgramsAreReady`: it snapshots the currently
non-terminal tokens at or below the requested priority and never fires
synchronously; `tick` drives the barriers.  Returns the new state and the
ids of the callbacks fired by this event. -/
def stepSys (sys : Sys) : SysEv → Sys × List Nat
  | .create tid p =>
    ({ sys with tokens := sys.tokens ++ [(tid, p, .Initializing)] }, [])
  | .advance tid s =>
    ({ sys with
        tokens := sys.tokens.map fun e =>
          if e.1 = tid ∧ allowedNext e.2.2 s then (e.1, e.2.1, s) else e }, [])
  | .register p =>
    ({ sys with
        barriers := sys.barriers ++
          [{ id := sys.nextBarrierId,
             tracked := (sys.tokens.filter
               (fun e => e.2.1.atOrBelow p && !e.2.2.terminal)).map (·.1),
             fired := false }],
        nextBarrierId := sys.nextBarrierId + 1 }, [])
  | .tick =>
    let (bs, out) := fireBarriers sys sys.barriers
    ({ sys with barriers := bs }, out)

/-- Run a sequence of service events, concatenating the fired callbacks. -/
def runSys : Sys → List SysEv → Sys × List Nat
  | sys, [] => (sys, [])
  | sys, e :: rest =>
    let (sys2, out1) := stepSys sys e
    let (sys3, out2) := runSys sys2 rest
    (sys3, out1 ++ out2)

/-- Well-formedness: barrier ids are distinct and below the id counter. -/
def SysWF (sys : Sys) : Prop :=
  (sys.barriers.map Barrier.id).Nodup ∧
    ∀ b ∈ sys.barriers, b.id < sys.nextBarrierId

end ShaderCompilerService

namespace FromGlsl

/-- Association-list lookup, modelling `std::unordered_map::find`. -/
def assocFind {K A : Type} [DecidableEq K] : List (K × A) → K → Option A
  | [], _ => none
  | (k, a) :: rest, key => if k = key then some a else assocFind rest key

/-- Embeds `IdStoreByValue` (FromGlsl.cpp lines 868-893): assigns consecutive ids
(starting at 1) to distinct values.  `mMap` holds the `value -> id` bindings
in insertion order; `mLastId` is the last id handed out. -/
structure IdStoreByValue (V : Type) [DecidableEq V] where
  mLastId : Nat
  mMap : List (V × Nat)
deriving Repr

/-- Embeds `IdStoreByValue::insert` (lines 872-880): inserts if non-existent,
assigning id `++mLastId`; otherwise returns the id already bound. -/
def IdStoreByValue.insert {V : Type} [DecidableEq V]
    (s : IdStoreByValue V) (value : V) : Nat × IdStoreByValue V :=
  match assocFind s.mMap value with
  | none =>
    let id := s.mLastId + 1
    (id, { mLastId := id, mMap := s.mMap ++ [(value, id)] })
  | some id => (id, s)

/-- Embeds `IdStoreByValue::getFinal` (lines 882-888): the inverse `id -> value`
map. -/
def IdStoreByValue.getFinal {V : Type} [DecidableEq V]
    (s : IdStoreByValue V) : List (Nat × V) :=
  s.mMap.map fun e => (e.2, e.1)

/-- The empty `IdStoreByValue` (member initializers, lines 891-892). -/
def IdStoreByValue.empty (V : Type) [DecidableEq V] : IdStoreByValue V :=
  { mLastId := 0, mMap := [] }

/-- Embeds `IdStoreByKey` (FromGlsl.cpp lines 895-929): like `IdStoreByValue` but
keyed separately from the stored value: `mMap` binds `key -> (id, value)`. -/
structure IdStoreByKey (V K : Type) [DecidableEq K] where
  mLastId : Nat
  mMap : List (K × (Nat × V))
deriving Repr

/-- Embeds `IdStoreByKey::insert` (lines 899-907): inserts if non-existent,
assigning id `++mLastId`; otherwise returns the id already bound to the
key (the stored value is not updated). -/
def IdStoreByKey.insert {V K : Type} [DecidableEq K]
    (s : IdStoreByKey V K) (key : K) (value : V) : Nat × IdStoreByKey V K :=
  match assocFind s.mMap key with
  | none =>
    let id := s.mLastId + 1
    (id, { mLastId := id, mMap := s.mMap ++ [(key, (id, value))] })
  | some e => (e.1, s)

/-- Embeds `IdStoreByKey::get` (lines 910-916): the id bound to a key, if any. -/
def IdStoreByKey.get {V K : Type} [DecidableEq K]
    (s : IdStoreByKey V K) (key : K) : Option Nat :=
  (assocFind s.mMap key).map (·.1)

/-- Embeds `IdStoreByKey::getFinal` (lines 918-924): the `id -> value` map. -/
def IdStoreByKey.getFinal {V K : Type} [DecidableEq K]
    (s : IdStoreByKey V K) : List (Nat × V) :=
  s.mMap.map fun e => (e.2.1, e.2.2)

/-- The empty `IdStoreByKey` (member initializers, lines 927-928). -/
def IdStoreByKey.empty (V K : Type) [DecidableEq K] : IdStoreByKey V K :=
  { mLastId := 0, mMap := [] }

/-- Well-formedness of an `IdStoreByValue`, established by construction: the
ids bound in `mMap` are `1, 2, ..., mLastId` in insertion order and the
values are pairwise distinct. -/
def IdStoreByValue.WF {V : Type} [DecidableEq V] (s : IdStoreByValue V) : Prop :=
  s.mMap.map (·.2) = List.range' 1 s.mMap.length ∧
    s.mLastId = s.mMap.length ∧ (s.mMap.map (·.1)).Nodup

/-- Well-formedness of an `IdStoreByKey`: ids are `1, 2, ..., mLastId` in
insertion order and keys are pairwise distinct. -/
def IdStoreByKey.WF {V K : Type} [DecidableEq K] (s : IdStoreByKey V K) : Prop :=
  s.mMap.map (·.2.1) = List.range' 1 s.mMap.length ∧
    s.mLastId = s.mMap.length ∧ (s.mMap.map (·.1)).Nodup

/-- Embeds `expandTypeNameToVector` (FromGlsl.cpp lines 729-734): under the
asserted precondition `1 <= vectorSize <= 4`, reads `typeNames[vectorSize-1]`;
a failed `ASSERT_PRECONDITION` (abort) is modelled as `none`. -/
def expandTypeNameToVector (typeNames : List String) (vectorSize : Int) :
    Option String :=
  if vectorSize ≥ 1 ∧ vectorSize ≤ 4 then
    typeNames[(vectorSize - 1).toNat]?
  else
    none

/-- Embeds `expandTypeNameToVectorOrMatrix` (FromGlsl.cpp lines 736-751): for
matrix types, under the asserted preconditions `2 <= matrixCols <= 4` and
`2 <= matrixRows <= 4`, reads
`typeNames[4 + (matrixCols-2)*3 + (matrixRows-2)]`; for non-matrix types it
defers to `expandTypeNameToVector`.  Assertion failures are `none`. -/
def expandTypeNameToVectorOrMatrix (typeNames : List String) (isMatrix : Bool)
    (vectorSize matrixCols matrixRows : Int) : Option String :=
  if isMatrix then
    if matrixCols ≥ 2 ∧ matrixCols ≤ 4 then
      if matrixRows ≥ 2 ∧ matrixRows ≤ 4 then
        typeNames[(4 + (matrixCols - 2) * 3 + (matrixRows - 2)).toNat]?
      else none
    else none
  else
    expandTypeNameToVector typeNames vectorSize

/-- Embeds `FLOAT_TYPE_NAMES` (FromGlsl.cpp lines 756-770): the 13-element name
table indexed by `expandTypeNameToVectorOrMatrix`. -/
def FLOAT_TYPE_NAMES : List String :=
  ["float", "vec2", "vec3", "vec4",
   "mat2", "mat2x3", "mat2x4",
   "mat3x2", "mat3", "mat3x4",
   "mat4x2", "mat4x3", "mat4"]

/-- Embeds the glslang operator enumeration (`glslang::TOperator`), which is
external to the repository: an operator is identified by its enumerator
code.  The named codes below cover every operator referenced by the switches
of `FromGlsl.cpp`; `EOpOther n` stands for every other enumerator of the
external enum (all of which reach the default branches). -/
structure TOperator where
  code : Nat
deriving DecidableEq, Repr

/-- Operator `EOpAbs` of the external glslang enum. -/
def EOpAbs : TOperator := ⟨0⟩

/-- Operator `EOpAbsDifference` of the external glslang enum. -/
def EOpAbsDifference : TOperator := ⟨1⟩

/-- Operator `EOpAcos` of the external glslang enum. -/
def EOpAcos : TOperator := ⟨2⟩

/-- Operator `EOpAcosh` of the external glslang enum. -/
def EOpAcosh : TOperator := ⟨3⟩

/-- Operator `EOpAdd` of the external glslang enum. -/
def EOpAdd : TOperator := ⟨4⟩

/-- Operator `EOpAddAssign` of the external glslang enum. -/
def EOpAddAssign : TOperator := ⟨5⟩

/-- Operator `EOpAddCarry` of the external glslang enum. -/
def EOpAddCarry : TOperator := ⟨6⟩

/-- Operator `EOpAddInvocations` of the external glslang enum. -/
def EOpAddInvocations : TOperator := ⟨7⟩

/-- Operator `EOpAddInvocationsExclusiveScan` of the external glslang enum. -/
def EOpAddInvocationsExclusiveScan : TOperator := ⟨8⟩

/-- Operator `EOpAddInvocationsExclusiveScanNonUniform` of the external glslang enum. -/
def EOpAddInvocationsExclusiveScanNonUniform : TOperator := ⟨9⟩

/-- Operator `EOpAddInvocationsInclusiveScan` of the external glslang enum. -/
def EOpAddInvocationsInclusiveScan : TOperator := ⟨10⟩

/-- Operator `EOpAddInvocationsInclusiveScanNonUniform` of the external glslang enum. -/
def EOpAddInvocationsInclusiveScanNonUniform : TOperator := ⟨11⟩

/-- Operator `EOpAddInvocationsNonUniform` of the external glslang enum. -/
def EOpAddInvocationsNonUniform : TOperator := ⟨12⟩

/-- Operator `EOpAddSaturate` of the external glslang enum. -/
def EOpAddSaturate : TOperator := ⟨13⟩

/-- Operator `EOpAll` of the external glslang enum. -/
def EOpAll : TOperator := ⟨14⟩

/-- Operator `EOpAllInvocations` of the external glslang enum. -/
def EOpAllInvocations : TOperator := ⟨15⟩

/-- Operator `EOpAllInvocationsEqual` of the external glslang enum. -/
def EOpAllInvocationsEqual : TOperator := ⟨16⟩

/-- Operator `EOpAnd` of the external glslang enum. -/
def EOpAnd : TOperator := ⟨17⟩

/-- Operator `EOpAndAssign` of the external glslang enum. -/
def EOpAndAssign : TOperator := ⟨18⟩

/-- Operator `EOpAny` of the external glslang enum. -/
def EOpAny : TOperator := ⟨19⟩

/-- Operator `EOpAnyInvocation` of the external glslang enum. -/
def EOpAnyInvocation : TOperator := ⟨20⟩

/-- Operator `EOpArrayLength` of the external glslang enum. -/
def EOpArrayLength : TOperator := ⟨21⟩

/-- Operator `EOpAsin` of the external glslang enum. -/
def EOpAsin : TOperator := ⟨22⟩

/-- Operator `EOpAsinh` of the external glslang enum. -/
def EOpAsinh : TOperator := ⟨23⟩

/-- Operator `EOpAssign` of the external glslang enum. -/
def EOpAssign : TOperator := ⟨24⟩

/-- Operator `EOpAtan` of the external glslang enum. -/
def EOpAtan : TOperator := ⟨25⟩

/-- Operator `EOpAtanh` of the external glslang enum. -/
def EOpAtanh : TOperator := ⟨26⟩

/-- Operator `EOpAtomicAdd` of the external glslang enum. -/
def EOpAtomicAdd : TOperator := ⟨27⟩

/-- Operator `EOpAtomicAnd` of the external glslang enum. -/
def EOpAtomicAnd : TOperator := ⟨28⟩

/-- Operator `EOpAtomicCompSwap` of the external glslang enum. -/
def EOpAtomicCompSwap : TOperator := ⟨29⟩

/-- Operator `EOpAtomicCounter` of the external glslang enum. -/
def EOpAtomicCounter : TOperator := ⟨30⟩

/-- Operator `EOpAtomicCounterAdd` of the external glslang enum. -/
def EOpAtomicCounterAdd : TOperator := ⟨31⟩

/-- Operator `EOpAtomicCounterAnd` of the external glslang enum. -/
def EOpAtomicCounterAnd : TOperator := ⟨32⟩

/-- Operator `EOpAtomicCounterCompSwap` of the external glslang enum. -/
def EOpAtomicCounterCompSwap : TOperator := ⟨33⟩

/-- Operator `EOpAtomicCounterDecrement` of the external glslang enum. -/
def EOpAtomicCounterDecrement : TOperator := ⟨34⟩

/-- Operator `EOpAtomicCounterExchange` of the external glslang enum. -/
def EOpAtomicCounterExchange : TOperator := ⟨35⟩

/-- Operator `EOpAtomicCounterIncrement` of the external glslang enum. -/
def EOpAtomicCounterIncrement : TOperator := ⟨36⟩

/-- Operator `EOpAtomicCounterMax` of the external glslang enum. -/
def EOpAtomicCounterMax : TOperator := ⟨37⟩

/-- Operator `EOpAtomicCounterMin` of the external glslang enum. -/
def EOpAtomicCounterMin : TOperator := ⟨38⟩

/-- Operator `EOpAtomicCounterOr` of the external glslang enum. -/
def EOpAtomicCounterOr : TOperator := ⟨39⟩

/-- Operator `EOpAtomicCounterSubtract` of the external glslang enum. -/
def EOpAtomicCounterSubtract : TOperator := ⟨40⟩

/-- Operator `EOpAtomicCounterXor` of the external glslang enum. -/
def EOpAtomicCounterXor : TOperator := ⟨41⟩

/-- Operator `EOpAtomicExchange` of the external glslang enum. -/
def EOpAtomicExchange : TOperator := ⟨42⟩

/-- Operator `EOpAtomicLoad` of the external glslang enum. -/
def EOpAtomicLoad : TOperator := ⟨43⟩

/-- Operator `EOpAtomicMax` of the external glslang enum. -/
def EOpAtomicMax : TOperator := ⟨44⟩

/-- Operator `EOpAtomicMin` of the external glslang enum. -/
def EOpAtomicMin : TOperator := ⟨45⟩

/-- Operator `EOpAtomicOr` of the external glslang enum. -/
def EOpAtomicOr : TOperator := ⟨46⟩

/-- Operator `EOpAtomicStore` of the external glslang enum. -/
def EOpAtomicStore : TOperator := ⟨47⟩

/-- Operator `EOpAtomicXor` of the external glslang enum. -/
def EOpAtomicXor : TOperator := ⟨48⟩

/-- Operator `EOpAverage` of the external glslang enum. -/
def EOpAverage : TOperator := ⟨49⟩

/-- Operator `EOpAverageRounded` of the external glslang enum. -/
def EOpAverageRounded : TOperator := ⟨50⟩

/-- Operator `EOpBallot` of the external glslang enum. -/
def EOpBallot : TOperator := ⟨51⟩

/-- Operator `EOpBarrier` of the external glslang enum. -/
def EOpBarrier : TOperator := ⟨52⟩

/-- Operator `EOpBeginInvocationInterlock` of the external glslang enum. -/
def EOpBeginInvocationInterlock : TOperator := ⟨53⟩

/-- Operator `EOpBitCount` of the external glslang enum. -/
def EOpBitCount : TOperator := ⟨54⟩

/-- Operator `EOpBitFieldReverse` of the external glslang enum. -/
def EOpBitFieldReverse : TOperator := ⟨55⟩

/-- Operator `EOpBitfieldExtract` of the external glslang enum. -/
def EOpBitfieldExtract : TOperator := ⟨56⟩

/-- Operator `EOpBitfieldInsert` of the external glslang enum. -/
def EOpBitfieldInsert : TOperator := ⟨57⟩

/-- Operator `EOpBitwiseNot` of the external glslang enum. -/
def EOpBitwiseNot : TOperator := ⟨58⟩

/-- Operator `EOpBreak` of the external glslang enum. -/
def EOpBreak : TOperator := ⟨59⟩

/-- Operator `EOpCase` of the external glslang enum. -/
def EOpCase : TOperator := ⟨60⟩

/-- Operator `EOpCeil` of the external glslang enum. -/
def EOpCeil : TOperator := ⟨61⟩

/-- Operator `EOpClamp` of the external glslang enum. -/
def EOpClamp : TOperator := ⟨62⟩

/-- Operator `EOpColorAttachmentReadEXT` of the external glslang enum. -/
def EOpColorAttachmentReadEXT : TOperator := ⟨63⟩

/-- Operator `EOpComma` of the external glslang enum. -/
def EOpComma : TOperator := ⟨64⟩

/-- Operator `EOpConstructBMat2x2` of the external glslang enum. -/
def EOpConstructBMat2x2 : TOperator := ⟨65⟩

/-- Operator `EOpConstructBMat2x3` of the external glslang enum. -/
def EOpConstructBMat2x3 : TOperator := ⟨66⟩

/-- Operator `EOpConstructBMat2x4` of the external glslang enum. -/
def EOpConstructBMat2x4 : TOperator := ⟨67⟩

/-- Operator `EOpConstructBMat3x2` of the external glslang enum. -/
def EOpConstructBMat3x2 : TOperator := ⟨68⟩

/-- Operator `EOpConstructBMat3x3` of the external glslang enum. -/
def EOpConstructBMat3x3 : TOperator := ⟨69⟩

/-- Operator `EOpConstructBMat3x4` of the external glslang enum. -/
def EOpConstructBMat3x4 : TOperator := ⟨70⟩

/-- Operator `EOpConstructBMat4x2` of the external glslang enum. -/
def EOpConstructBMat4x2 : TOperator := ⟨71⟩

/-- Operator `EOpConstructBMat4x3` of the external glslang enum. -/
def EOpConstructBMat4x3 : TOperator := ⟨72⟩

/-- Operator `EOpConstructBMat4x4` of the external glslang enum. -/
def EOpConstructBMat4x4 : TOperator := ⟨73⟩

/-- Operator `EOpConstructBVec2` of the external glslang enum. -/
def EOpConstructBVec2 : TOperator := ⟨74⟩

/-- Operator `EOpConstructBVec3` of the external glslang enum. -/
def EOpConstructBVec3 : TOperator := ⟨75⟩

/-- Operator `EOpConstructBVec4` of the external glslang enum. -/
def EOpConstructBVec4 : TOperator := ⟨76⟩

/-- Operator `EOpConstructBool` of the external glslang enum. -/
def EOpConstructBool : TOperator := ⟨77⟩

/-- Operator `EOpConstructCooperativeMatrixKHR` of the external glslang enum. -/
def EOpConstructCooperativeMatrixKHR : TOperator := ⟨78⟩

/-- Operator `EOpConstructCooperativeMatrixNV` of the external glslang enum. -/
def EOpConstructCooperativeMatrixNV : TOperator := ⟨79⟩

/-- Operator `EOpConstructDMat2x2` of the external glslang enum. -/
def EOpConstructDMat2x2 : TOperator := ⟨80⟩

/-- Operator `EOpConstructDMat2x3` of the external glslang enum. -/
def EOpConstructDMat2x3 : TOperator := ⟨81⟩

/-- Operator `EOpConstructDMat2x4` of the external glslang enum. -/
def EOpConstructDMat2x4 : TOperator := ⟨82⟩

/-- Operator `EOpConstructDMat3x2` of the external glslang enum. -/
def EOpConstructDMat3x2 : TOperator := ⟨83⟩

/-- Operator `EOpConstructDMat3x3` of the external glslang enum. -/
def EOpConstructDMat3x3 : TOperator := ⟨84⟩

/-- Operator `EOpConstructDMat3x4` of the external glslang enum. -/
def EOpConstructDMat3x4 : TOperator := ⟨85⟩

/-- Operator `EOpConstructDMat4x2` of the external glslang enum. -/
def EOpConstructDMat4x2 : TOperator := ⟨86⟩

/-- Operator `EOpConstructDMat4x3` of the external glslang enum. -/
def EOpConstructDMat4x3 : TOperator := ⟨87⟩

/-- Operator `EOpConstructDMat4x4` of the external glslang enum. -/
def EOpConstructDMat4x4 : TOperator := ⟨88⟩

/-- Operator `EOpConstructDVec2` of the external glslang enum. -/
def EOpConstructDVec2 : TOperator := ⟨89⟩

/-- Operator `EOpConstructDVec3` of the external glslang enum. -/
def EOpConstructDVec3 : TOperator := ⟨90⟩

/-- Operator `EOpConstructDVec4` of the external glslang enum. -/
def EOpConstructDVec4 : TOperator := ⟨91⟩

/-- Operator `EOpConstructDouble` of the external glslang enum. -/
def EOpConstructDouble : TOperator := ⟨92⟩

/-- Operator `EOpConstructF16Mat2x2` of the external glslang enum. -/
def EOpConstructF16Mat2x2 : TOperator := ⟨93⟩

/-- Operator `EOpConstructF16Mat2x3` of the external glslang enum. -/
def EOpConstructF16Mat2x3 : TOperator := ⟨94⟩

/-- Operator `EOpConstructF16Mat2x4` of the external glslang enum. -/
def EOpConstructF16Mat2x4 : TOperator := ⟨95⟩

/-- Operator `EOpConstructF16Mat3x2` of the external glslang enum. -/
def EOpConstructF16Mat3x2 : TOperator := ⟨96⟩

/-- Operator `EOpConstructF16Mat3x3` of the external glslang enum. -/
def EOpConstructF16Mat3x3 : TOperator := ⟨97⟩

/-- Operator `EOpConstructF16Mat3x4` of the external glslang enum. -/
def EOpConstructF16Mat3x4 : TOperator := ⟨98⟩

/-- Operator `EOpConstructF16Mat4x2` of the external glslang enum. -/
def EOpConstructF16Mat4x2 : TOperator := ⟨99⟩

/-- Operator `EOpConstructF16Mat4x3` of the external glslang enum. -/
def EOpConstructF16Mat4x3 : TOperator := ⟨100⟩

/-- Operator `EOpConstructF16Mat4x4` of the external glslang enum. -/
def EOpConstructF16Mat4x4 : TOperator := ⟨101⟩

/-- Operator `EOpConstructF16Vec2` of the external glslang enum. -/
def EOpConstructF16Vec2 : TOperator := ⟨102⟩

/-- Operator `EOpConstructF16Vec3` of the external glslang enum. -/
def EOpConstructF16Vec3 : TOperator := ⟨103⟩

/-- Operator `EOpConstructF16Vec4` of the external glslang enum. -/
def EOpConstructF16Vec4 : TOperator := ⟨104⟩

/-- Operator `EOpConstructFloat` of the external glslang enum. -/
def EOpConstructFloat : TOperator := ⟨105⟩

/-- Operator `EOpConstructFloat16` of the external glslang enum. -/
def EOpConstructFloat16 : TOperator := ⟨106⟩

/-- Operator `EOpConstructI16Vec2` of the external glslang enum. -/
def EOpConstructI16Vec2 : TOperator := ⟨107⟩

/-- Operator `EOpConstructI16Vec3` of the external glslang enum. -/
def EOpConstructI16Vec3 : TOperator := ⟨108⟩

/-- Operator `EOpConstructI16Vec4` of the external glslang enum. -/
def EOpConstructI16Vec4 : TOperator := ⟨109⟩

/-- Operator `EOpConstructI64Vec2` of the external glslang enum. -/
def EOpConstructI64Vec2 : TOperator := ⟨110⟩

/-- Operator `EOpConstructI64Vec3` of the external glslang enum. -/
def EOpConstructI64Vec3 : TOperator := ⟨111⟩

/-- Operator `EOpConstructI64Vec4` of the external glslang enum. -/
def EOpConstructI64Vec4 : TOperator := ⟨112⟩

/-- Operator `EOpConstructI8Vec2` of the external glslang enum. -/
def EOpConstructI8Vec2 : TOperator := ⟨113⟩

/-- Operator `EOpConstructI8Vec3` of the external glslang enum. -/
def EOpConstructI8Vec3 : TOperator := ⟨114⟩

/-- Operator `EOpConstructI8Vec4` of the external glslang enum. -/
def EOpConstructI8Vec4 : TOperator := ⟨115⟩

/-- Operator `EOpConstructIMat2x2` of the external glslang enum. -/
def EOpConstructIMat2x2 : TOperator := ⟨116⟩

/-- Operator `EOpConstructIMat2x3` of the external glslang enum. -/
def EOpConstructIMat2x3 : TOperator := ⟨117⟩

/-- Operator `EOpConstructIMat2x4` of the external glslang enum. -/
def EOpConstructIMat2x4 : TOperator := ⟨118⟩

/-- Operator `EOpConstructIMat3x2` of the external glslang enum. -/
def EOpConstructIMat3x2 : TOperator := ⟨119⟩

/-- Operator `EOpConstructIMat3x3` of the external glslang enum. -/
def EOpConstructIMat3x3 : TOperator := ⟨120⟩

/-- Operator `EOpConstructIMat3x4` of the external glslang enum. -/
def EOpConstructIMat3x4 : TOperator := ⟨121⟩

/-- Operator `EOpConstructIMat4x2` of the external glslang enum. -/
def EOpConstructIMat4x2 : TOperator := ⟨122⟩

/-- Operator `EOpConstructIMat4x3` of the external glslang enum. -/
def EOpConstructIMat4x3 : TOperator := ⟨123⟩

/-- Operator `EOpConstructIMat4x4` of the external glslang enum. -/
def EOpConstructIMat4x4 : TOperator := ⟨124⟩

/-- Operator `EOpConstructIVec2` of the external glslang enum. -/
def EOpConstructIVec2 : TOperator := ⟨125⟩

/-- Operator `EOpConstructIVec3` of the external glslang enum. -/
def EOpConstructIVec3 : TOperator := ⟨126⟩

/-- Operator `EOpConstructIVec4` of the external glslang enum. -/
def EOpConstructIVec4 : TOperator := ⟨127⟩

/-- Operator `EOpConstructInt` of the external glslang enum. -/
def EOpConstructInt : TOperator := ⟨128⟩

/-- Operator `EOpConstructInt16` of the external glslang enum. -/
def EOpConstructInt16 : TOperator := ⟨129⟩

/-- Operator `EOpConstructInt64` of the external glslang enum. -/
def EOpConstructInt64 : TOperator := ⟨130⟩

/-- Operator `EOpConstructInt8` of the external glslang enum. -/
def EOpConstructInt8 : TOperator := ⟨131⟩

/-- Operator `EOpConstructMat2x2` of the external glslang enum. -/
def EOpConstructMat2x2 : TOperator := ⟨132⟩

/-- Operator `EOpConstructMat2x3` of the external glslang enum. -/
def EOpConstructMat2x3 : TOperator := ⟨133⟩

/-- Operator `EOpConstructMat2x4` of the external glslang enum. -/
def EOpConstructMat2x4 : TOperator := ⟨134⟩

/-- Operator `EOpConstructMat3x2` of the external glslang enum. -/
def EOpConstructMat3x2 : TOperator := ⟨135⟩

/-- Operator `EOpConstructMat3x3` of the external glslang enum. -/
def EOpConstructMat3x3 : TOperator := ⟨136⟩

/-- Operator `EOpConstructMat3x4` of the external glslang enum. -/
def EOpConstructMat3x4 : TOperator := ⟨137⟩

/-- Operator `EOpConstructMat4x2` of the external glslang enum. -/
def EOpConstructMat4x2 : TOperator := ⟨138⟩

/-- Operator `EOpConstructMat4x3` of the external glslang enum. -/
def EOpConstructMat4x3 : TOperator := ⟨139⟩

/-- Operator `EOpConstructMat4x4` of the external glslang enum. -/
def EOpConstructMat4x4 : TOperator := ⟨140⟩

/-- Operator `EOpConstructNonuniform` of the external glslang enum. -/
def EOpConstructNonuniform : TOperator := ⟨141⟩

/-- Operator `EOpConstructReference` of the external glslang enum. -/
def EOpConstructReference : TOperator := ⟨142⟩

/-- Operator `EOpConstructStruct` of the external glslang enum. -/
def EOpConstructStruct : TOperator := ⟨143⟩

/-- Operator `EOpConstructTextureSampler` of the external glslang enum. -/
def EOpConstructTextureSampler : TOperator := ⟨144⟩

/-- Operator `EOpConstructU16Vec2` of the external glslang enum. -/
def EOpConstructU16Vec2 : TOperator := ⟨145⟩

/-- Operator `EOpConstructU16Vec3` of the external glslang enum. -/
def EOpConstructU16Vec3 : TOperator := ⟨146⟩

/-- Operator `EOpConstructU16Vec4` of the external glslang enum. -/
def EOpConstructU16Vec4 : TOperator := ⟨147⟩

/-- Operator `EOpConstructU64Vec2` of the external glslang enum. -/
def EOpConstructU64Vec2 : TOperator := ⟨148⟩

/-- Operator `EOpConstructU64Vec3` of the external glslang enum. -/
def EOpConstructU64Vec3 : TOperator := ⟨149⟩

/-- Operator `EOpConstructU64Vec4` of the external glslang enum. -/
def EOpConstructU64Vec4 : TOperator := ⟨150⟩

/-- Operator `EOpConstructU8Vec2` of the external glslang enum. -/
def EOpConstructU8Vec2 : TOperator := ⟨151⟩

/-- Operator `EOpConstructU8Vec3` of the external glslang enum. -/
def EOpConstructU8Vec3 : TOperator := ⟨152⟩

/-- Operator `EOpConstructU8Vec4` of the external glslang enum. -/
def EOpConstructU8Vec4 : TOperator := ⟨153⟩

/-- Operator `EOpConstructUMat2x2` of the external glslang enum. -/
def EOpConstructUMat2x2 : TOperator := ⟨154⟩

/-- Operator `EOpConstructUMat2x3` of the external glslang enum. -/
def EOpConstructUMat2x3 : TOperator := ⟨155⟩

/-- Operator `EOpConstructUMat2x4` of the external glslang enum. -/
def EOpConstructUMat2x4 : TOperator := ⟨156⟩

/-- Operator `EOpConstructUMat3x2` of the external glslang enum. -/
def EOpConstructUMat3x2 : TOperator := ⟨157⟩

/-- Operator `EOpConstructUMat3x3` of the external glslang enum. -/
def EOpConstructUMat3x3 : TOperator := ⟨158⟩

/-- Operator `EOpConstructUMat3x4` of the external glslang enum. -/
def EOpConstructUMat3x4 : TOperator := ⟨159⟩

/-- Operator `EOpConstructUMat4x2` of the external glslang enum. -/
def EOpConstructUMat4x2 : TOperator := ⟨160⟩

/-- Operator `EOpConstructUMat4x3` of the external glslang enum. -/
def EOpConstructUMat4x3 : TOperator := ⟨161⟩

/-- Operator `EOpConstructUMat4x4` of the external glslang enum. -/
def EOpConstructUMat4x4 : TOperator := ⟨162⟩

/-- Operator `EOpConstructUVec2` of the external glslang enum. -/
def EOpConstructUVec2 : TOperator := ⟨163⟩

/-- Operator `EOpConstructUVec3` of the external glslang enum. -/
def EOpConstructUVec3 : TOperator := ⟨164⟩

/-- Operator `EOpConstructUVec4` of the external glslang enum. -/
def EOpConstructUVec4 : TOperator := ⟨165⟩

/-- Operator `EOpConstructUint` of the external glslang enum. -/
def EOpConstructUint : TOperator := ⟨166⟩

/-- Operator `EOpConstructUint16` of the external glslang enum. -/
def EOpConstructUint16 : TOperator := ⟨167⟩

/-- Operator `EOpConstructUint64` of the external glslang enum. -/
def EOpConstructUint64 : TOperator := ⟨168⟩

/-- Operator `EOpConstructUint8` of the external glslang enum. -/
def EOpConstructUint8 : TOperator := ⟨169⟩

/-- Operator `EOpConstructVec2` of the external glslang enum. -/
def EOpConstructVec2 : TOperator := ⟨170⟩

/-- Operator `EOpConstructVec3` of the external glslang enum. -/
def EOpConstructVec3 : TOperator := ⟨171⟩

/-- Operator `EOpConstructVec4` of the external glslang enum. -/
def EOpConstructVec4 : TOperator := ⟨172⟩

/-- Operator `EOpContinue` of the external glslang enum. -/
def EOpContinue : TOperator := ⟨173⟩

/-- Operator `EOpConvBoolToDouble` of the external glslang enum. -/
def EOpConvBoolToDouble : TOperator := ⟨174⟩

/-- Operator `EOpConvBoolToFloat` of the external glslang enum. -/
def EOpConvBoolToFloat : TOperator := ⟨175⟩

/-- Operator `EOpConvBoolToInt` of the external glslang enum. -/
def EOpConvBoolToInt : TOperator := ⟨176⟩

/-- Operator `EOpConvBoolToUint` of the external glslang enum. -/
def EOpConvBoolToUint : TOperator := ⟨177⟩

/-- Operator `EOpConvDoubleToBool` of the external glslang enum. -/
def EOpConvDoubleToBool : TOperator := ⟨178⟩

/-- Operator `EOpConvDoubleToFloat` of the external glslang enum. -/
def EOpConvDoubleToFloat : TOperator := ⟨179⟩

/-- Operator `EOpConvDoubleToInt` of the external glslang enum. -/
def EOpConvDoubleToInt : TOperator := ⟨180⟩

/-- Operator `EOpConvDoubleToUint` of the external glslang enum. -/
def EOpConvDoubleToUint : TOperator := ⟨181⟩

/-- Operator `EOpConvFloatToBool` of the external glslang enum. -/
def EOpConvFloatToBool : TOperator := ⟨182⟩

/-- Operator `EOpConvFloatToDouble` of the external glslang enum. -/
def EOpConvFloatToDouble : TOperator := ⟨183⟩

/-- Operator `EOpConvFloatToInt` of the external glslang enum. -/
def EOpConvFloatToInt : TOperator := ⟨184⟩

/-- Operator `EOpConvFloatToUint` of the external glslang enum. -/
def EOpConvFloatToUint : TOperator := ⟨185⟩

/-- Operator `EOpConvIntToBool` of the external glslang enum. -/
def EOpConvIntToBool : TOperator := ⟨186⟩

/-- Operator `EOpConvIntToDouble` of the external glslang enum. -/
def EOpConvIntToDouble : TOperator := ⟨187⟩

/-- Operator `EOpConvIntToFloat` of the external glslang enum. -/
def EOpConvIntToFloat : TOperator := ⟨188⟩

/-- Operator `EOpConvIntToUint` of the external glslang enum. -/
def EOpConvIntToUint : TOperator := ⟨189⟩

/-- Operator `EOpConvUintToBool` of the external glslang enum. -/
def EOpConvUintToBool : TOperator := ⟨190⟩

/-- Operator `EOpConvUintToDouble` of the external glslang enum. -/
def EOpConvUintToDouble : TOperator := ⟨191⟩

/-- Operator `EOpConvUintToFloat` of the external glslang enum. -/
def EOpConvUintToFloat : TOperator := ⟨192⟩

/-- Operator `EOpConvUintToInt` of the external glslang enum. -/
def EOpConvUintToInt : TOperator := ⟨193⟩

/-- Operator `EOpCooperativeMatrixLoad` of the external glslang enum. -/
def EOpCooperativeMatrixLoad : TOperator := ⟨194⟩

/-- Operator `EOpCooperativeMatrixLoadNV` of the external glslang enum. -/
def EOpCooperativeMatrixLoadNV : TOperator := ⟨195⟩

/-- Operator `EOpCooperativeMatrixMulAdd` of the external glslang enum. -/
def EOpCooperativeMatrixMulAdd : TOperator := ⟨196⟩

/-- Operator `EOpCooperativeMatrixMulAddNV` of the external glslang enum. -/
def EOpCooperativeMatrixMulAddNV : TOperator := ⟨197⟩

/-- Operator `EOpCooperativeMatrixStore` of the external glslang enum. -/
def EOpCooperativeMatrixStore : TOperator := ⟨198⟩

/-- Operator `EOpCooperativeMatrixStoreNV` of the external glslang enum. -/
def EOpCooperativeMatrixStoreNV : TOperator := ⟨199⟩

/-- Operator `EOpCos` of the external glslang enum. -/
def EOpCos : TOperator := ⟨200⟩

/-- Operator `EOpCosh` of the external glslang enum. -/
def EOpCosh : TOperator := ⟨201⟩

/-- Operator `EOpCountLeadingZeros` of the external glslang enum. -/
def EOpCountLeadingZeros : TOperator := ⟨202⟩

/-- Operator `EOpCountTrailingZeros` of the external glslang enum. -/
def EOpCountTrailingZeros : TOperator := ⟨203⟩

/-- Operator `EOpCross` of the external glslang enum. -/
def EOpCross : TOperator := ⟨204⟩

/-- Operator `EOpCubeFaceCoord` of the external glslang enum. -/
def EOpCubeFaceCoord : TOperator := ⟨205⟩

/-- Operator `EOpCubeFaceIndex` of the external glslang enum. -/
def EOpCubeFaceIndex : TOperator := ⟨206⟩

/-- Operator `EOpDPdx` of the external glslang enum. -/
def EOpDPdx : TOperator := ⟨207⟩

/-- Operator `EOpDPdxCoarse` of the external glslang enum. -/
def EOpDPdxCoarse : TOperator := ⟨208⟩

/-- Operator `EOpDPdxFine` of the external glslang enum. -/
def EOpDPdxFine : TOperator := ⟨209⟩

/-- Operator `EOpDPdy` of the external glslang enum. -/
def EOpDPdy : TOperator := ⟨210⟩

/-- Operator `EOpDPdyCoarse` of the external glslang enum. -/
def EOpDPdyCoarse : TOperator := ⟨211⟩

/-- Operator `EOpDPdyFine` of the external glslang enum. -/
def EOpDPdyFine : TOperator := ⟨212⟩

/-- Operator `EOpDebugPrintf` of the external glslang enum. -/
def EOpDebugPrintf : TOperator := ⟨213⟩

/-- Operator `EOpDefault` of the external glslang enum. -/
def EOpDefault : TOperator := ⟨214⟩

/-- Operator `EOpDegrees` of the external glslang enum. -/
def EOpDegrees : TOperator := ⟨215⟩

/-- Operator `EOpDemote` of the external glslang enum. -/
def EOpDemote : TOperator := ⟨216⟩

/-- Operator `EOpDepthAttachmentReadEXT` of the external glslang enum. -/
def EOpDepthAttachmentReadEXT : TOperator := ⟨217⟩

/-- Operator `EOpDeterminant` of the external glslang enum. -/
def EOpDeterminant : TOperator := ⟨218⟩

/-- Operator `EOpDistance` of the external glslang enum. -/
def EOpDistance : TOperator := ⟨219⟩

/-- Operator `EOpDiv` of the external glslang enum. -/
def EOpDiv : TOperator := ⟨220⟩

/-- Operator `EOpDivAssign` of the external glslang enum. -/
def EOpDivAssign : TOperator := ⟨221⟩

/-- Operator `EOpDot` of the external glslang enum. -/
def EOpDot : TOperator := ⟨222⟩

/-- Operator `EOpEmitMeshTasksEXT` of the external glslang enum. -/
def EOpEmitMeshTasksEXT : TOperator := ⟨223⟩

/-- Operator `EOpEmitStreamVertex` of the external glslang enum. -/
def EOpEmitStreamVertex : TOperator := ⟨224⟩

/-- Operator `EOpEmitVertex` of the external glslang enum. -/
def EOpEmitVertex : TOperator := ⟨225⟩

/-- Operator `EOpEndInvocationInterlock` of the external glslang enum. -/
def EOpEndInvocationInterlock : TOperator := ⟨226⟩

/-- Operator `EOpEndPrimitive` of the external glslang enum. -/
def EOpEndPrimitive : TOperator := ⟨227⟩

/-- Operator `EOpEndStreamPrimitive` of the external glslang enum. -/
def EOpEndStreamPrimitive : TOperator := ⟨228⟩

/-- Operator `EOpEqual` of the external glslang enum. -/
def EOpEqual : TOperator := ⟨229⟩

/-- Operator `EOpExclusiveOr` of the external glslang enum. -/
def EOpExclusiveOr : TOperator := ⟨230⟩

/-- Operator `EOpExclusiveOrAssign` of the external glslang enum. -/
def EOpExclusiveOrAssign : TOperator := ⟨231⟩

/-- Operator `EOpExecuteCallableKHR` of the external glslang enum. -/
def EOpExecuteCallableKHR : TOperator := ⟨232⟩

/-- Operator `EOpExecuteCallableNV` of the external glslang enum. -/
def EOpExecuteCallableNV : TOperator := ⟨233⟩

/-- Operator `EOpExp` of the external glslang enum. -/
def EOpExp : TOperator := ⟨234⟩

/-- Operator `EOpExp2` of the external glslang enum. -/
def EOpExp2 : TOperator := ⟨235⟩

/-- Operator `EOpFaceForward` of the external glslang enum. -/
def EOpFaceForward : TOperator := ⟨236⟩

/-- Operator `EOpFetchMicroTriangleVertexBarycentricNV` of the external glslang enum. -/
def EOpFetchMicroTriangleVertexBarycentricNV : TOperator := ⟨237⟩

/-- Operator `EOpFetchMicroTriangleVertexPositionNV` of the external glslang enum. -/
def EOpFetchMicroTriangleVertexPositionNV : TOperator := ⟨238⟩

/-- Operator `EOpFindLSB` of the external glslang enum. -/
def EOpFindLSB : TOperator := ⟨239⟩

/-- Operator `EOpFindMSB` of the external glslang enum. -/
def EOpFindMSB : TOperator := ⟨240⟩

/-- Operator `EOpFloatBitsToInt` of the external glslang enum. -/
def EOpFloatBitsToInt : TOperator := ⟨241⟩

/-- Operator `EOpFloatBitsToUint` of the external glslang enum. -/
def EOpFloatBitsToUint : TOperator := ⟨242⟩

/-- Operator `EOpFloor` of the external glslang enum. -/
def EOpFloor : TOperator := ⟨243⟩

/-- Operator `EOpFma` of the external glslang enum. -/
def EOpFma : TOperator := ⟨244⟩

/-- Operator `EOpFract` of the external glslang enum. -/
def EOpFract : TOperator := ⟨245⟩

/-- Operator `EOpFragmentFetch` of the external glslang enum. -/
def EOpFragmentFetch : TOperator := ⟨246⟩

/-- Operator `EOpFragmentMaskFetch` of the external glslang enum. -/
def EOpFragmentMaskFetch : TOperator := ⟨247⟩

/-- Operator `EOpFrexp` of the external glslang enum. -/
def EOpFrexp : TOperator := ⟨248⟩

/-- Operator `EOpFtransform` of the external glslang enum. -/
def EOpFtransform : TOperator := ⟨249⟩

/-- Operator `EOpFwidth` of the external glslang enum. -/
def EOpFwidth : TOperator := ⟨250⟩

/-- Operator `EOpFwidthCoarse` of the external glslang enum. -/
def EOpFwidthCoarse : TOperator := ⟨251⟩

/-- Operator `EOpFwidthFine` of the external glslang enum. -/
def EOpFwidthFine : TOperator := ⟨252⟩

/-- Operator `EOpGreaterThan` of the external glslang enum. -/
def EOpGreaterThan : TOperator := ⟨253⟩

/-- Operator `EOpGreaterThanEqual` of the external glslang enum. -/
def EOpGreaterThanEqual : TOperator := ⟨254⟩

/-- Operator `EOpGroupMemoryBarrier` of the external glslang enum. -/
def EOpGroupMemoryBarrier : TOperator := ⟨255⟩

/-- Operator `EOpHitObjectExecuteShaderNV` of the external glslang enum. -/
def EOpHitObjectExecuteShaderNV : TOperator := ⟨256⟩

/-- Operator `EOpHitObjectGetAttributesNV` of the external glslang enum. -/
def EOpHitObjectGetAttributesNV : TOperator := ⟨257⟩

/-- Operator `EOpHitObjectGetCurrentTimeNV` of the external glslang enum. -/
def EOpHitObjectGetCurrentTimeNV : TOperator := ⟨258⟩

/-- Operator `EOpHitObjectGetGeometryIndexNV` of the external glslang enum. -/
def EOpHitObjectGetGeometryIndexNV : TOperator := ⟨259⟩

/-- Operator `EOpHitObjectGetHitKindNV` of the external glslang enum. -/
def EOpHitObjectGetHitKindNV : TOperator := ⟨260⟩

/-- Operator `EOpHitObjectGetInstanceCustomIndexNV` of the external glslang enum. -/
def EOpHitObjectGetInstanceCustomIndexNV : TOperator := ⟨261⟩

/-- Operator `EOpHitObjectGetInstanceIdNV` of the external glslang enum. -/
def EOpHitObjectGetInstanceIdNV : TOperator := ⟨262⟩

/-- Operator `EOpHitObjectGetObjectRayDirectionNV` of the external glslang enum. -/
def EOpHitObjectGetObjectRayDirectionNV : TOperator := ⟨263⟩

/-- Operator `EOpHitObjectGetObjectRayOriginNV` of the external glslang enum. -/
def EOpHitObjectGetObjectRayOriginNV : TOperator := ⟨264⟩

/-- Operator `EOpHitObjectGetObjectToWorldNV` of the external glslang enum. -/
def EOpHitObjectGetObjectToWorldNV : TOperator := ⟨265⟩

/-- Operator `EOpHitObjectGetPrimitiveIndexNV` of the external glslang enum. -/
def EOpHitObjectGetPrimitiveIndexNV : TOperator := ⟨266⟩

/-- Operator `EOpHitObjectGetRayTMaxNV` of the external glslang enum. -/
def EOpHitObjectGetRayTMaxNV : TOperator := ⟨267⟩

/-- Operator `EOpHitObjectGetRayTMinNV` of the external glslang enum. -/
def EOpHitObjectGetRayTMinNV : TOperator := ⟨268⟩

/-- Operator `EOpHitObjectGetShaderBindingTableRecordIndexNV` of the external glslang enum. -/
def EOpHitObjectGetShaderBindingTableRecordIndexNV : TOperator := ⟨269⟩

/-- Operator `EOpHitObjectGetShaderRecordBufferHandleNV` of the external glslang enum. -/
def EOpHitObjectGetShaderRecordBufferHandleNV : TOperator := ⟨270⟩

/-- Operator `EOpHitObjectGetWorldRayDirectionNV` of the external glslang enum. -/
def EOpHitObjectGetWorldRayDirectionNV : TOperator := ⟨271⟩

/-- Operator `EOpHitObjectGetWorldRayOriginNV` of the external glslang enum. -/
def EOpHitObjectGetWorldRayOriginNV : TOperator := ⟨272⟩

/-- Operator `EOpHitObjectGetWorldToObjectNV` of the external glslang enum. -/
def EOpHitObjectGetWorldToObjectNV : TOperator := ⟨273⟩

/-- Operator `EOpHitObjectIsEmptyNV` of the external glslang enum. -/
def EOpHitObjectIsEmptyNV : TOperator := ⟨274⟩

/-- Operator `EOpHitObjectIsHitNV` of the external glslang enum. -/
def EOpHitObjectIsHitNV : TOperator := ⟨275⟩

/-- Operator `EOpHitObjectIsMissNV` of the external glslang enum. -/
def EOpHitObjectIsMissNV : TOperator := ⟨276⟩

/-- Operator `EOpHitObjectRecordEmptyNV` of the external glslang enum. -/
def EOpHitObjectRecordEmptyNV : TOperator := ⟨277⟩

/-- Operator `EOpHitObjectRecordHitMotionNV` of the external glslang enum. -/
def EOpHitObjectRecordHitMotionNV : TOperator := ⟨278⟩

/-- Operator `EOpHitObjectRecordHitNV` of the external glslang enum. -/
def EOpHitObjectRecordHitNV : TOperator := ⟨279⟩

/-- Operator `EOpHitObjectRecordHitWithIndexMotionNV` of the external glslang enum. -/
def EOpHitObjectRecordHitWithIndexMotionNV : TOperator := ⟨280⟩

/-- Operator `EOpHitObjectRecordHitWithIndexNV` of the external glslang enum. -/
def EOpHitObjectRecordHitWithIndexNV : TOperator := ⟨281⟩

/-- Operator `EOpHitObjectRecordMissMotionNV` of the external glslang enum. -/
def EOpHitObjectRecordMissMotionNV : TOperator := ⟨282⟩

/-- Operator `EOpHitObjectRecordMissNV` of the external glslang enum. -/
def EOpHitObjectRecordMissNV : TOperator := ⟨283⟩

/-- Operator `EOpHitObjectTraceRayMotionNV` of the external glslang enum. -/
def EOpHitObjectTraceRayMotionNV : TOperator := ⟨284⟩

/-- Operator `EOpHitObjectTraceRayNV` of the external glslang enum. -/
def EOpHitObjectTraceRayNV : TOperator := ⟨285⟩

/-- Operator `EOpIMulExtended` of the external glslang enum. -/
def EOpIMulExtended : TOperator := ⟨286⟩

/-- Operator `EOpIgnoreIntersectionKHR` of the external glslang enum. -/
def EOpIgnoreIntersectionKHR : TOperator := ⟨287⟩

/-- Operator `EOpIgnoreIntersectionNV` of the external glslang enum. -/
def EOpIgnoreIntersectionNV : TOperator := ⟨288⟩

/-- Operator `EOpImageAtomicAdd` of the external glslang enum. -/
def EOpImageAtomicAdd : TOperator := ⟨289⟩

/-- Operator `EOpImageAtomicAnd` of the external glslang enum. -/
def EOpImageAtomicAnd : TOperator := ⟨290⟩

/-- Operator `EOpImageAtomicCompSwap` of the external glslang enum. -/
def EOpImageAtomicCompSwap : TOperator := ⟨291⟩

/-- Operator `EOpImageAtomicExchange` of the external glslang enum. -/
def EOpImageAtomicExchange : TOperator := ⟨292⟩

/-- Operator `EOpImageAtomicLoad` of the external glslang enum. -/
def EOpImageAtomicLoad : TOperator := ⟨293⟩

/-- Operator `EOpImageAtomicMax` of the external glslang enum. -/
def EOpImageAtomicMax : TOperator := ⟨294⟩

/-- Operator `EOpImageAtomicMin` of the external glslang enum. -/
def EOpImageAtomicMin : TOperator := ⟨295⟩

/-- Operator `EOpImageAtomicOr` of the external glslang enum. -/
def EOpImageAtomicOr : TOperator := ⟨296⟩

/-- Operator `EOpImageAtomicStore` of the external glslang enum. -/
def EOpImageAtomicStore : TOperator := ⟨297⟩

/-- Operator `EOpImageAtomicXor` of the external glslang enum. -/
def EOpImageAtomicXor : TOperator := ⟨298⟩

/-- Operator `EOpImageBlockMatchSADQCOM` of the external glslang enum. -/
def EOpImageBlockMatchSADQCOM : TOperator := ⟨299⟩

/-- Operator `EOpImageBlockMatchSSDQCOM` of the external glslang enum. -/
def EOpImageBlockMatchSSDQCOM : TOperator := ⟨300⟩

/-- Operator `EOpImageBoxFilterQCOM` of the external glslang enum. -/
def EOpImageBoxFilterQCOM : TOperator := ⟨301⟩

/-- Operator `EOpImageLoad` of the external glslang enum. -/
def EOpImageLoad : TOperator := ⟨302⟩

/-- Operator `EOpImageLoadLod` of the external glslang enum. -/
def EOpImageLoadLod : TOperator := ⟨303⟩

/-- Operator `EOpImageQuerySamples` of the external glslang enum. -/
def EOpImageQuerySamples : TOperator := ⟨304⟩

/-- Operator `EOpImageQuerySize` of the external glslang enum. -/
def EOpImageQuerySize : TOperator := ⟨305⟩

/-- Operator `EOpImageSampleFootprintClampNV` of the external glslang enum. -/
def EOpImageSampleFootprintClampNV : TOperator := ⟨306⟩

/-- Operator `EOpImageSampleFootprintGradClampNV` of the external glslang enum. -/
def EOpImageSampleFootprintGradClampNV : TOperator := ⟨307⟩

/-- Operator `EOpImageSampleFootprintGradNV` of the external glslang enum. -/
def EOpImageSampleFootprintGradNV : TOperator := ⟨308⟩

/-- Operator `EOpImageSampleFootprintLodNV` of the external glslang enum. -/
def EOpImageSampleFootprintLodNV : TOperator := ⟨309⟩

/-- Operator `EOpImageSampleFootprintNV` of the external glslang enum. -/
def EOpImageSampleFootprintNV : TOperator := ⟨310⟩

/-- Operator `EOpImageSampleWeightedQCOM` of the external glslang enum. -/
def EOpImageSampleWeightedQCOM : TOperator := ⟨311⟩

/-- Operator `EOpImageStore` of the external glslang enum. -/
def EOpImageStore : TOperator := ⟨312⟩

/-- Operator `EOpImageStoreLod` of the external glslang enum. -/
def EOpImageStoreLod : TOperator := ⟨313⟩

/-- Operator `EOpInclusiveOr` of the external glslang enum. -/
def EOpInclusiveOr : TOperator := ⟨314⟩

/-- Operator `EOpInclusiveOrAssign` of the external glslang enum. -/
def EOpInclusiveOrAssign : TOperator := ⟨315⟩

/-- Operator `EOpIndexDirect` of the external glslang enum. -/
def EOpIndexDirect : TOperator := ⟨316⟩

/-- Operator `EOpIndexDirectStruct` of the external glslang enum. -/
def EOpIndexDirectStruct : TOperator := ⟨317⟩

/-- Operator `EOpIndexIndirect` of the external glslang enum. -/
def EOpIndexIndirect : TOperator := ⟨318⟩

/-- Operator `EOpIntBitsToFloat` of the external glslang enum. -/
def EOpIntBitsToFloat : TOperator := ⟨319⟩

/-- Operator `EOpInterpolateAtCentroid` of the external glslang enum. -/
def EOpInterpolateAtCentroid : TOperator := ⟨320⟩

/-- Operator `EOpInterpolateAtOffset` of the external glslang enum. -/
def EOpInterpolateAtOffset : TOperator := ⟨321⟩

/-- Operator `EOpInterpolateAtSample` of the external glslang enum. -/
def EOpInterpolateAtSample : TOperator := ⟨322⟩

/-- Operator `EOpInterpolateAtVertex` of the external glslang enum. -/
def EOpInterpolateAtVertex : TOperator := ⟨323⟩

/-- Operator `EOpInverseSqrt` of the external glslang enum. -/
def EOpInverseSqrt : TOperator := ⟨324⟩

/-- Operator `EOpIsHelperInvocation` of the external glslang enum. -/
def EOpIsHelperInvocation : TOperator := ⟨325⟩

/-- Operator `EOpIsInf` of the external glslang enum. -/
def EOpIsInf : TOperator := ⟨326⟩

/-- Operator `EOpIsNan` of the external glslang enum. -/
def EOpIsNan : TOperator := ⟨327⟩

/-- Operator `EOpKill` of the external glslang enum. -/
def EOpKill : TOperator := ⟨328⟩

/-- Operator `EOpLdexp` of the external glslang enum. -/
def EOpLdexp : TOperator := ⟨329⟩

/-- Operator `EOpLeftShift` of the external glslang enum. -/
def EOpLeftShift : TOperator := ⟨330⟩

/-- Operator `EOpLeftShiftAssign` of the external glslang enum. -/
def EOpLeftShiftAssign : TOperator := ⟨331⟩

/-- Operator `EOpLength` of the external glslang enum. -/
def EOpLength : TOperator := ⟨332⟩

/-- Operator `EOpLessThan` of the external glslang enum. -/
def EOpLessThan : TOperator := ⟨333⟩

/-- Operator `EOpLessThanEqual` of the external glslang enum. -/
def EOpLessThanEqual : TOperator := ⟨334⟩

/-- Operator `EOpLog` of the external glslang enum. -/
def EOpLog : TOperator := ⟨335⟩

/-- Operator `EOpLog2` of the external glslang enum. -/
def EOpLog2 : TOperator := ⟨336⟩

/-- Operator `EOpLogicalAnd` of the external glslang enum. -/
def EOpLogicalAnd : TOperator := ⟨337⟩

/-- Operator `EOpLogicalNot` of the external glslang enum. -/
def EOpLogicalNot : TOperator := ⟨338⟩

/-- Operator `EOpLogicalOr` of the external glslang enum. -/
def EOpLogicalOr : TOperator := ⟨339⟩

/-- Operator `EOpLogicalXor` of the external glslang enum. -/
def EOpLogicalXor : TOperator := ⟨340⟩

/-- Operator `EOpMatrixInverse` of the external glslang enum. -/
def EOpMatrixInverse : TOperator := ⟨341⟩

/-- Operator `EOpMatrixTimesMatrixAssign` of the external glslang enum. -/
def EOpMatrixTimesMatrixAssign : TOperator := ⟨342⟩

/-- Operator `EOpMatrixTimesScalar` of the external glslang enum. -/
def EOpMatrixTimesScalar : TOperator := ⟨343⟩

/-- Operator `EOpMatrixTimesScalarAssign` of the external glslang enum. -/
def EOpMatrixTimesScalarAssign : TOperator := ⟨344⟩

/-- Operator `EOpMatrixTimesVector` of the external glslang enum. -/
def EOpMatrixTimesVector : TOperator := ⟨345⟩

/-- Operator `EOpMax` of the external glslang enum. -/
def EOpMax : TOperator := ⟨346⟩

/-- Operator `EOpMax3` of the external glslang enum. -/
def EOpMax3 : TOperator := ⟨347⟩

/-- Operator `EOpMaxInvocations` of the external glslang enum. -/
def EOpMaxInvocations : TOperator := ⟨348⟩

/-- Operator `EOpMaxInvocationsExclusiveScan` of the external glslang enum. -/
def EOpMaxInvocationsExclusiveScan : TOperator := ⟨349⟩

/-- Operator `EOpMaxInvocationsExclusiveScanNonUniform` of the external glslang enum. -/
def EOpMaxInvocationsExclusiveScanNonUniform : TOperator := ⟨350⟩

/-- Operator `EOpMaxInvocationsInclusiveScan` of the external glslang enum. -/
def EOpMaxInvocationsInclusiveScan : TOperator := ⟨351⟩

/-- Operator `EOpMaxInvocationsInclusiveScanNonUniform` of the external glslang enum. -/
def EOpMaxInvocationsInclusiveScanNonUniform : TOperator := ⟨352⟩

/-- Operator `EOpMaxInvocationsNonUniform` of the external glslang enum. -/
def EOpMaxInvocationsNonUniform : TOperator := ⟨353⟩

/-- Operator `EOpMbcnt` of the external glslang enum. -/
def EOpMbcnt : TOperator := ⟨354⟩

/-- Operator `EOpMemoryBarrier` of the external glslang enum. -/
def EOpMemoryBarrier : TOperator := ⟨355⟩

/-- Operator `EOpMemoryBarrierAtomicCounter` of the external glslang enum. -/
def EOpMemoryBarrierAtomicCounter : TOperator := ⟨356⟩

/-- Operator `EOpMemoryBarrierBuffer` of the external glslang enum. -/
def EOpMemoryBarrierBuffer : TOperator := ⟨357⟩

/-- Operator `EOpMemoryBarrierImage` of the external glslang enum. -/
def EOpMemoryBarrierImage : TOperator := ⟨358⟩

/-- Operator `EOpMemoryBarrierShared` of the external glslang enum. -/
def EOpMemoryBarrierShared : TOperator := ⟨359⟩

/-- Operator `EOpMid3` of the external glslang enum. -/
def EOpMid3 : TOperator := ⟨360⟩

/-- Operator `EOpMin` of the external glslang enum. -/
def EOpMin : TOperator := ⟨361⟩

/-- Operator `EOpMin3` of the external glslang enum. -/
def EOpMin3 : TOperator := ⟨362⟩

/-- Operator `EOpMinInvocations` of the external glslang enum. -/
def EOpMinInvocations : TOperator := ⟨363⟩

/-- Operator `EOpMinInvocationsExclusiveScan` of the external glslang enum. -/
def EOpMinInvocationsExclusiveScan : TOperator := ⟨364⟩

/-- Operator `EOpMinInvocationsExclusiveScanNonUniform` of the external glslang enum. -/
def EOpMinInvocationsExclusiveScanNonUniform : TOperator := ⟨365⟩

/-- Operator `EOpMinInvocationsInclusiveScan` of the external glslang enum. -/
def EOpMinInvocationsInclusiveScan : TOperator := ⟨366⟩

/-- Operator `EOpMinInvocationsInclusiveScanNonUniform` of the external glslang enum. -/
def EOpMinInvocationsInclusiveScanNonUniform : TOperator := ⟨367⟩

/-- Operator `EOpMinInvocationsNonUniform` of the external glslang enum. -/
def EOpMinInvocationsNonUniform : TOperator := ⟨368⟩

/-- Operator `EOpMix` of the external glslang enum. -/
def EOpMix : TOperator := ⟨369⟩

/-- Operator `EOpMod` of the external glslang enum. -/
def EOpMod : TOperator := ⟨370⟩

/-- Operator `EOpModAssign` of the external glslang enum. -/
def EOpModAssign : TOperator := ⟨371⟩

/-- Operator `EOpModf` of the external glslang enum. -/
def EOpModf : TOperator := ⟨372⟩

/-- Operator `EOpMul` of the external glslang enum. -/
def EOpMul : TOperator := ⟨373⟩

/-- Operator `EOpMul32x16` of the external glslang enum. -/
def EOpMul32x16 : TOperator := ⟨374⟩

/-- Operator `EOpMulAssign` of the external glslang enum. -/
def EOpMulAssign : TOperator := ⟨375⟩

/-- Operator `EOpNegative` of the external glslang enum. -/
def EOpNegative : TOperator := ⟨376⟩

/-- Operator `EOpNormalize` of the external glslang enum. -/
def EOpNormalize : TOperator := ⟨377⟩

/-- Operator `EOpNotEqual` of the external glslang enum. -/
def EOpNotEqual : TOperator := ⟨378⟩

/-- Operator `EOpOuterProduct` of the external glslang enum. -/
def EOpOuterProduct : TOperator := ⟨379⟩

/-- Operator `EOpPack16` of the external glslang enum. -/
def EOpPack16 : TOperator := ⟨380⟩

/-- Operator `EOpPack32` of the external glslang enum. -/
def EOpPack32 : TOperator := ⟨381⟩

/-- Operator `EOpPack64` of the external glslang enum. -/
def EOpPack64 : TOperator := ⟨382⟩

/-- Operator `EOpPackDouble2x32` of the external glslang enum. -/
def EOpPackDouble2x32 : TOperator := ⟨383⟩

/-- Operator `EOpPackFloat2x16` of the external glslang enum. -/
def EOpPackFloat2x16 : TOperator := ⟨384⟩

/-- Operator `EOpPackHalf2x16` of the external glslang enum. -/
def EOpPackHalf2x16 : TOperator := ⟨385⟩

/-- Operator `EOpPackInt2x16` of the external glslang enum. -/
def EOpPackInt2x16 : TOperator := ⟨386⟩

/-- Operator `EOpPackInt2x32` of the external glslang enum. -/
def EOpPackInt2x32 : TOperator := ⟨387⟩

/-- Operator `EOpPackInt4x16` of the external glslang enum. -/
def EOpPackInt4x16 : TOperator := ⟨388⟩

/-- Operator `EOpPackSnorm2x16` of the external glslang enum. -/
def EOpPackSnorm2x16 : TOperator := ⟨389⟩

/-- Operator `EOpPackSnorm4x8` of the external glslang enum. -/
def EOpPackSnorm4x8 : TOperator := ⟨390⟩

/-- Operator `EOpPackUint2x16` of the external glslang enum. -/
def EOpPackUint2x16 : TOperator := ⟨391⟩

/-- Operator `EOpPackUint2x32` of the external glslang enum. -/
def EOpPackUint2x32 : TOperator := ⟨392⟩

/-- Operator `EOpPackUint4x16` of the external glslang enum. -/
def EOpPackUint4x16 : TOperator := ⟨393⟩

/-- Operator `EOpPackUnorm2x16` of the external glslang enum. -/
def EOpPackUnorm2x16 : TOperator := ⟨394⟩

/-- Operator `EOpPackUnorm4x8` of the external glslang enum. -/
def EOpPackUnorm4x8 : TOperator := ⟨395⟩

/-- Operator `EOpPostDecrement` of the external glslang enum. -/
def EOpPostDecrement : TOperator := ⟨396⟩

/-- Operator `EOpPostIncrement` of the external glslang enum. -/
def EOpPostIncrement : TOperator := ⟨397⟩

/-- Operator `EOpPow` of the external glslang enum. -/
def EOpPow : TOperator := ⟨398⟩

/-- Operator `EOpPreDecrement` of the external glslang enum. -/
def EOpPreDecrement : TOperator := ⟨399⟩

/-- Operator `EOpPreIncrement` of the external glslang enum. -/
def EOpPreIncrement : TOperator := ⟨400⟩

/-- Operator `EOpRadians` of the external glslang enum. -/
def EOpRadians : TOperator := ⟨401⟩

/-- Operator `EOpRayQueryConfirmIntersection` of the external glslang enum. -/
def EOpRayQueryConfirmIntersection : TOperator := ⟨402⟩

/-- Operator `EOpRayQueryGenerateIntersection` of the external glslang enum. -/
def EOpRayQueryGenerateIntersection : TOperator := ⟨403⟩

/-- Operator `EOpRayQueryGetIntersectionBarycentrics` of the external glslang enum. -/
def EOpRayQueryGetIntersectionBarycentrics : TOperator := ⟨404⟩

/-- Operator `EOpRayQueryGetIntersectionCandidateAABBOpaque` of the external glslang enum. -/
def EOpRayQueryGetIntersectionCandidateAABBOpaque : TOperator := ⟨405⟩

/-- Operator `EOpRayQueryGetIntersectionFrontFace` of the external glslang enum. -/
def EOpRayQueryGetIntersectionFrontFace : TOperator := ⟨406⟩

/-- Operator `EOpRayQueryGetIntersectionGeometryIndex` of the external glslang enum. -/
def EOpRayQueryGetIntersectionGeometryIndex : TOperator := ⟨407⟩

/-- Operator `EOpRayQueryGetIntersectionInstanceCustomIndex` of the external glslang enum. -/
def EOpRayQueryGetIntersectionInstanceCustomIndex : TOperator := ⟨408⟩

/-- Operator `EOpRayQueryGetIntersectionInstanceId` of the external glslang enum. -/
def EOpRayQueryGetIntersectionInstanceId : TOperator := ⟨409⟩

/-- Operator `EOpRayQueryGetIntersectionInstanceShaderBindingTableRecordOffset` of the external glslang enum. -/
def EOpRayQueryGetIntersectionInstanceShaderBindingTableRecordOffset : TOperator := ⟨410⟩

/-- Operator `EOpRayQueryGetIntersectionObjectRayDirection` of the external glslang enum. -/
def EOpRayQueryGetIntersectionObjectRayDirection : TOperator := ⟨411⟩

/-- Operator `EOpRayQueryGetIntersectionObjectRayOrigin` of the external glslang enum. -/
def EOpRayQueryGetIntersectionObjectRayOrigin : TOperator := ⟨412⟩

/-- Operator `EOpRayQueryGetIntersectionObjectToWorld` of the external glslang enum. -/
def EOpRayQueryGetIntersectionObjectToWorld : TOperator := ⟨413⟩

/-- Operator `EOpRayQueryGetIntersectionPrimitiveIndex` of the external glslang enum. -/
def EOpRayQueryGetIntersectionPrimitiveIndex : TOperator := ⟨414⟩

/-- Operator `EOpRayQueryGetIntersectionT` of the external glslang enum. -/
def EOpRayQueryGetIntersectionT : TOperator := ⟨415⟩

/-- Operator `EOpRayQueryGetIntersectionTriangleVertexPositionsEXT` of the external glslang enum. -/
def EOpRayQueryGetIntersectionTriangleVertexPositionsEXT : TOperator := ⟨416⟩

/-- Operator `EOpRayQueryGetIntersectionType` of the external glslang enum. -/
def EOpRayQueryGetIntersectionType : TOperator := ⟨417⟩

/-- Operator `EOpRayQueryGetIntersectionWorldToObject` of the external glslang enum. -/
def EOpRayQueryGetIntersectionWorldToObject : TOperator := ⟨418⟩

/-- Operator `EOpRayQueryGetRayFlags` of the external glslang enum. -/
def EOpRayQueryGetRayFlags : TOperator := ⟨419⟩

/-- Operator `EOpRayQueryGetRayTMin` of the external glslang enum. -/
def EOpRayQueryGetRayTMin : TOperator := ⟨420⟩

/-- Operator `EOpRayQueryGetWorldRayDirection` of the external glslang enum. -/
def EOpRayQueryGetWorldRayDirection : TOperator := ⟨421⟩

/-- Operator `EOpRayQueryGetWorldRayOrigin` of the external glslang enum. -/
def EOpRayQueryGetWorldRayOrigin : TOperator := ⟨422⟩

/-- Operator `EOpRayQueryInitialize` of the external glslang enum. -/
def EOpRayQueryInitialize : TOperator := ⟨423⟩

/-- Operator `EOpRayQueryProceed` of the external glslang enum. -/
def EOpRayQueryProceed : TOperator := ⟨424⟩

/-- Operator `EOpRayQueryTerminate` of the external glslang enum. -/
def EOpRayQueryTerminate : TOperator := ⟨425⟩

/-- Operator `EOpReadFirstInvocation` of the external glslang enum. -/
def EOpReadFirstInvocation : TOperator := ⟨426⟩

/-- Operator `EOpReadInvocation` of the external glslang enum. -/
def EOpReadInvocation : TOperator := ⟨427⟩

/-- Operator `EOpReflect` of the external glslang enum. -/
def EOpReflect : TOperator := ⟨428⟩

/-- Operator `EOpRefract` of the external glslang enum. -/
def EOpRefract : TOperator := ⟨429⟩

/-- Operator `EOpReorderThreadNV` of the external glslang enum. -/
def EOpReorderThreadNV : TOperator := ⟨430⟩

/-- Operator `EOpReportIntersection` of the external glslang enum. -/
def EOpReportIntersection : TOperator := ⟨431⟩

/-- Operator `EOpReturn` of the external glslang enum. -/
def EOpReturn : TOperator := ⟨432⟩

/-- Operator `EOpRightShift` of the external glslang enum. -/
def EOpRightShift : TOperator := ⟨433⟩

/-- Operator `EOpRightShiftAssign` of the external glslang enum. -/
def EOpRightShiftAssign : TOperator := ⟨434⟩

/-- Operator `EOpRound` of the external glslang enum. -/
def EOpRound : TOperator := ⟨435⟩

/-- Operator `EOpRoundEven` of the external glslang enum. -/
def EOpRoundEven : TOperator := ⟨436⟩

/-- Operator `EOpSetMeshOutputsEXT` of the external glslang enum. -/
def EOpSetMeshOutputsEXT : TOperator := ⟨437⟩

/-- Operator `EOpSign` of the external glslang enum. -/
def EOpSign : TOperator := ⟨438⟩

/-- Operator `EOpSin` of the external glslang enum. -/
def EOpSin : TOperator := ⟨439⟩

/-- Operator `EOpSinh` of the external glslang enum. -/
def EOpSinh : TOperator := ⟨440⟩

/-- Operator `EOpSmoothStep` of the external glslang enum. -/
def EOpSmoothStep : TOperator := ⟨441⟩

/-- Operator `EOpSparseImageLoad` of the external glslang enum. -/
def EOpSparseImageLoad : TOperator := ⟨442⟩

/-- Operator `EOpSparseImageLoadLod` of the external glslang enum. -/
def EOpSparseImageLoadLod : TOperator := ⟨443⟩

/-- Operator `EOpSparseTexelsResident` of the external glslang enum. -/
def EOpSparseTexelsResident : TOperator := ⟨444⟩

/-- Operator `EOpSparseTexture` of the external glslang enum. -/
def EOpSparseTexture : TOperator := ⟨445⟩

/-- Operator `EOpSparseTextureClamp` of the external glslang enum. -/
def EOpSparseTextureClamp : TOperator := ⟨446⟩

/-- Operator `EOpSparseTextureFetch` of the external glslang enum. -/
def EOpSparseTextureFetch : TOperator := ⟨447⟩

/-- Operator `EOpSparseTextureFetchOffset` of the external glslang enum. -/
def EOpSparseTextureFetchOffset : TOperator := ⟨448⟩

/-- Operator `EOpSparseTextureGather` of the external glslang enum. -/
def EOpSparseTextureGather : TOperator := ⟨449⟩

/-- Operator `EOpSparseTextureGatherLod` of the external glslang enum. -/
def EOpSparseTextureGatherLod : TOperator := ⟨450⟩

/-- Operator `EOpSparseTextureGatherLodOffset` of the external glslang enum. -/
def EOpSparseTextureGatherLodOffset : TOperator := ⟨451⟩

/-- Operator `EOpSparseTextureGatherLodOffsets` of the external glslang enum. -/
def EOpSparseTextureGatherLodOffsets : TOperator := ⟨452⟩

/-- Operator `EOpSparseTextureGatherOffset` of the external glslang enum. -/
def EOpSparseTextureGatherOffset : TOperator := ⟨453⟩

/-- Operator `EOpSparseTextureGatherOffsets` of the external glslang enum. -/
def EOpSparseTextureGatherOffsets : TOperator := ⟨454⟩

/-- Operator `EOpSparseTextureGrad` of the external glslang enum. -/
def EOpSparseTextureGrad : TOperator := ⟨455⟩

/-- Operator `EOpSparseTextureGradClamp` of the external glslang enum. -/
def EOpSparseTextureGradClamp : TOperator := ⟨456⟩

/-- Operator `EOpSparseTextureGradOffset` of the external glslang enum. -/
def EOpSparseTextureGradOffset : TOperator := ⟨457⟩

/-- Operator `EOpSparseTextureGradOffsetClamp` of the external glslang enum. -/
def EOpSparseTextureGradOffsetClamp : TOperator := ⟨458⟩

/-- Operator `EOpSparseTextureLod` of the external glslang enum. -/
def EOpSparseTextureLod : TOperator := ⟨459⟩

/-- Operator `EOpSparseTextureLodOffset` of the external glslang enum. -/
def EOpSparseTextureLodOffset : TOperator := ⟨460⟩

/-- Operator `EOpSparseTextureOffset` of the external glslang enum. -/
def EOpSparseTextureOffset : TOperator := ⟨461⟩

/-- Operator `EOpSparseTextureOffsetClamp` of the external glslang enum. -/
def EOpSparseTextureOffsetClamp : TOperator := ⟨462⟩

/-- Operator `EOpSqrt` of the external glslang enum. -/
def EOpSqrt : TOperator := ⟨463⟩

/-- Operator `EOpStencilAttachmentReadEXT` of the external glslang enum. -/
def EOpStencilAttachmentReadEXT : TOperator := ⟨464⟩

/-- Operator `EOpStep` of the external glslang enum. -/
def EOpStep : TOperator := ⟨465⟩

/-- Operator `EOpSub` of the external glslang enum. -/
def EOpSub : TOperator := ⟨466⟩

/-- Operator `EOpSubAssign` of the external glslang enum. -/
def EOpSubAssign : TOperator := ⟨467⟩

/-- Operator `EOpSubBorrow` of the external glslang enum. -/
def EOpSubBorrow : TOperator := ⟨468⟩

/-- Operator `EOpSubSaturate` of the external glslang enum. -/
def EOpSubSaturate : TOperator := ⟨469⟩

/-- Operator `EOpSubgroupAdd` of the external glslang enum. -/
def EOpSubgroupAdd : TOperator := ⟨470⟩

/-- Operator `EOpSubgroupAll` of the external glslang enum. -/
def EOpSubgroupAll : TOperator := ⟨471⟩

/-- Operator `EOpSubgroupAllEqual` of the external glslang enum. -/
def EOpSubgroupAllEqual : TOperator := ⟨472⟩

/-- Operator `EOpSubgroupAnd` of the external glslang enum. -/
def EOpSubgroupAnd : TOperator := ⟨473⟩

/-- Operator `EOpSubgroupAny` of the external glslang enum. -/
def EOpSubgroupAny : TOperator := ⟨474⟩

/-- Operator `EOpSubgroupBallot` of the external glslang enum. -/
def EOpSubgroupBallot : TOperator := ⟨475⟩

/-- Operator `EOpSubgroupBallotBitCount` of the external glslang enum. -/
def EOpSubgroupBallotBitCount : TOperator := ⟨476⟩

/-- Operator `EOpSubgroupBallotBitExtract` of the external glslang enum. -/
def EOpSubgroupBallotBitExtract : TOperator := ⟨477⟩

/-- Operator `EOpSubgroupBallotExclusiveBitCount` of the external glslang enum. -/
def EOpSubgroupBallotExclusiveBitCount : TOperator := ⟨478⟩

/-- Operator `EOpSubgroupBallotFindLSB` of the external glslang enum. -/
def EOpSubgroupBallotFindLSB : TOperator := ⟨479⟩

/-- Operator `EOpSubgroupBallotFindMSB` of the external glslang enum. -/
def EOpSubgroupBallotFindMSB : TOperator := ⟨480⟩

/-- Operator `EOpSubgroupBallotInclusiveBitCount` of the external glslang enum. -/
def EOpSubgroupBallotInclusiveBitCount : TOperator := ⟨481⟩

/-- Operator `EOpSubgroupBarrier` of the external glslang enum. -/
def EOpSubgroupBarrier : TOperator := ⟨482⟩

/-- Operator `EOpSubgroupBroadcast` of the external glslang enum. -/
def EOpSubgroupBroadcast : TOperator := ⟨483⟩

/-- Operator `EOpSubgroupBroadcastFirst` of the external glslang enum. -/
def EOpSubgroupBroadcastFirst : TOperator := ⟨484⟩

/-- Operator `EOpSubgroupClusteredAdd` of the external glslang enum. -/
def EOpSubgroupClusteredAdd : TOperator := ⟨485⟩

/-- Operator `EOpSubgroupClusteredAnd` of the external glslang enum. -/
def EOpSubgroupClusteredAnd : TOperator := ⟨486⟩

/-- Operator `EOpSubgroupClusteredMax` of the external glslang enum. -/
def EOpSubgroupClusteredMax : TOperator := ⟨487⟩

/-- Operator `EOpSubgroupClusteredMin` of the external glslang enum. -/
def EOpSubgroupClusteredMin : TOperator := ⟨488⟩

/-- Operator `EOpSubgroupClusteredMul` of the external glslang enum. -/
def EOpSubgroupClusteredMul : TOperator := ⟨489⟩

/-- Operator `EOpSubgroupClusteredOr` of the external glslang enum. -/
def EOpSubgroupClusteredOr : TOperator := ⟨490⟩

/-- Operator `EOpSubgroupClusteredXor` of the external glslang enum. -/
def EOpSubgroupClusteredXor : TOperator := ⟨491⟩

/-- Operator `EOpSubgroupElect` of the external glslang enum. -/
def EOpSubgroupElect : TOperator := ⟨492⟩

/-- Operator `EOpSubgroupExclusiveAdd` of the external glslang enum. -/
def EOpSubgroupExclusiveAdd : TOperator := ⟨493⟩

/-- Operator `EOpSubgroupExclusiveAnd` of the external glslang enum. -/
def EOpSubgroupExclusiveAnd : TOperator := ⟨494⟩

/-- Operator `EOpSubgroupExclusiveMax` of the external glslang enum. -/
def EOpSubgroupExclusiveMax : TOperator := ⟨495⟩

/-- Operator `EOpSubgroupExclusiveMin` of the external glslang enum. -/
def EOpSubgroupExclusiveMin : TOperator := ⟨496⟩

/-- Operator `EOpSubgroupExclusiveMul` of the external glslang enum. -/
def EOpSubgroupExclusiveMul : TOperator := ⟨497⟩

/-- Operator `EOpSubgroupExclusiveOr` of the external glslang enum. -/
def EOpSubgroupExclusiveOr : TOperator := ⟨498⟩

/-- Operator `EOpSubgroupExclusiveXor` of the external glslang enum. -/
def EOpSubgroupExclusiveXor : TOperator := ⟨499⟩

/-- Operator `EOpSubgroupInclusiveAdd` of the external glslang enum. -/
def EOpSubgroupInclusiveAdd : TOperator := ⟨500⟩

/-- Operator `EOpSubgroupInclusiveAnd` of the external glslang enum. -/
def EOpSubgroupInclusiveAnd : TOperator := ⟨501⟩

/-- Operator `EOpSubgroupInclusiveMax` of the external glslang enum. -/
def EOpSubgroupInclusiveMax : TOperator := ⟨502⟩

/-- Operator `EOpSubgroupInclusiveMin` of the external glslang enum. -/
def EOpSubgroupInclusiveMin : TOperator := ⟨503⟩

/-- Operator `EOpSubgroupInclusiveMul` of the external glslang enum. -/
def EOpSubgroupInclusiveMul : TOperator := ⟨504⟩

/-- Operator `EOpSubgroupInclusiveOr` of the external glslang enum. -/
def EOpSubgroupInclusiveOr : TOperator := ⟨505⟩

/-- Operator `EOpSubgroupInclusiveXor` of the external glslang enum. -/
def EOpSubgroupInclusiveXor : TOperator := ⟨506⟩

/-- Operator `EOpSubgroupInverseBallot` of the external glslang enum. -/
def EOpSubgroupInverseBallot : TOperator := ⟨507⟩

/-- Operator `EOpSubgroupMax` of the external glslang enum. -/
def EOpSubgroupMax : TOperator := ⟨508⟩

/-- Operator `EOpSubgroupMemoryBarrier` of the external glslang enum. -/
def EOpSubgroupMemoryBarrier : TOperator := ⟨509⟩

/-- Operator `EOpSubgroupMemoryBarrierBuffer` of the external glslang enum. -/
def EOpSubgroupMemoryBarrierBuffer : TOperator := ⟨510⟩

/-- Operator `EOpSubgroupMemoryBarrierImage` of the external glslang enum. -/
def EOpSubgroupMemoryBarrierImage : TOperator := ⟨511⟩

/-- Operator `EOpSubgroupMemoryBarrierShared` of the external glslang enum. -/
def EOpSubgroupMemoryBarrierShared : TOperator := ⟨512⟩

/-- Operator `EOpSubgroupMin` of the external glslang enum. -/
def EOpSubgroupMin : TOperator := ⟨513⟩

/-- Operator `EOpSubgroupMul` of the external glslang enum. -/
def EOpSubgroupMul : TOperator := ⟨514⟩

/-- Operator `EOpSubgroupOr` of the external glslang enum. -/
def EOpSubgroupOr : TOperator := ⟨515⟩

/-- Operator `EOpSubgroupPartition` of the external glslang enum. -/
def EOpSubgroupPartition : TOperator := ⟨516⟩

/-- Operator `EOpSubgroupPartitionedAdd` of the external glslang enum. -/
def EOpSubgroupPartitionedAdd : TOperator := ⟨517⟩

/-- Operator `EOpSubgroupPartitionedAnd` of the external glslang enum. -/
def EOpSubgroupPartitionedAnd : TOperator := ⟨518⟩

/-- Operator `EOpSubgroupPartitionedExclusiveAdd` of the external glslang enum. -/
def EOpSubgroupPartitionedExclusiveAdd : TOperator := ⟨519⟩

/-- Operator `EOpSubgroupPartitionedExclusiveAnd` of the external glslang enum. -/
def EOpSubgroupPartitionedExclusiveAnd : TOperator := ⟨520⟩

/-- Operator `EOpSubgroupPartitionedExclusiveMax` of the external glslang enum. -/
def EOpSubgroupPartitionedExclusiveMax : TOperator := ⟨521⟩

/-- Operator `EOpSubgroupPartitionedExclusiveMin` of the external glslang enum. -/
def EOpSubgroupPartitionedExclusiveMin : TOperator := ⟨522⟩

/-- Operator `EOpSubgroupPartitionedExclusiveMul` of the external glslang enum. -/
def EOpSubgroupPartitionedExclusiveMul : TOperator := ⟨523⟩

/-- Operator `EOpSubgroupPartitionedExclusiveOr` of the external glslang enum. -/
def EOpSubgroupPartitionedExclusiveOr : TOperator := ⟨524⟩

/-- Operator `EOpSubgroupPartitionedExclusiveXor` of the external glslang enum. -/
def EOpSubgroupPartitionedExclusiveXor : TOperator := ⟨525⟩

/-- Operator `EOpSubgroupPartitionedInclusiveAdd` of the external glslang enum. -/
def EOpSubgroupPartitionedInclusiveAdd : TOperator := ⟨526⟩

/-- Operator `EOpSubgroupPartitionedInclusiveAnd` of the external glslang enum. -/
def EOpSubgroupPartitionedInclusiveAnd : TOperator := ⟨527⟩

/-- Operator `EOpSubgroupPartitionedInclusiveMax` of the external glslang enum. -/
def EOpSubgroupPartitionedInclusiveMax : TOperator := ⟨528⟩

/-- Operator `EOpSubgroupPartitionedInclusiveMin` of the external glslang enum. -/
def EOpSubgroupPartitionedInclusiveMin : TOperator := ⟨529⟩

/-- Operator `EOpSubgroupPartitionedInclusiveMul` of the external glslang enum. -/
def EOpSubgroupPartitionedInclusiveMul : TOperator := ⟨530⟩

/-- Operator `EOpSubgroupPartitionedInclusiveOr` of the external glslang enum. -/
def EOpSubgroupPartitionedInclusiveOr : TOperator := ⟨531⟩

/-- Operator `EOpSubgroupPartitionedInclusiveXor` of the external glslang enum. -/
def EOpSubgroupPartitionedInclusiveXor : TOperator := ⟨532⟩

/-- Operator `EOpSubgroupPartitionedMax` of the external glslang enum. -/
def EOpSubgroupPartitionedMax : TOperator := ⟨533⟩

/-- Operator `EOpSubgroupPartitionedMin` of the external glslang enum. -/
def EOpSubgroupPartitionedMin : TOperator := ⟨534⟩

/-- Operator `EOpSubgroupPartitionedMul` of the external glslang enum. -/
def EOpSubgroupPartitionedMul : TOperator := ⟨535⟩

/-- Operator `EOpSubgroupPartitionedOr` of the external glslang enum. -/
def EOpSubgroupPartitionedOr : TOperator := ⟨536⟩

/-- Operator `EOpSubgroupPartitionedXor` of the external glslang enum. -/
def EOpSubgroupPartitionedXor : TOperator := ⟨537⟩

/-- Operator `EOpSubgroupQuadBroadcast` of the external glslang enum. -/
def EOpSubgroupQuadBroadcast : TOperator := ⟨538⟩

/-- Operator `EOpSubgroupQuadSwapDiagonal` of the external glslang enum. -/
def EOpSubgroupQuadSwapDiagonal : TOperator := ⟨539⟩

/-- Operator `EOpSubgroupQuadSwapHorizontal` of the external glslang enum. -/
def EOpSubgroupQuadSwapHorizontal : TOperator := ⟨540⟩

/-- Operator `EOpSubgroupQuadSwapVertical` of the external glslang enum. -/
def EOpSubgroupQuadSwapVertical : TOperator := ⟨541⟩

/-- Operator `EOpSubgroupShuffle` of the external glslang enum. -/
def EOpSubgroupShuffle : TOperator := ⟨542⟩

/-- Operator `EOpSubgroupShuffleDown` of the external glslang enum. -/
def EOpSubgroupShuffleDown : TOperator := ⟨543⟩

/-- Operator `EOpSubgroupShuffleUp` of the external glslang enum. -/
def EOpSubgroupShuffleUp : TOperator := ⟨544⟩

/-- Operator `EOpSubgroupShuffleXor` of the external glslang enum. -/
def EOpSubgroupShuffleXor : TOperator := ⟨545⟩

/-- Operator `EOpSubgroupXor` of the external glslang enum. -/
def EOpSubgroupXor : TOperator := ⟨546⟩

/-- Operator `EOpSubpassLoad` of the external glslang enum. -/
def EOpSubpassLoad : TOperator := ⟨547⟩

/-- Operator `EOpSubpassLoadMS` of the external glslang enum. -/
def EOpSubpassLoadMS : TOperator := ⟨548⟩

/-- Operator `EOpSwizzleInvocations` of the external glslang enum. -/
def EOpSwizzleInvocations : TOperator := ⟨549⟩

/-- Operator `EOpSwizzleInvocationsMasked` of the external glslang enum. -/
def EOpSwizzleInvocationsMasked : TOperator := ⟨550⟩

/-- Operator `EOpTan` of the external glslang enum. -/
def EOpTan : TOperator := ⟨551⟩

/-- Operator `EOpTanh` of the external glslang enum. -/
def EOpTanh : TOperator := ⟨552⟩

/-- Operator `EOpTerminateInvocation` of the external glslang enum. -/
def EOpTerminateInvocation : TOperator := ⟨553⟩

/-- Operator `EOpTerminateRayKHR` of the external glslang enum. -/
def EOpTerminateRayKHR : TOperator := ⟨554⟩

/-- Operator `EOpTerminateRayNV` of the external glslang enum. -/
def EOpTerminateRayNV : TOperator := ⟨555⟩

/-- Operator `EOpTextureClamp` of the external glslang enum. -/
def EOpTextureClamp : TOperator := ⟨556⟩

/-- Operator `EOpTextureFetch` of the external glslang enum. -/
def EOpTextureFetch : TOperator := ⟨557⟩

/-- Operator `EOpTextureFetchOffset` of the external glslang enum. -/
def EOpTextureFetchOffset : TOperator := ⟨558⟩

/-- Operator `EOpTextureGather` of the external glslang enum. -/
def EOpTextureGather : TOperator := ⟨559⟩

/-- Operator `EOpTextureGatherLod` of the external glslang enum. -/
def EOpTextureGatherLod : TOperator := ⟨560⟩

/-- Operator `EOpTextureGatherLodOffset` of the external glslang enum. -/
def EOpTextureGatherLodOffset : TOperator := ⟨561⟩

/-- Operator `EOpTextureGatherLodOffsets` of the external glslang enum. -/
def EOpTextureGatherLodOffsets : TOperator := ⟨562⟩

/-- Operator `EOpTextureGatherOffset` of the external glslang enum. -/
def EOpTextureGatherOffset : TOperator := ⟨563⟩

/-- Operator `EOpTextureGatherOffsets` of the external glslang enum. -/
def EOpTextureGatherOffsets : TOperator := ⟨564⟩

/-- Operator `EOpTextureGradClamp` of the external glslang enum. -/
def EOpTextureGradClamp : TOperator := ⟨565⟩

/-- Operator `EOpTextureGradOffset` of the external glslang enum. -/
def EOpTextureGradOffset : TOperator := ⟨566⟩

/-- Operator `EOpTextureGradOffsetClamp` of the external glslang enum. -/
def EOpTextureGradOffsetClamp : TOperator := ⟨567⟩

/-- Operator `EOpTextureLodOffset` of the external glslang enum. -/
def EOpTextureLodOffset : TOperator := ⟨568⟩

/-- Operator `EOpTextureOffset` of the external glslang enum. -/
def EOpTextureOffset : TOperator := ⟨569⟩

/-- Operator `EOpTextureOffsetClamp` of the external glslang enum. -/
def EOpTextureOffsetClamp : TOperator := ⟨570⟩

/-- Operator `EOpTextureProjGradOffset` of the external glslang enum. -/
def EOpTextureProjGradOffset : TOperator := ⟨571⟩

/-- Operator `EOpTextureProjLodOffset` of the external glslang enum. -/
def EOpTextureProjLodOffset : TOperator := ⟨572⟩

/-- Operator `EOpTextureProjOffset` of the external glslang enum. -/
def EOpTextureProjOffset : TOperator := ⟨573⟩

/-- Operator `EOpTextureQueryLevels` of the external glslang enum. -/
def EOpTextureQueryLevels : TOperator := ⟨574⟩

/-- Operator `EOpTextureQueryLod` of the external glslang enum. -/
def EOpTextureQueryLod : TOperator := ⟨575⟩

/-- Operator `EOpTextureQuerySamples` of the external glslang enum. -/
def EOpTextureQuerySamples : TOperator := ⟨576⟩

/-- Operator `EOpTextureQuerySize` of the external glslang enum. -/
def EOpTextureQuerySize : TOperator := ⟨577⟩

/-- Operator `EOpTime` of the external glslang enum. -/
def EOpTime : TOperator := ⟨578⟩

/-- Operator `EOpTraceKHR` of the external glslang enum. -/
def EOpTraceKHR : TOperator := ⟨579⟩

/-- Operator `EOpTraceNV` of the external glslang enum. -/
def EOpTraceNV : TOperator := ⟨580⟩

/-- Operator `EOpTraceRayMotionNV` of the external glslang enum. -/
def EOpTraceRayMotionNV : TOperator := ⟨581⟩

/-- Operator `EOpTranspose` of the external glslang enum. -/
def EOpTranspose : TOperator := ⟨582⟩

/-- Operator `EOpTrunc` of the external glslang enum. -/
def EOpTrunc : TOperator := ⟨583⟩

/-- Operator `EOpUMulExtended` of the external glslang enum. -/
def EOpUMulExtended : TOperator := ⟨584⟩

/-- Operator `EOpUintBitsToFloat` of the external glslang enum. -/
def EOpUintBitsToFloat : TOperator := ⟨585⟩

/-- Operator `EOpUnpack16` of the external glslang enum. -/
def EOpUnpack16 : TOperator := ⟨586⟩

/-- Operator `EOpUnpack32` of the external glslang enum. -/
def EOpUnpack32 : TOperator := ⟨587⟩

/-- Operator `EOpUnpack8` of the external glslang enum. -/
def EOpUnpack8 : TOperator := ⟨588⟩

/-- Operator `EOpUnpackDouble2x32` of the external glslang enum. -/
def EOpUnpackDouble2x32 : TOperator := ⟨589⟩

/-- Operator `EOpUnpackFloat2x16` of the external glslang enum. -/
def EOpUnpackFloat2x16 : TOperator := ⟨590⟩

/-- Operator `EOpUnpackHalf2x16` of the external glslang enum. -/
def EOpUnpackHalf2x16 : TOperator := ⟨591⟩

/-- Operator `EOpUnpackInt2x16` of the external glslang enum. -/
def EOpUnpackInt2x16 : TOperator := ⟨592⟩

/-- Operator `EOpUnpackInt2x32` of the external glslang enum. -/
def EOpUnpackInt2x32 : TOperator := ⟨593⟩

/-- Operator `EOpUnpackInt4x16` of the external glslang enum. -/
def EOpUnpackInt4x16 : TOperator := ⟨594⟩

/-- Operator `EOpUnpackSnorm2x16` of the external glslang enum. -/
def EOpUnpackSnorm2x16 : TOperator := ⟨595⟩

/-- Operator `EOpUnpackSnorm4x8` of the external glslang enum. -/
def EOpUnpackSnorm4x8 : TOperator := ⟨596⟩

/-- Operator `EOpUnpackUint2x16` of the external glslang enum. -/
def EOpUnpackUint2x16 : TOperator := ⟨597⟩

/-- Operator `EOpUnpackUint2x32` of the external glslang enum. -/
def EOpUnpackUint2x32 : TOperator := ⟨598⟩

/-- Operator `EOpUnpackUint4x16` of the external glslang enum. -/
def EOpUnpackUint4x16 : TOperator := ⟨599⟩

/-- Operator `EOpUnpackUnorm2x16` of the external glslang enum. -/
def EOpUnpackUnorm2x16 : TOperator := ⟨600⟩

/-- Operator `EOpUnpackUnorm4x8` of the external glslang enum. -/
def EOpUnpackUnorm4x8 : TOperator := ⟨601⟩

/-- Operator `EOpVectorEqual` of the external glslang enum. -/
def EOpVectorEqual : TOperator := ⟨602⟩

/-- Operator `EOpVectorLogicalNot` of the external glslang enum. -/
def EOpVectorLogicalNot : TOperator := ⟨603⟩

/-- Operator `EOpVectorNotEqual` of the external glslang enum. -/
def EOpVectorNotEqual : TOperator := ⟨604⟩

/-- Operator `EOpVectorSwizzle` of the external glslang enum. -/
def EOpVectorSwizzle : TOperator := ⟨605⟩

/-- Operator `EOpVectorTimesMatrix` of the external glslang enum. -/
def EOpVectorTimesMatrix : TOperator := ⟨606⟩

/-- Operator `EOpVectorTimesMatrixAssign` of the external glslang enum. -/
def EOpVectorTimesMatrixAssign : TOperator := ⟨607⟩

/-- Operator `EOpVectorTimesScalar` of the external glslang enum. -/
def EOpVectorTimesScalar : TOperator := ⟨608⟩

/-- Operator `EOpVectorTimesScalarAssign` of the external glslang enum. -/
def EOpVectorTimesScalarAssign : TOperator := ⟨609⟩

/-- Operator `EOpWriteInvocation` of the external glslang enum. -/
def EOpWriteInvocation : TOperator := ⟨610⟩

/-- Operator `EOpWritePackedPrimitiveIndices4x8NV` of the external glslang enum. -/
def EOpWritePackedPrimitiveIndices4x8NV : TOperator := ⟨611⟩

/-- Any glslang operator not named in the switches of `FromGlsl.cpp`. -/
def EOpOther (n : Nat) : TOperator := ⟨1000 + n⟩

/-- Embeds the astrict `RValueOperator` values referenced by `FromGlsl.cpp`
(declared in astrict/CommonTypes.h, outside the excerpt). -/
inductive RValueOperator where
  | Add
  | AddAssign
  | And
  | AndAssign
  | ArrayLength
  | Assign
  | BitwiseNot
  | Comma
  | ConstructStruct
  | Div
  | DivAssign
  | Equal
  | ExclusiveOr
  | ExclusiveOrAssign
  | GreaterThan
  | GreaterThanEqual
  | InclusiveOr
  | InclusiveOrAssign
  | Index
  | IndexStruct
  | LeftShift
  | LeftShiftAssign
  | LessThan
  | LessThanEqual
  | LogicalAnd
  | LogicalNot
  | LogicalOr
  | LogicalXor
  | Mod
  | ModAssign
  | Mul
  | MulAssign
  | Negative
  | NotEqual
  | PostDecrement
  | PostIncrement
  | PreDecrement
  | PreIncrement
  | RightShift
  | RightShiftAssign
  | Sub
  | SubAssign
  | Ternary
  | VectorSwizzle
deriving DecidableEq, Repr

/-- Embeds the astrict `BranchOperator` values referenced by `FromGlsl.cpp`. -/
inductive BranchOperator where
  | Discard
  | TerminateInvocation
  | Demote
  | TerminateRayEXT
  | IgnoreIntersectionEXT
  | Return
  | Break
  | Continue
  | Case
  | Default
deriving DecidableEq, Repr

/-- Embeds the astrict `Type` record built by `glslangTypeToType`
(FromGlsl.cpp line 865): a type name, a precision qualifier and array
sizes. -/
structure GlslType where
  name : String
  precision : String
  arraySizes : List Nat
deriving DecidableEq, Repr

/-- Outcome of `glslangOperatorToRValueOperator`: the returned
`std::variant<RValueOperator, std::string_view>` plus whether the call
emitted the "Cannot convert operator" error log. -/
structure RVResult where
  result : Sum RValueOperator String
  loggedError : Bool
deriving DecidableEq, Repr

/-- An explicit case returning an `RValueOperator` (no error logged). -/
def rvOp (o : RValueOperator) : RVResult :=
  { result := Sum.inl o, loggedError := false }

/-- An explicit case returning a GLSL function name (no error logged). -/
def rvName (s : String) : RVResult :=
  { result := Sum.inr s, loggedError := false }

/-- Embeds the explicit cases of the `glslangOperatorToRValueOperator`
switch (FromGlsl.cpp lines 33-702) in source order, as a lookup table from
operator code to outcome; a C++ switch over unique labels is exactly a
first-match lookup. -/
def rvalueCases (version : Int) : List (Nat × RVResult) := [
  (EOpNegative.code, rvOp .Negative),
  (EOpLogicalNot.code, rvOp .LogicalNot),
  (EOpVectorLogicalNot.code, rvName ("not")),
  (EOpBitwiseNot.code, rvOp .BitwiseNot),
  (EOpPostIncrement.code, rvOp .PostIncrement),
  (EOpPostDecrement.code, rvOp .PostDecrement),
  (EOpPreIncrement.code, rvOp .PreIncrement),
  (EOpPreDecrement.code, rvOp .PreDecrement),
  (EOpConvIntToBool.code, rvName ("bool")),
  (EOpConvUintToBool.code, rvName ("bool")),
  (EOpConvFloatToBool.code, rvName ("bool")),
  (EOpConvDoubleToBool.code, rvName ("bool")),
  (EOpConvBoolToInt.code, rvName ("int")),
  (EOpConvUintToInt.code, rvName ("int")),
  (EOpConvFloatToInt.code, rvName ("int")),
  (EOpConvDoubleToInt.code, rvName ("int")),
  (EOpConvBoolToFloat.code, rvName ("float")),
  (EOpConvIntToFloat.code, rvName ("float")),
  (EOpConvUintToFloat.code, rvName ("float")),
  (EOpConvDoubleToFloat.code, rvName ("float")),
  (EOpConvBoolToDouble.code, rvName ("double")),
  (EOpConvIntToDouble.code, rvName ("double")),
  (EOpConvUintToDouble.code, rvName ("double")),
  (EOpConvFloatToDouble.code, rvName ("double")),
  (EOpConvBoolToUint.code, rvName ("uint")),
  (EOpConvIntToUint.code, rvName ("uint")),
  (EOpConvFloatToUint.code, rvName ("uint")),
  (EOpConvDoubleToUint.code, rvName ("uint")),
  (EOpAdd.code, rvOp .Add),
  (EOpSub.code, rvOp .Sub),
  (EOpMul.code, rvOp .Mul),
  (EOpVectorTimesScalar.code, rvOp .Mul),
  (EOpVectorTimesMatrix.code, rvOp .Mul),
  (EOpMatrixTimesVector.code, rvOp .Mul),
  (EOpMatrixTimesScalar.code, rvOp .Mul),
  (EOpDiv.code, rvOp .Div),
  (EOpMod.code, rvOp .Mod),
  (EOpRightShift.code, rvOp .RightShift),
  (EOpLeftShift.code, rvOp .LeftShift),
  (EOpAnd.code, rvOp .And),
  (EOpInclusiveOr.code, rvOp .InclusiveOr),
  (EOpExclusiveOr.code, rvOp .ExclusiveOr),
  (EOpEqual.code, rvOp .Equal),
  (EOpNotEqual.code, rvOp .NotEqual),
  (EOpVectorEqual.code, rvName ("equal")),
  (EOpVectorNotEqual.code, rvName ("notEqual")),
  (EOpLessThan.code, rvOp .LessThan),
  (EOpGreaterThan.code, rvOp .GreaterThan),
  (EOpLessThanEqual.code, rvOp .LessThanEqual),
  (EOpGreaterThanEqual.code, rvOp .GreaterThanEqual),
  (EOpComma.code, rvOp .Comma),
  (EOpLogicalOr.code, rvOp .LogicalOr),
  (EOpLogicalXor.code, rvOp .LogicalXor),
  (EOpLogicalAnd.code, rvOp .LogicalAnd),
  (EOpIndexDirect.code, rvOp .Index),
  (EOpIndexIndirect.code, rvOp .Index),
  (EOpIndexDirectStruct.code, rvOp .IndexStruct),
  (EOpVectorSwizzle.code, rvOp .VectorSwizzle),
  (EOpRadians.code, rvName ("radians")),
  (EOpDegrees.code, rvName ("degrees")),
  (EOpSin.code, rvName ("sin")),
  (EOpCos.code, rvName ("cos")),
  (EOpTan.code, rvName ("tan")),
  (EOpAsin.code, rvName ("asin")),
  (EOpAcos.code, rvName ("acos")),
  (EOpAtan.code, rvName ("atan")),
  (EOpSinh.code, rvName ("sinh")),
  (EOpCosh.code, rvName ("cosh")),
  (EOpTanh.code, rvName ("tanh")),
  (EOpAsinh.code, rvName ("asinh")),
  (EOpAcosh.code, rvName ("acosh")),
  (EOpAtanh.code, rvName ("atanh")),
  (EOpPow.code, rvName ("pow")),
  (EOpExp.code, rvName ("exp")),
  (EOpLog.code, rvName ("log")),
  (EOpExp2.code, rvName ("exp2")),
  (EOpLog2.code, rvName ("log2")),
  (EOpSqrt.code, rvName ("sqrt")),
  (EOpInverseSqrt.code, rvName ("inversesqrt")),
  (EOpAbs.code, rvName ("abs")),
  (EOpSign.code, rvName ("sign")),
  (EOpFloor.code, rvName ("floor")),
  (EOpTrunc.code, rvName ("trunc")),
  (EOpRound.code, rvName ("round")),
  (EOpRoundEven.code, rvName ("roundEven")),
  (EOpCeil.code, rvName ("ceil")),
  (EOpFract.code, rvName ("fract")),
  (EOpModf.code, rvName ("modf")),
  (EOpMin.code, rvName ("min")),
  (EOpMax.code, rvName ("max")),
  (EOpClamp.code, rvName ("clamp")),
  (EOpMix.code, rvName ("mix")),
  (EOpStep.code, rvName ("step")),
  (EOpSmoothStep.code, rvName ("smoothstep")),
  (EOpIsNan.code, rvName ("isnan")),
  (EOpIsInf.code, rvName ("isinf")),
  (EOpFma.code, rvName ("fma")),
  (EOpFrexp.code, rvName ("frexp")),
  (EOpLdexp.code, rvName ("ldexp")),
  (EOpFloatBitsToInt.code, rvName ("floatBitsToInt")),
  (EOpFloatBitsToUint.code, rvName ("floatBitsToUint")),
  (EOpIntBitsToFloat.code, rvName ("intBitsToFloat")),
  (EOpUintBitsToFloat.code, rvName ("uintBitsToFloat")),
  (EOpPackSnorm2x16.code, rvName ("packSnorm2x16")),
  (EOpUnpackSnorm2x16.code, rvName ("unpackSnorm2x16")),
  (EOpPackUnorm2x16.code, rvName ("packUnorm2x16")),
  (EOpUnpackUnorm2x16.code, rvName ("unpackUnorm2x16")),
  (EOpPackSnorm4x8.code, rvName ("packSnorm4x8")),
  (EOpUnpackSnorm4x8.code, rvName ("unpackSnorm4x8")),
  (EOpPackUnorm4x8.code, rvName ("packUnorm4x8")),
  (EOpUnpackUnorm4x8.code, rvName ("unpackUnorm4x8")),
  (EOpPackHalf2x16.code, rvName ("packHalf2x16")),
  (EOpUnpackHalf2x16.code, rvName ("unpackHalf2x16")),
  (EOpPackDouble2x32.code, rvName ("packDouble2x32")),
  (EOpUnpackDouble2x32.code, rvName ("unpackDouble2x32")),
  (EOpPackInt2x32.code, rvName ("packInt2x32")),
  (EOpUnpackInt2x32.code, rvName ("unpackInt2x32")),
  (EOpPackUint2x32.code, rvName ("packUint2x32")),
  (EOpUnpackUint2x32.code, rvName ("unpackUint2x32")),
  (EOpPackFloat2x16.code, rvName ("packFloat2x16")),
  (EOpUnpackFloat2x16.code, rvName ("unpackFloat2x16")),
  (EOpPackInt2x16.code, rvName ("packInt2x16")),
  (EOpUnpackInt2x16.code, rvName ("unpackInt2x16")),
  (EOpPackUint2x16.code, rvName ("packUint2x16")),
  (EOpUnpackUint2x16.code, rvName ("unpackUint2x16")),
  (EOpPackInt4x16.code, rvName ("packInt4x16")),
  (EOpUnpackInt4x16.code, rvName ("unpackInt4x16")),
  (EOpPackUint4x16.code, rvName ("packUint4x16")),
  (EOpUnpackUint4x16.code, rvName ("unpackUint4x16")),
  (EOpPack16.code, rvName ("pack16")),
  (EOpPack32.code, rvName ("pack32")),
  (EOpPack64.code, rvName ("pack64")),
  (EOpUnpack32.code, rvName ("unpack32")),
  (EOpUnpack16.code, rvName ("unpack16")),
  (EOpUnpack8.code, rvName ("unpack8")),
  (EOpLength.code, rvName ("length")),
  (EOpDistance.code, rvName ("distance")),
  (EOpDot.code, rvName ("dot")),
  (EOpCross.code, rvName ("cross")),
  (EOpNormalize.code, rvName ("normalize")),
  (EOpFaceForward.code, rvName ("faceforward")),
  (EOpReflect.code, rvName ("reflect")),
  (EOpRefract.code, rvName ("refract")),
  (EOpMin3.code, rvName ("min3")),
  (EOpMax3.code, rvName ("max3")),
  (EOpMid3.code, rvName ("mid3")),
  (EOpDPdx.code, rvName ("dFdx")),
  (EOpDPdy.code, rvName ("dFdy")),
  (EOpFwidth.code, rvName ("fwidth")),
  (EOpDPdxFine.code, rvName ("dFdxFine")),
  (EOpDPdyFine.code, rvName ("dFdyFine")),
  (EOpFwidthFine.code, rvName ("fwidthFine")),
  (EOpDPdxCoarse.code, rvName ("dFdxCoarse")),
  (EOpDPdyCoarse.code, rvName ("dFdyCoarse")),
  (EOpFwidthCoarse.code, rvName ("fwidthCoarse")),
  (EOpInterpolateAtCentroid.code, rvName ("interpolateAtCentroid")),
  (EOpInterpolateAtSample.code, rvName ("interpolateAtSample")),
  (EOpInterpolateAtOffset.code, rvName ("interpolateAtOffset")),
  (EOpInterpolateAtVertex.code, rvName ("interpolateAtVertexAMD")),
  (EOpOuterProduct.code, rvName ("outerProduct")),
  (EOpDeterminant.code, rvName ("determinant")),
  (EOpMatrixInverse.code, rvName ("inverse")),
  (EOpTranspose.code, rvName ("transpose")),
  (EOpFtransform.code, rvName ("ftransform")),
  (EOpEmitVertex.code, rvName ("EmitVertex")),
  (EOpEndPrimitive.code, rvName ("EndPrimitive")),
  (EOpEmitStreamVertex.code, rvName ("EmitStreamVertex")),
  (EOpEndStreamPrimitive.code, rvName ("EndStreamPrimitive")),
  (EOpBarrier.code, rvName ("barrier")),
  (EOpMemoryBarrier.code, rvName ("memoryBarrier")),
  (EOpMemoryBarrierAtomicCounter.code, rvName ("memoryBarrierAtomicCounter")),
  (EOpMemoryBarrierBuffer.code, rvName ("memoryBarrierBuffer")),
  (EOpMemoryBarrierImage.code, rvName ("memoryBarrierImage")),
  (EOpMemoryBarrierShared.code, rvName ("memoryBarrierShared")),
  (EOpGroupMemoryBarrier.code, rvName ("groupMemoryBarrier")),
  (EOpBallot.code, rvName ("ballotARB")),
  (EOpReadInvocation.code, rvName ("readInvocationARB")),
  (EOpReadFirstInvocation.code, rvName ("readFirstInvocationARB")),
  (EOpAnyInvocation.code, if version ≥ 460 then rvName ("anyInvocation") else rvName ("anyInvocationARB")),
  (EOpAllInvocations.code, if version ≥ 460 then rvName ("allInvocations") else rvName ("allInvocationsARB")),
  (EOpAllInvocationsEqual.code, if version ≥ 460 then rvName ("allInvocationsEqual") else rvName ("allInvocationsEqualARB")),
  (EOpSubgroupBarrier.code, rvName ("subgroupBarrier")),
  (EOpSubgroupMemoryBarrier.code, rvName ("subgroupMemoryBarrier")),
  (EOpSubgroupMemoryBarrierBuffer.code, rvName ("subgroupMemoryBarrierBuffer")),
  (EOpSubgroupMemoryBarrierImage.code, rvName ("subgroupMemoryBarrierImage")),
  (EOpSubgroupMemoryBarrierShared.code, rvName ("subgroupMemoryBarrierShared")),
  (EOpSubgroupElect.code, rvName ("subgroupElect")),
  (EOpSubgroupAll.code, rvName ("subgroupAll")),
  (EOpSubgroupAny.code, rvName ("subgroupAny")),
  (EOpSubgroupAllEqual.code, rvName ("subgroupAllEqual")),
  (EOpSubgroupBroadcast.code, rvName ("subgroupBroadcast")),
  (EOpSubgroupBroadcastFirst.code, rvName ("subgroupBroadcastFirst")),
  (EOpSubgroupBallot.code, rvName ("subgroupBallot")),
  (EOpSubgroupInverseBallot.code, rvName ("subgroupInverseBallot")),
  (EOpSubgroupBallotBitExtract.code, rvName ("subgroupBallotBitExtract")),
  (EOpSubgroupBallotBitCount.code, rvName ("subgroupBallotBitCount")),
  (EOpSubgroupBallotInclusiveBitCount.code, rvName ("subgroupBallotInclusiveBitCount")),
  (EOpSubgroupBallotExclusiveBitCount.code, rvName ("subgroupBallotExclusiveBitCount")),
  (EOpSubgroupBallotFindLSB.code, rvName ("subgroupBallotFindLSB")),
  (EOpSubgroupBallotFindMSB.code, rvName ("subgroupBallotFindMSB")),
  (EOpSubgroupShuffle.code, rvName ("subgroupShuffle")),
  (EOpSubgroupShuffleXor.code, rvName ("subgroupShuffleXor")),
  (EOpSubgroupShuffleUp.code, rvName ("subgroupShuffleUp")),
  (EOpSubgroupShuffleDown.code, rvName ("subgroupShuffleDown")),
  (EOpSubgroupAdd.code, rvName ("subgroupAdd")),
  (EOpSubgroupMul.code, rvName ("subgroupMul")),
  (EOpSubgroupMin.code, rvName ("subgroupMin")),
  (EOpSubgroupMax.code, rvName ("subgroupMax")),
  (EOpSubgroupAnd.code, rvName ("subgroupAnd")),
  (EOpSubgroupOr.code, rvName ("subgroupOr")),
  (EOpSubgroupXor.code, rvName ("subgroupXor")),
  (EOpSubgroupInclusiveAdd.code, rvName ("subgroupInclusiveAdd")),
  (EOpSubgroupInclusiveMul.code, rvName ("subgroupInclusiveMul")),
  (EOpSubgroupInclusiveMin.code, rvName ("subgroupInclusiveMin")),
  (EOpSubgroupInclusiveMax.code, rvName ("subgroupInclusiveMax")),
  (EOpSubgroupInclusiveAnd.code, rvName ("subgroupInclusiveAnd")),
  (EOpSubgroupInclusiveOr.code, rvName ("subgroupInclusiveOr")),
  (EOpSubgroupInclusiveXor.code, rvName ("subgroupInclusiveXor")),
  (EOpSubgroupExclusiveAdd.code, rvName ("subgroupExclusiveAdd")),
  (EOpSubgroupExclusiveMul.code, rvName ("subgroupExclusiveMul")),
  (EOpSubgroupExclusiveMin.code, rvName ("subgroupExclusiveMin")),
  (EOpSubgroupExclusiveMax.code, rvName ("subgroupExclusiveMax")),
  (EOpSubgroupExclusiveAnd.code, rvName ("subgroupExclusiveAnd")),
  (EOpSubgroupExclusiveOr.code, rvName ("subgroupExclusiveOr")),
  (EOpSubgroupExclusiveXor.code, rvName ("subgroupExclusiveXor")),
  (EOpSubgroupClusteredAdd.code, rvName ("subgroupClusteredAdd")),
  (EOpSubgroupClusteredMul.code, rvName ("subgroupClusteredMul")),
  (EOpSubgroupClusteredMin.code, rvName ("subgroupClusteredMin")),
  (EOpSubgroupClusteredMax.code, rvName ("subgroupClusteredMax")),
  (EOpSubgroupClusteredAnd.code, rvName ("subgroupClusteredAnd")),
  (EOpSubgroupClusteredOr.code, rvName ("subgroupClusteredOr")),
  (EOpSubgroupClusteredXor.code, rvName ("subgroupClusteredXor")),
  (EOpSubgroupQuadBroadcast.code, rvName ("subgroupQuadBroadcast")),
  (EOpSubgroupQuadSwapHorizontal.code, rvName ("subgroupQuadSwapHorizontal")),
  (EOpSubgroupQuadSwapVertical.code, rvName ("subgroupQuadSwapVertical")),
  (EOpSubgroupQuadSwapDiagonal.code, rvName ("subgroupQuadSwapDiagonal")),
  (EOpSubgroupPartition.code, rvName ("subgroupPartitionNV")),
  (EOpSubgroupPartitionedAdd.code, rvName ("subgroupPartitionedAddNV")),
  (EOpSubgroupPartitionedMul.code, rvName ("subgroupPartitionedMulNV")),
  (EOpSubgroupPartitionedMin.code, rvName ("subgroupPartitionedMinNV")),
  (EOpSubgroupPartitionedMax.code, rvName ("subgroupPartitionedMaxNV")),
  (EOpSubgroupPartitionedAnd.code, rvName ("subgroupPartitionedAndNV")),
  (EOpSubgroupPartitionedOr.code, rvName ("subgroupPartitionedOrNV")),
  (EOpSubgroupPartitionedXor.code, rvName ("subgroupPartitionedXorNV")),
  (EOpSubgroupPartitionedInclusiveAdd.code, rvName ("subgroupPartitionedInclusiveAddNV")),
  (EOpSubgroupPartitionedInclusiveMul.code, rvName ("subgroupPartitionedInclusiveMulNV")),
  (EOpSubgroupPartitionedInclusiveMin.code, rvName ("subgroupPartitionedInclusiveMinNV")),
  (EOpSubgroupPartitionedInclusiveMax.code, rvName ("subgroupPartitionedInclusiveMaxNV")),
  (EOpSubgroupPartitionedInclusiveAnd.code, rvName ("subgroupPartitionedInclusiveAndNV")),
  (EOpSubgroupPartitionedInclusiveOr.code, rvName ("subgroupPartitionedInclusiveOrNV")),
  (EOpSubgroupPartitionedInclusiveXor.code, rvName ("subgroupPartitionedInclusiveXorNV")),
  (EOpSubgroupPartitionedExclusiveAdd.code, rvName ("subgroupPartitionedExclusiveAddNV")),
  (EOpSubgroupPartitionedExclusiveMul.code, rvName ("subgroupPartitionedExclusiveMulNV")),
  (EOpSubgroupPartitionedExclusiveMin.code, rvName ("subgroupPartitionedExclusiveMinNV")),
  (EOpSubgroupPartitionedExclusiveMax.code, rvName ("subgroupPartitionedExclusiveMaxNV")),
  (EOpSubgroupPartitionedExclusiveAnd.code, rvName ("subgroupPartitionedExclusiveAndNV")),
  (EOpSubgroupPartitionedExclusiveOr.code, rvName ("subgroupPartitionedExclusiveOrNV")),
  (EOpSubgroupPartitionedExclusiveXor.code, rvName ("subgroupPartitionedExclusiveXorNV")),
  (EOpMinInvocations.code, rvName ("minInvocationsAMD")),
  (EOpMaxInvocations.code, rvName ("maxInvocationsAMD")),
  (EOpAddInvocations.code, rvName ("addInvocationsAMD")),
  (EOpMinInvocationsNonUniform.code, rvName ("minInvocationsNonUniformAMD")),
  (EOpMaxInvocationsNonUniform.code, rvName ("maxInvocationsNonUniformAMD")),
  (EOpAddInvocationsNonUniform.code, rvName ("addInvocationsNonUniformAMD")),
  (EOpMinInvocationsInclusiveScan.code, rvName ("minInvocationsInclusiveScanAMD")),
  (EOpMaxInvocationsInclusiveScan.code, rvName ("maxInvocationsInclusiveScanAMD")),
  (EOpAddInvocationsInclusiveScan.code, rvName ("addInvocationsInclusiveScanAMD")),
  (EOpMinInvocationsInclusiveScanNonUniform.code, rvName ("minInvocationsInclusiveScanNonUniformAMD")),
  (EOpMaxInvocationsInclusiveScanNonUniform.code, rvName ("maxInvocationsInclusiveScanNonUniformAMD")),
  (EOpAddInvocationsInclusiveScanNonUniform.code, rvName ("addInvocationsInclusiveScanNonUniformAMD")),
  (EOpMinInvocationsExclusiveScan.code, rvName ("minInvocationsExclusiveScanAMD")),
  (EOpMaxInvocationsExclusiveScan.code, rvName ("maxInvocationsExclusiveScanAMD")),
  (EOpAddInvocationsExclusiveScan.code, rvName ("addInvocationsExclusiveScanAMD")),
  (EOpMinInvocationsExclusiveScanNonUniform.code, rvName ("minInvocationsExclusiveScanNonUniformAMD")),
  (EOpMaxInvocationsExclusiveScanNonUniform.code, rvName ("maxInvocationsExclusiveScanNonUniformAMD")),
  (EOpAddInvocationsExclusiveScanNonUniform.code, rvName ("addInvocationsExclusiveScanNonUniformAMD")),
  (EOpSwizzleInvocations.code, rvName ("swizzleInvocationsAMD")),
  (EOpSwizzleInvocationsMasked.code, rvName ("swizzleInvocationsMaskedAMD")),
  (EOpWriteInvocation.code, rvName ("writeInvocationAMD")),
  (EOpMbcnt.code, rvName ("mbcntAMD")),
  (EOpCubeFaceIndex.code, rvName ("cubeFaceIndexAMD")),
  (EOpCubeFaceCoord.code, rvName ("cubeFaceCoordAMD")),
  (EOpTime.code, rvName ("timeAMD")),
  (EOpAtomicAdd.code, rvName ("atomicAdd")),
  (EOpAtomicMin.code, rvName ("atomicMin")),
  (EOpAtomicMax.code, rvName ("atomicMax")),
  (EOpAtomicAnd.code, rvName ("atomicAnd")),
  (EOpAtomicOr.code, rvName ("atomicOr")),
  (EOpAtomicXor.code, rvName ("atomicXor")),
  (EOpAtomicExchange.code, rvName ("atomicExchange")),
  (EOpAtomicCompSwap.code, rvName ("atomicCompSwap")),
  (EOpAtomicLoad.code, rvName ("atomicLoad")),
  (EOpAtomicStore.code, rvName ("atomicStore")),
  (EOpAtomicCounterIncrement.code, rvName ("atomicCounterIncrement")),
  (EOpAtomicCounterDecrement.code, rvName ("atomicCounterDecrement")),
  (EOpAtomicCounter.code, rvName ("atomicCounter")),
  (EOpAtomicCounterAdd.code, if version ≥ 460 then rvName ("atomicCounterAdd") else rvName ("atomicCounterAddARB")),
  (EOpAtomicCounterSubtract.code, if version ≥ 460 then rvName ("atomicCounterSubtract") else rvName ("atomicCounterSubtractARB")),
  (EOpAtomicCounterMin.code, if version ≥ 460 then rvName ("atomicCounterMin") else rvName ("atomicCounterMinARB")),
  (EOpAtomicCounterMax.code, if version ≥ 460 then rvName ("atomicCounterMax") else rvName ("atomicCounterMaxARB")),
  (EOpAtomicCounterAnd.code, if version ≥ 460 then rvName ("atomicCounterAnd") else rvName ("atomicCounterAndARB")),
  (EOpAtomicCounterOr.code, if version ≥ 460 then rvName ("atomicCounterOr") else rvName ("atomicCounterOrARB")),
  (EOpAtomicCounterXor.code, if version ≥ 460 then rvName ("atomicCounterXor") else rvName ("atomicCounterXorARB")),
  (EOpAtomicCounterExchange.code, if version ≥ 460 then rvName ("atomicCounterExchange") else rvName ("atomicCounterExchangeARB")),
  (EOpAtomicCounterCompSwap.code, if version ≥ 460 then rvName ("atomicCounterCompSwap") else rvName ("atomicCounterCompSwapARB")),
  (EOpAny.code, rvName ("any")),
  (EOpAll.code, rvName ("all")),
  (EOpCooperativeMatrixLoad.code, rvName ("coopMatLoad")),
  (EOpCooperativeMatrixStore.code, rvName ("coopMatStore")),
  (EOpCooperativeMatrixMulAdd.code, rvName ("coopMatMulAdd")),
  (EOpCooperativeMatrixLoadNV.code, rvName ("coopMatLoadNV")),
  (EOpCooperativeMatrixStoreNV.code, rvName ("coopMatStoreNV")),
  (EOpCooperativeMatrixMulAddNV.code, rvName ("coopMatMulAddNV")),
  (EOpBeginInvocationInterlock.code, rvName ("beginInvocationInterlockARB")),
  (EOpEndInvocationInterlock.code, rvName ("endInvocationInterlockARB")),
  (EOpIsHelperInvocation.code, rvName ("helperInvocationEXT")),
  (EOpDebugPrintf.code, rvName ("debugPrintfEXT")),
  (EOpConstructInt.code, rvName ("int")),
  (EOpConstructUint.code, rvName ("uint")),
  (EOpConstructInt8.code, rvName ("int8")),
  (EOpConstructUint8.code, rvName ("uint8")),
  (EOpConstructInt16.code, rvName ("int16")),
  (EOpConstructUint16.code, rvName ("uint16")),
  (EOpConstructInt64.code, rvName ("int64")),
  (EOpConstructUint64.code, rvName ("uint64")),
  (EOpConstructBool.code, rvName ("bool")),
  (EOpConstructFloat.code, rvName ("float")),
  (EOpConstructDouble.code, rvName ("double")),
  (EOpConstructVec2.code, rvName ("vec2")),
  (EOpConstructVec3.code, rvName ("vec3")),
  (EOpConstructVec4.code, rvName ("vec4")),
  (EOpConstructMat2x2.code, rvName ("mat2x2")),
  (EOpConstructMat2x3.code, rvName ("mat2x3")),
  (EOpConstructMat2x4.code, rvName ("mat2x4")),
  (EOpConstructMat3x2.code, rvName ("mat3x2")),
  (EOpConstructMat3x3.code, rvName ("mat3x3")),
  (EOpConstructMat3x4.code, rvName ("mat3x4")),
  (EOpConstructMat4x2.code, rvName ("mat4x2")),
  (EOpConstructMat4x3.code, rvName ("mat4x3")),
  (EOpConstructMat4x4.code, rvName ("mat4x4")),
  (EOpConstructDVec2.code, rvName ("dvec2")),
  (EOpConstructDVec3.code, rvName ("dvec3")),
  (EOpConstructDVec4.code, rvName ("dvec4")),
  (EOpConstructBVec2.code, rvName ("bvec2")),
  (EOpConstructBVec3.code, rvName ("bvec3")),
  (EOpConstructBVec4.code, rvName ("bvec4")),
  (EOpConstructI8Vec2.code, rvName ("i8vec2")),
  (EOpConstructI8Vec3.code, rvName ("i8vec3")),
  (EOpConstructI8Vec4.code, rvName ("i8vec4")),
  (EOpConstructU8Vec2.code, rvName ("u8vec2")),
  (EOpConstructU8Vec3.code, rvName ("u8vec3")),
  (EOpConstructU8Vec4.code, rvName ("u8vec4")),
  (EOpConstructI16Vec2.code, rvName ("i16vec2")),
  (EOpConstructI16Vec3.code, rvName ("i16vec3")),
  (EOpConstructI16Vec4.code, rvName ("i16vec4")),
  (EOpConstructU16Vec2.code, rvName ("u16vec2")),
  (EOpConstructU16Vec3.code, rvName ("u16vec3")),
  (EOpConstructU16Vec4.code, rvName ("u16vec4")),
  (EOpConstructIVec2.code, rvName ("ivec2")),
  (EOpConstructIVec3.code, rvName ("ivec3")),
  (EOpConstructIVec4.code, rvName ("ivec4")),
  (EOpConstructUVec2.code, rvName ("uvec2")),
  (EOpConstructUVec3.code, rvName ("uvec3")),
  (EOpConstructUVec4.code, rvName ("uvec4")),
  (EOpConstructI64Vec2.code, rvName ("i64vec2")),
  (EOpConstructI64Vec3.code, rvName ("i64vec3")),
  (EOpConstructI64Vec4.code, rvName ("i64vec4")),
  (EOpConstructU64Vec2.code, rvName ("u64vec2")),
  (EOpConstructU64Vec3.code, rvName ("u64vec3")),
  (EOpConstructU64Vec4.code, rvName ("u64vec4")),
  (EOpConstructDMat2x2.code, rvName ("dmat2x2")),
  (EOpConstructDMat2x3.code, rvName ("dmat2x3")),
  (EOpConstructDMat2x4.code, rvName ("dmat2x4")),
  (EOpConstructDMat3x2.code, rvName ("dmat3x2")),
  (EOpConstructDMat3x3.code, rvName ("dmat3x3")),
  (EOpConstructDMat3x4.code, rvName ("dmat3x4")),
  (EOpConstructDMat4x2.code, rvName ("dmat4x2")),
  (EOpConstructDMat4x3.code, rvName ("dmat4x3")),
  (EOpConstructDMat4x4.code, rvName ("dmat4x4")),
  (EOpConstructIMat2x2.code, rvName ("imat2x2")),
  (EOpConstructIMat2x3.code, rvName ("imat2x3")),
  (EOpConstructIMat2x4.code, rvName ("imat2x4")),
  (EOpConstructIMat3x2.code, rvName ("imat3x2")),
  (EOpConstructIMat3x3.code, rvName ("imat3x3")),
  (EOpConstructIMat3x4.code, rvName ("imat3x4")),
  (EOpConstructIMat4x2.code, rvName ("imat4x2")),
  (EOpConstructIMat4x3.code, rvName ("imat4x3")),
  (EOpConstructIMat4x4.code, rvName ("imat4x4")),
  (EOpConstructUMat2x2.code, rvName ("umat2x2")),
  (EOpConstructUMat2x3.code, rvName ("umat2x3")),
  (EOpConstructUMat2x4.code, rvName ("umat2x4")),
  (EOpConstructUMat3x2.code, rvName ("umat3x2")),
  (EOpConstructUMat3x3.code, rvName ("umat3x3")),
  (EOpConstructUMat3x4.code, rvName ("umat3x4")),
  (EOpConstructUMat4x2.code, rvName ("umat4x2")),
  (EOpConstructUMat4x3.code, rvName ("umat4x3")),
  (EOpConstructUMat4x4.code, rvName ("umat4x4")),
  (EOpConstructBMat2x2.code, rvName ("bmat2x2")),
  (EOpConstructBMat2x3.code, rvName ("bmat2x3")),
  (EOpConstructBMat2x4.code, rvName ("bmat2x4")),
  (EOpConstructBMat3x2.code, rvName ("bmat3x2")),
  (EOpConstructBMat3x3.code, rvName ("bmat3x3")),
  (EOpConstructBMat3x4.code, rvName ("bmat3x4")),
  (EOpConstructBMat4x2.code, rvName ("bmat4x2")),
  (EOpConstructBMat4x3.code, rvName ("bmat4x3")),
  (EOpConstructBMat4x4.code, rvName ("bmat4x4")),
  (EOpConstructFloat16.code, rvName ("float16")),
  (EOpConstructF16Vec2.code, rvName ("f16vec2")),
  (EOpConstructF16Vec3.code, rvName ("f16vec3")),
  (EOpConstructF16Vec4.code, rvName ("f16vec4")),
  (EOpConstructF16Mat2x2.code, rvName ("f16mat2x2")),
  (EOpConstructF16Mat2x3.code, rvName ("f16mat2x3")),
  (EOpConstructF16Mat2x4.code, rvName ("f16mat2x4")),
  (EOpConstructF16Mat3x2.code, rvName ("f16mat3x2")),
  (EOpConstructF16Mat3x3.code, rvName ("f16mat3x3")),
  (EOpConstructF16Mat3x4.code, rvName ("f16mat3x4")),
  (EOpConstructF16Mat4x2.code, rvName ("f16mat4x2")),
  (EOpConstructF16Mat4x3.code, rvName ("f16mat4x3")),
  (EOpConstructF16Mat4x4.code, rvName ("f16mat4x4")),
  (EOpConstructStruct.code, rvOp .ConstructStruct),
  (EOpConstructTextureSampler.code, rvName ("textureSampler")),
  (EOpConstructNonuniform.code, rvName ("nonuniform")),
  (EOpConstructReference.code, rvName ("reference")),
  (EOpConstructCooperativeMatrixNV.code, rvName ("cooperativeMatrixNV")),
  (EOpConstructCooperativeMatrixKHR.code, rvName ("cooperativeMatrixKHR")),
  (EOpAssign.code, rvOp .Assign),
  (EOpAddAssign.code, rvOp .AddAssign),
  (EOpSubAssign.code, rvOp .SubAssign),
  (EOpMulAssign.code, rvOp .MulAssign),
  (EOpVectorTimesMatrixAssign.code, rvOp .MulAssign),
  (EOpVectorTimesScalarAssign.code, rvOp .MulAssign),
  (EOpMatrixTimesScalarAssign.code, rvOp .MulAssign),
  (EOpMatrixTimesMatrixAssign.code, rvOp .MulAssign),
  (EOpDivAssign.code, rvOp .DivAssign),
  (EOpModAssign.code, rvOp .ModAssign),
  (EOpAndAssign.code, rvOp .AndAssign),
  (EOpInclusiveOrAssign.code, rvOp .InclusiveOrAssign),
  (EOpExclusiveOrAssign.code, rvOp .ExclusiveOrAssign),
  (EOpLeftShiftAssign.code, rvOp .LeftShiftAssign),
  (EOpRightShiftAssign.code, rvOp .RightShiftAssign),
  (EOpArrayLength.code, rvOp .ArrayLength),
  (EOpImageQuerySize.code, rvName ("imageSize")),
  (EOpImageQuerySamples.code, rvName ("imageSamples")),
  (EOpImageLoad.code, rvName ("imageLoad")),
  (EOpImageStore.code, rvName ("imageStore")),
  (EOpImageLoadLod.code, rvName ("imageLoadLodAMD")),
  (EOpImageStoreLod.code, rvName ("imageStoreLodAMD")),
  (EOpImageAtomicAdd.code, rvName ("imageAtomicAdd")),
  (EOpImageAtomicMin.code, rvName ("imageAtomicMin")),
  (EOpImageAtomicMax.code, rvName ("imageAtomicMax")),
  (EOpImageAtomicAnd.code, rvName ("imageAtomicAnd")),
  (EOpImageAtomicOr.code, rvName ("imageAtomicOr")),
  (EOpImageAtomicXor.code, rvName ("imageAtomicXor")),
  (EOpImageAtomicExchange.code, rvName ("imageAtomicExchange")),
  (EOpImageAtomicCompSwap.code, rvName ("imageAtomicCompSwap")),
  (EOpImageAtomicLoad.code, rvName ("imageAtomicLoad")),
  (EOpImageAtomicStore.code, rvName ("imageAtomicStore")),
  (EOpSubpassLoad.code, rvName ("subpassLoad")),
  (EOpSubpassLoadMS.code, rvName ("subpassLoadMS")),
  (EOpSparseImageLoad.code, rvName ("sparseImageLoadARB")),
  (EOpSparseImageLoadLod.code, rvName ("sparseImageLoadLodAMD")),
  (EOpColorAttachmentReadEXT.code, rvName ("colorAttachmentReadEXT")),
  (EOpTextureQuerySize.code, rvName ("textureSize")),
  (EOpTextureQueryLod.code, if version ≥ 400 then rvName ("textureQueryLod") else rvName ("textureQueryLOD")),
  (EOpTextureQueryLevels.code, rvName ("textureQueryLevels")),
  (EOpTextureQuerySamples.code, rvName ("textureSamples")),
  (EOpTextureOffset.code, rvName ("textureOffset")),
  (EOpTextureFetch.code, rvName ("texelFetch")),
  (EOpTextureFetchOffset.code, rvName ("texelFetchOffset")),
  (EOpTextureProjOffset.code, rvName ("textureProjOffset")),
  (EOpTextureLodOffset.code, rvName ("textureLodOffset")),
  (EOpTextureProjLodOffset.code, rvName ("textureProjLodOffset")),
  (EOpTextureGradOffset.code, rvName ("textureGradOffset")),
  (EOpTextureProjGradOffset.code, rvName ("textureProjGradOffset")),
  (EOpTextureGather.code, rvName ("textureGather")),
  (EOpTextureGatherOffset.code, rvName ("textureGatherOffset")),
  (EOpTextureGatherOffsets.code, rvName ("textureGatherOffsets")),
  (EOpTextureClamp.code, rvName ("textureClampARB")),
  (EOpTextureOffsetClamp.code, rvName ("textureOffsetClampARB")),
  (EOpTextureGradClamp.code, rvName ("textureGradClampARB")),
  (EOpTextureGradOffsetClamp.code, rvName ("textureGradOffsetClampARB")),
  (EOpTextureGatherLod.code, rvName ("textureGatherLodAMD")),
  (EOpTextureGatherLodOffset.code, rvName ("textureGatherLodOffsetAMD")),
  (EOpTextureGatherLodOffsets.code, rvName ("textureGatherLodOffsetsAMD")),
  (EOpFragmentMaskFetch.code, rvName ("fragmentMaskFetchAMD")),
  (EOpFragmentFetch.code, rvName ("fragmentFetchAMD")),
  (EOpSparseTexture.code, rvName ("sparseTextureARB")),
  (EOpSparseTextureLod.code, rvName ("sparseTextureLodARB")),
  (EOpSparseTextureOffset.code, rvName ("sparseTextureOffsetARB")),
  (EOpSparseTextureFetch.code, rvName ("sparseTexelFetchARB")),
  (EOpSparseTextureFetchOffset.code, rvName ("sparseTexelFetchOffsetARB")),
  (EOpSparseTextureLodOffset.code, rvName ("sparseTextureLodOffsetARB")),
  (EOpSparseTextureGrad.code, rvName ("sparseTextureGradARB")),
  (EOpSparseTextureGradOffset.code, rvName ("sparseTextureGradOffsetARB")),
  (EOpSparseTextureGather.code, rvName ("sparseTextureGatherARB")),
  (EOpSparseTextureGatherOffset.code, rvName ("sparseTextureGatherOffsetARB")),
  (EOpSparseTextureGatherOffsets.code, rvName ("sparseTextureGatherOffsetsARB")),
  (EOpSparseTexelsResident.code, rvName ("sparseTexelsResidentARB")),
  (EOpSparseTextureClamp.code, rvName ("sparseTextureClampARB")),
  (EOpSparseTextureOffsetClamp.code, rvName ("sparseTextureOffsetClampARB")),
  (EOpSparseTextureGradClamp.code, rvName ("sparseTextureGradClampARB")),
  (EOpSparseTextureGradOffsetClamp.code, rvName ("sparseTextureGradOffsetClampARB")),
  (EOpSparseTextureGatherLod.code, rvName ("sparseTextureGatherLodAMD")),
  (EOpSparseTextureGatherLodOffset.code, rvName ("sparseTextureGatherLodOffsetAMD")),
  (EOpSparseTextureGatherLodOffsets.code, rvName ("sparseTextureGatherLodOffsetsAMD")),
  (EOpImageSampleFootprintNV.code, rvName ("textureFootprintNV")),
  (EOpImageSampleFootprintClampNV.code, rvName ("textureFootprintClampNV")),
  (EOpImageSampleFootprintLodNV.code, rvName ("textureFootprintLodNV")),
  (EOpImageSampleFootprintGradNV.code, rvName ("textureFootprintGradNV")),
  (EOpImageSampleFootprintGradClampNV.code, rvName ("textureFootprintGradClampNV")),
  (EOpAddCarry.code, rvName ("uaddCarry")),
  (EOpSubBorrow.code, rvName ("usubBorrow")),
  (EOpUMulExtended.code, rvName ("umulExtended")),
  (EOpIMulExtended.code, rvName ("imulExtended")),
  (EOpBitfieldExtract.code, rvName ("bitfieldExtract")),
  (EOpBitfieldInsert.code, rvName ("bitfieldInsert")),
  (EOpBitFieldReverse.code, rvName ("bitfieldReverse")),
  (EOpBitCount.code, rvName ("bitCount")),
  (EOpFindLSB.code, rvName ("findLSB")),
  (EOpFindMSB.code, rvName ("findMSB")),
  (EOpCountLeadingZeros.code, rvName ("countLeadingZeros")),
  (EOpCountTrailingZeros.code, rvName ("countTrailingZeros")),
  (EOpAbsDifference.code, rvName ("absoluteDifference")),
  (EOpAddSaturate.code, rvName ("addSaturate")),
  (EOpSubSaturate.code, rvName ("subtractSaturate")),
  (EOpAverage.code, rvName ("average")),
  (EOpAverageRounded.code, rvName ("averageRounded")),
  (EOpMul32x16.code, rvName ("multiply32x16")),
  (EOpTraceNV.code, rvName ("traceNV")),
  (EOpTraceRayMotionNV.code, rvName ("traceRayMotionNV")),
  (EOpTraceKHR.code, rvName ("traceRayEXT")),
  (EOpReportIntersection.code, rvName ("reportIntersectionEXT")),
  (EOpIgnoreIntersectionNV.code, rvName ("ignoreIntersectionNV")),
  (EOpTerminateRayNV.code, rvName ("terminateRayNV")),
  (EOpExecuteCallableNV.code, rvName ("executeCallableNV")),
  (EOpExecuteCallableKHR.code, rvName ("executeCallableEXT")),
  (EOpWritePackedPrimitiveIndices4x8NV.code, rvName ("writePackedPrimitiveIndices4x8NV")),
  (EOpEmitMeshTasksEXT.code, rvName ("EmitMeshTasksEXT")),
  (EOpSetMeshOutputsEXT.code, rvName ("SetMeshOutputsEXT")),
  (EOpRayQueryInitialize.code, rvName ("rayQueryInitializeEXT")),
  (EOpRayQueryTerminate.code, rvName ("rayQueryTerminateEXT")),
  (EOpRayQueryGenerateIntersection.code, rvName ("rayQueryGenerateIntersectionEXT")),
  (EOpRayQueryConfirmIntersection.code, rvName ("rayQueryConfirmIntersectionEXT")),
  (EOpRayQueryProceed.code, rvName ("rayQueryProceedEXT")),
  (EOpRayQueryGetIntersectionType.code, rvName ("rayQueryGetIntersectionTypeEXT")),
  (EOpRayQueryGetRayTMin.code, rvName ("rayQueryGetRayTMinEXT")),
  (EOpRayQueryGetRayFlags.code, rvName ("rayQueryGetRayFlagsEXT")),
  (EOpRayQueryGetIntersectionT.code, rvName ("rayQueryGetIntersectionTEXT")),
  (EOpRayQueryGetIntersectionInstanceCustomIndex.code, rvName ("rayQueryGetIntersectionInstanceCustomIndexEXT")),
  (EOpRayQueryGetIntersectionInstanceId.code, rvName ("rayQueryGetIntersectionInstanceIdEXT")),
  (EOpRayQueryGetIntersectionInstanceShaderBindingTableRecordOffset.code, rvName ("rayQueryGetIntersectionInstanceShaderBindingTableRecordOffsetEXT")),
  (EOpRayQueryGetIntersectionGeometryIndex.code, rvName ("rayQueryGetIntersectionGeometryIndexEXT")),
  (EOpRayQueryGetIntersectionPrimitiveIndex.code, rvName ("rayQueryGetIntersectionPrimitiveIndexEXT")),
  (EOpRayQueryGetIntersectionBarycentrics.code, rvName ("rayQueryGetIntersectionBarycentricsEXT")),
  (EOpRayQueryGetIntersectionFrontFace.code, rvName ("rayQueryGetIntersectionFrontFaceEXT")),
  (EOpRayQueryGetIntersectionCandidateAABBOpaque.code, rvName ("rayQueryGetIntersectionCandidateAABBOpaqueEXT")),
  (EOpRayQueryGetIntersectionObjectRayDirection.code, rvName ("rayQueryGetIntersectionObjectRayDirectionEXT")),
  (EOpRayQueryGetIntersectionObjectRayOrigin.code, rvName ("rayQueryGetIntersectionObjectRayOriginEXT")),
  (EOpRayQueryGetWorldRayDirection.code, rvName ("rayQueryGetWorldRayDirectionEXT")),
  (EOpRayQueryGetWorldRayOrigin.code, rvName ("rayQueryGetWorldRayOriginEXT")),
  (EOpRayQueryGetIntersectionObjectToWorld.code, rvName ("rayQueryGetIntersectionObjectToWorldEXT")),
  (EOpRayQueryGetIntersectionWorldToObject.code, rvName ("rayQueryGetIntersectionWorldToObjectEXT")),
  (EOpHitObjectTraceRayNV.code, rvName ("hitObjectTraceRayNV")),
  (EOpHitObjectTraceRayMotionNV.code, rvName ("hitObjectTraceRayMotionNV")),
  (EOpHitObjectRecordHitNV.code, rvName ("hitObjectRecordHitNV")),
  (EOpHitObjectRecordHitMotionNV.code, rvName ("hitObjectRecordHitMotionNV")),
  (EOpHitObjectRecordHitWithIndexNV.code, rvName ("hitObjectRecordHitWithIndexNV")),
  (EOpHitObjectRecordHitWithIndexMotionNV.code, rvName ("hitObjectRecordHitWithIndexMotionNV")),
  (EOpHitObjectRecordMissNV.code, rvName ("hitObjectRecordMissNV")),
  (EOpHitObjectRecordMissMotionNV.code, rvName ("hitObjectRecordMissMotionNV")),
  (EOpHitObjectRecordEmptyNV.code, rvName ("hitObjectRecordEmptyNV")),
  (EOpHitObjectExecuteShaderNV.code, rvName ("hitObjectExecuteShaderNV")),
  (EOpHitObjectIsEmptyNV.code, rvName ("hitObjectIsEmptyNV")),
  (EOpHitObjectIsMissNV.code, rvName ("hitObjectIsMissNV")),
  (EOpHitObjectIsHitNV.code, rvName ("hitObjectIsHitNV")),
  (EOpHitObjectGetRayTMinNV.code, rvName ("hitObjectGetRayTMinNV")),
  (EOpHitObjectGetRayTMaxNV.code, rvName ("hitObjectGetRayTMaxNV")),
  (EOpHitObjectGetObjectRayOriginNV.code, rvName ("hitObjectGetObjectRayOriginNV")),
  (EOpHitObjectGetObjectRayDirectionNV.code, rvName ("hitObjectGetObjectRayDirectionNV")),
  (EOpHitObjectGetWorldRayOriginNV.code, rvName ("hitObjectGetWorldRayOriginNV")),
  (EOpHitObjectGetWorldRayDirectionNV.code, rvName ("hitObjectGetWorldRayDirectionNV")),
  (EOpHitObjectGetWorldToObjectNV.code, rvName ("hitObjectGetWorldToObjectNV")),
  (EOpHitObjectGetObjectToWorldNV.code, rvName ("hitObjectGetObjectToWorldNV")),
  (EOpHitObjectGetInstanceCustomIndexNV.code, rvName ("hitObjectGetInstanceCustomIndexNV")),
  (EOpHitObjectGetInstanceIdNV.code, rvName ("hitObjectGetInstanceIdNV")),
  (EOpHitObjectGetGeometryIndexNV.code, rvName ("hitObjectGetGeometryIndexNV")),
  (EOpHitObjectGetPrimitiveIndexNV.code, rvName ("hitObjectGetPrimitiveIndexNV")),
  (EOpHitObjectGetHitKindNV.code, rvName ("hitObjectGetHitKindNV")),
  (EOpHitObjectGetShaderBindingTableRecordIndexNV.code, rvName ("hitObjectGetShaderBindingTableRecordIndexNV")),
  (EOpHitObjectGetShaderRecordBufferHandleNV.code, rvName ("hitObjectGetShaderRecordBufferHandleNV")),
  (EOpHitObjectGetAttributesNV.code, rvName ("hitObjectGetAttributesNV")),
  (EOpHitObjectGetCurrentTimeNV.code, rvName ("hitObjectGetCurrentTimeNV")),
  (EOpReorderThreadNV.code, rvName ("reorderThreadNV")),
  (EOpFetchMicroTriangleVertexPositionNV.code, rvName ("fetchMicroTriangleVertexPositionNV")),
  (EOpFetchMicroTriangleVertexBarycentricNV.code, rvName ("fetchMicroTriangleVertexBarycentricNV")),
  (EOpRayQueryGetIntersectionTriangleVertexPositionsEXT.code, rvName ("rayQueryGetIntersectionTriangleVertexPositionsEXT")),
  (EOpStencilAttachmentReadEXT.code, rvName ("stencilAttachmentReadEXT")),
  (EOpDepthAttachmentReadEXT.code, rvName ("depthAttachmentReadEXT")),
  (EOpImageSampleWeightedQCOM.code, rvName ("textureWeightedQCOM")),
  (EOpImageBoxFilterQCOM.code, rvName ("textureBoxFilterQCOM")),
  (EOpImageBlockMatchSADQCOM.code, rvName ("textureBlockMatchSADQCOM")),
  (EOpImageBlockMatchSSDQCOM.code, rvName ("textureBlockMatchSSDQCOM"))
]

/-- Embeds `glslangOperatorToRValueOperator` (FromGlsl.cpp lines 30-708):
translates a glslang operator to either an astrict `RValueOperator` or a
GLSL function name.  The default branch logs an error ("Cannot convert
operator ... to RValue operator.") and returns `RValueOperator::Ternary`
instead of aborting; `loggedError` records the log.  `returnType` and
`arg1Type` are parameters the source body never reads. -/
def glslangOperatorToRValueOperator (op : TOperator) (version : Int)
    (returnType : GlslType) (arg1Type : Option GlslType) : RVResult :=
  match assocFind (rvalueCases version) op.code with
  | some r => r
  | none => { result := Sum.inl RValueOperator.Ternary, loggedError := true }

/-- Embeds the cases of the `glslangOperatorToBranchOperator` switch
(FromGlsl.cpp lines 713-722) in source order. -/
def branchCases : List (Nat × BranchOperator) := [
  (EOpKill.code, .Discard),
  (EOpTerminateInvocation.code, .TerminateInvocation),
  (EOpDemote.code, .Demote),
  (EOpTerminateRayKHR.code, .TerminateRayEXT),
  (EOpIgnoreIntersectionKHR.code, .IgnoreIntersectionEXT),
  (EOpReturn.code, .Return),
  (EOpBreak.code, .Break),
  (EOpContinue.code, .Continue),
  (EOpCase.code, .Case),
  (EOpDefault.code, .Default)
]

/-- Embeds `glslangOperatorToBranchOperator` (FromGlsl.cpp lines 710-727):
defined on exactly ten branch operators; every other operator hits
`PANIC_PRECONDITION`, modelled as `none`. -/
def glslangOperatorToBranchOperator (op : TOperator) : Option BranchOperator :=
  assocFind branchCases op.code

/-- The ten glslang operators `glslangOperatorToBranchOperator` handles. -/
def handledBranchOps : List TOperator :=
  [EOpKill, EOpTerminateInvocation, EOpDemote, EOpTerminateRayKHR,
   EOpIgnoreIntersectionKHR, EOpReturn, EOpBreak, EOpContinue,
   EOpCase, EOpDefault]

end FromGlsl

namespace ShaderCompilerService

/-- C1: `isProgramReady(token)` returns true iff the token's state is
`Ready` or `Error`; it is a pure, non-blocking predicate on the state (it
mutates nothing), and whenever it returns true a subsequent `getProgram`
does not block: the wait consumes none of the future and `getProgram`
returns at once with the same state. -/
theorem isProgramReady_iff_ready_or_error (s : TokenState) (t : Token)
    (future : List TokenState) :
    (isProgramReady s = true ↔ (s = .Ready ∨ s = .Error)) ∧
    (isProgramReady t.state = true →
      waitTerminal t.state future = t.state ∧
      getProgram t future = getProgram t []) := by
  constructor
  · cases s <;> simp [isProgramReady]
  · intro h
    have hterm : t.state.terminal = true := by
      cases hs : t.state <;> simp [hs, isProgramReady] at h ⊢ <;>
        simp [TokenState.terminal]
    have hwait : waitTerminal t.state future = t.state := by
      cases future with
      | nil => rfl
      | cons nxt rest => simp [waitTerminal, hterm]
    refine ⟨hwait, ?_⟩
    simp [getProgram, hwait, waitTerminal]

/-- C1 witness. -/
theorem isProgramReady_iff_ready_or_error_witness :
    isProgramReady .Ready = true ∧
    waitTerminal TokenState.Ready [.Error] = .Ready := by
  have h := isProgramReady_iff_ready_or_error .Ready
    { state := .Ready, glProgram := 7, valid := true } [.Error]
  exact ⟨by decide, (h.2 (by decide)).1⟩

/-- C2: `Ready`, `Error` and `Cancelled` are terminal: no single transition
leaves them, so along any sequence of transitions the state never changes
again; consequently `isProgramReady` is monotonic: false before the
compile+link completes (true only in `Ready`/`Error`), and once true it
stays true for the rest of the token's life. -/
theorem terminal_states_never_transition :
    (∀ s u : TokenState, s.terminal = true → allowedNext s u = false) ∧
    (∀ s u : TokenState, s.terminal = true → TokenSteps s u → u = s) ∧
    (∀ s u : TokenState, isProgramReady s = true → TokenSteps s u →
      isProgramReady u = true) := by
  have hstep : ∀ s u : TokenState, s.terminal = true → allowedNext s u = false := by
    intro s u
    cases s <;> cases u <;> decide
  have hsteps : ∀ s u : TokenState, s.terminal = true → TokenSteps s u → u = s := by
    intro s u hs h
    induction h using Relation.ReflTransGen.head_induction_on with
    | refl => rfl
    | head hab _ ih =>
      rename_i a c hcu
      exact absurd hab (by simp [hstep _ _ hs])
  refine ⟨hstep, hsteps, ?_⟩
  intro s u hs h
  have hterm : s.terminal = true := by
    cases s <;> simp_all [isProgramReady, TokenState.terminal]
  rw [hsteps s u hterm h]
  exact hs

/-- C2 witness. -/
theorem terminal_states_never_transition_witness :
    TokenState.terminal .Ready = true ∧
    allowedNext .Ready .Cancelled = false ∧
    (TokenSteps .Ready .Ready) := by
  have h := terminal_states_never_transition
  exact ⟨by decide, h.1 .Ready .Cancelled (by decide), Relation.ReflTransGen.refl⟩

/-- C7: when parallel (shared-context) compilation is unsupported or
disabled, `createProgram` takes the synchronous path, and the returned
token is already in a terminal state when `createProgram` returns, so
`isProgramReady` is true from the very first check. -/
theorem createProgram_sync_terminal (compileOk : Bool) (handle : Nat) :
    createProgram false compileOk handle = createProgramSync compileOk handle ∧
    (createProgram false compileOk handle).state.terminal = true ∧
    isProgramReady (createProgram false compileOk handle).state = true := by
  cases compileOk <;> simp [createProgram, createProgramSync, TokenState.terminal,
    isProgramReady]

end ShaderCompilerService

namespace ShaderCompilerService

/-- A worker always takes from the front of the high queue when it is
non-empty, regardless of the low queue. -/
theorem takeNext_high_first (s : PoolState) (j : Nat) (rest : List Nat)
    (h : s.high = j :: rest) :
    s.takeNext = some (j, { s with high := rest }) := by
  simp [PoolState.takeNext, h]

/-- Draining the pool executes the whole high queue in FIFO order, then the
whole low queue in FIFO order. -/
theorem drain_eq_high_append_low (s : PoolState) :
    s.drain = s.high ++ s.low := by
  rcases s with ⟨high, low⟩
  induction high with
  | nil =>
    induction low with
    | nil => rw [PoolState.drain]; rfl
    | cons b restl ihl =>
      rw [PoolState.drain]
      simp only [PoolState.takeNext]
      simpa using ihl
  | cons a resth ihh =>
    rw [PoolState.drain]
    simp only [PoolState.takeNext]
    simpa using ihh

end ShaderCompilerService

namespace ShaderCompilerService

/-- C3: workers serve the high-priority queue before the low one whenever it
is non-empty, and within each queue in strict FIFO submission order:
draining executes the high queue front-to-back and then the low queue
front-to-back.  In particular, submitting High#1 (job 1) then Low#1 (job 2)
while both queues are empty and then High#2 (job 3) yields execution order
High#1, High#2, Low#1, whether High#2 is submitted before or after the
first pickup. -/
theorem pool_priority_fifo_order (s : PoolState) (j : Nat) (rest : List Nat) :
    (s.high = j :: rest → s.takeNext = some (j, { s with high := rest })) ∧
    s.drain = s.high ++ s.low ∧
    (runPool { high := [], low := [] }
        [.enq .High 1, .enq .Low 2, .enq .High 3, .deq, .deq, .deq]).2
      = [1, 3, 2] ∧
    (runPool { high := [], low := [] }
        [.enq .High 1, .enq .Low 2, .deq, .enq .High 3, .deq, .deq]).2
      = [1, 3, 2] := by
  refine ⟨takeNext_high_first s j rest, drain_eq_high_append_low s, ?_, ?_⟩ <;> rfl

/-- C3 witness. -/
theorem pool_priority_fifo_order_witness :
    ({ high := [5, 6], low := [9] } : PoolState).high = 5 :: [6] ∧
    ({ high := [5, 6], low := [9] } : PoolState).takeNext
      = some (5, { high := [6], low := [9] }) := by
  have h := pool_priority_fifo_order { high := [5, 6], low := [9] } 5 [6]
  exact ⟨rfl, h.1 rfl⟩

/-- Draining the snapshot executes exactly the snapshot's ops in order and
leaves behind the previously pending tail plus everything the executed ops
enqueued, in execution order. -/
theorem drainTickOps_spec (ops pendingAfter : List TickOp) :
    drainTickOps ops pendingAfter
      = (ops.map TickOp.id, pendingAfter ++ ops.flatMap TickOp.spawns) := by
  induction ops generalizing pendingAfter with
  | nil => simp [drainTickOps]
  | cons op rest ih => simp [drainTickOps, ih, List.append_assoc]

/-- C4: each `tick()` call executes exactly the TickOps pending at the
moment of the call, in strict insertion order; ops enqueued while the call
is draining are not executed during that call but are pending (in order)
for the next call.  In particular with pending ops A, B, C (ids 1, 2, 3)
where B enqueues a fourth op D (id 4) during the drain, the call fires
1, 2, 3 — not 4 — and the next call fires 4. -/
theorem tick_drains_snapshot_in_order (ops : List TickOp) :
    executeTickOps ops = (ops.map TickOp.id, ops.flatMap TickOp.spawns) ∧
    executeTickOps [.mk 1 [], .mk 2 [.mk 4 []], .mk 3 []]
      = ([1, 2, 3], [.mk 4 []]) ∧
    executeTickOps [.mk 4 []] = ([4], []) := by
  refine ⟨?_, ?_, ?_⟩
  · simpa [executeTickOps] using drainTickOps_spec ops []
  · rfl
  · rfl

end ShaderCompilerService

namespace ShaderCompilerService

/-- C6: `getProgram` on a valid token waits until the token's terminal
state, returns the compiled program handle — the sentinel invalid handle
`0` exactly when the state is `Error` — and consumes the token (it comes
back invalid).  On a known-good token (terminal state `Ready`, non-zero
handle) the returned handle is valid, and a second call on the now-invalid
token is a precondition violation (`none`), not a recoverable result. -/
theorem getProgram_consumes_token (t : Token) (future future2 : List TokenState)
    (hv : t.valid = true) :
    ∃ h t2, getProgram t future = some (h, t2) ∧
      t2.valid = false ∧
      t2.state = waitTerminal t.state future ∧
      t2.glProgram = t.glProgram ∧
      (waitTerminal t.state future = .Error → h = 0) ∧
      (waitTerminal t.state future ≠ .Error → h = t.glProgram) ∧
      (waitTerminal t.state future = .Ready → t.glProgram ≠ 0 → h ≠ 0) ∧
      getProgram t2 future2 = none := by
  refine ⟨if waitTerminal t.state future = .Error then 0 else t.glProgram,
    { t with state := waitTerminal t.state future, valid := false }, ?_, rfl, rfl,
    rfl, ?_, ?_, ?_, ?_⟩
  · simp [getProgram, hv]
  · intro he; simp [he]
  · intro he; simp [he]
  · intro hr hnz
    rw [hr]
    simpa using hnz
  · simp [getProgram]

/-- C6 witness. -/
theorem getProgram_consumes_token_witness :
    ({ state := .Compiling, glProgram := 7, valid := true } : Token).valid = true ∧
    ∃ h t2,
      getProgram { state := .Compiling, glProgram := 7, valid := true }
          [.Linked, .Ready] = some (h, t2) ∧
      t2.valid = false ∧
      t2.state = waitTerminal .Compiling [.Linked, .Ready] ∧
      t2.glProgram = 7 ∧
      (waitTerminal TokenState.Compiling [.Linked, .Ready] = .Error → h = 0) ∧
      (waitTerminal TokenState.Compiling [.Linked, .Ready] ≠ .Error → h = 7) ∧
      (waitTerminal TokenState.Compiling [.Linked, .Ready] = .Ready →
        (7 : Nat) ≠ 0 → h ≠ 0) ∧
      getProgram t2 [] = none :=
  ⟨rfl, getProgram_consumes_token
    { state := .Compiling, glProgram := 7, valid := true } [.Linked, .Ready] [] rfl⟩

end ShaderCompilerService

namespace FromGlsl

/-- C9: on a 13-element name table, `expandTypeNameToVectorOrMatrix` only
reads in-bounds entries.  Under the asserted preconditions it returns
`typeNames[vectorSize-1]` for vectors (index in `[0,3]`) and
`typeNames[4 + (matrixCols-2)*3 + (matrixRows-2)]` for matrices (index in
`[4,12]`), and the read always yields an entry; inputs outside the asserted
ranges fail the precondition assertion (`none`) instead of indexing out of
bounds. -/
theorem expandTypeName_index_in_bounds (typeNames : List String)
    (hlen : typeNames.length = 13) (v c r : Int) :
    (1 ≤ v → v ≤ 4 →
      expandTypeNameToVectorOrMatrix typeNames false v c r
          = typeNames[(v - 1).toNat]? ∧
      (v - 1).toNat ≤ 3 ∧
      (expandTypeNameToVectorOrMatrix typeNames false v c r).isSome = true) ∧
    (2 ≤ c → c ≤ 4 → 2 ≤ r → r ≤ 4 →
      expandTypeNameToVectorOrMatrix typeNames true v c r
          = typeNames[(4 + (c - 2) * 3 + (r - 2)).toNat]? ∧
      4 ≤ (4 + (c - 2) * 3 + (r - 2)).toNat ∧
      (4 + (c - 2) * 3 + (r - 2)).toNat ≤ 12 ∧
      (expandTypeNameToVectorOrMatrix typeNames true v c r).isSome = true) ∧
    (¬(1 ≤ v ∧ v ≤ 4) →
      expandTypeNameToVectorOrMatrix typeNames false v c r = none) ∧
    (¬(2 ≤ c ∧ c ≤ 4) ∨ ¬(2 ≤ r ∧ r ≤ 4) →
      expandTypeNameToVectorOrMatrix typeNames true v c r = none) := by
  refine ⟨?_, ?_, ?_, ?_⟩
  · intro h1 h4
    have hb : (v - 1).toNat ≤ 3 := by omega
    have hlt : (v - 1).toNat < typeNames.length := by omega
    have heq : expandTypeNameToVectorOrMatrix typeNames false v c r
        = typeNames[(v - 1).toNat]? := by
      simp [expandTypeNameToVectorOrMatrix, expandTypeNameToVector, h1, h4]
    refine ⟨heq, hb, ?_⟩
    rw [heq, List.getElem?_eq_getElem hlt]
    rfl
  · intro hc2 hc4 hr2 hr4
    have hlo : 4 ≤ (4 + (c - 2) * 3 + (r - 2)).toNat := by omega
    have hhi : (4 + (c - 2) * 3 + (r - 2)).toNat ≤ 12 := by omega
    have hlt : (4 + (c - 2) * 3 + (r - 2)).toNat < typeNames.length := by omega
    have heq : expandTypeNameToVectorOrMatrix typeNames true v c r
        = typeNames[(4 + (c - 2) * 3 + (r - 2)).toNat]? := by
      simp [expandTypeNameToVectorOrMatrix, hc2, hc4, hr2, hr4]
    refine ⟨heq, hlo, hhi, ?_⟩
    rw [heq, List.getElem?_eq_getElem hlt]
    rfl
  · intro h
    have h2 : ¬(v ≥ 1 ∧ v ≤ 4) := by omega
    simp [expandTypeNameToVectorOrMatrix, expandTypeNameToVector, h2]
  · intro h
    rcases h with h | h
    · have h2 : ¬(c ≥ 2 ∧ c ≤ 4) := by omega
      simp [expandTypeNameToVectorOrMatrix, h2]
    · have h2 : ¬(r ≥ 2 ∧ r ≤ 4) := by omega
      simp [expandTypeNameToVectorOrMatrix, h2]

/-- C9 witness: the `mat4x2` entry of the float table. -/
theorem expandTypeName_index_in_bounds_witness :
    FLOAT_TYPE_NAMES.length = 13 ∧
    (2 : Int) ≤ 4 ∧
    expandTypeNameToVectorOrMatrix FLOAT_TYPE_NAMES true 1 4 2
        = FLOAT_TYPE_NAMES[((4 : Int) + (4 - 2) * 3 + (2 - 2)).toNat]? ∧
    expandTypeNameToVectorOrMatrix FLOAT_TYPE_NAMES true 1 4 2 = some "mat4x2" := by
  have h := expandTypeName_index_in_bounds FLOAT_TYPE_NAMES (by decide) 1 4 2
  have h2 := h.2.1 (by decide) (by decide) (by decide) (by decide)
  exact ⟨by decide, by decide, h2.1, by decide⟩

end FromGlsl

namespace FromGlsl

/-- Lemma: `assocFind` misses exactly the keys that are not bound. -/
theorem assocFind_eq_none_iff {K A : Type} [DecidableEq K]
    (l : List (K × A)) (k : K) :
    assocFind l k = none ↔ k ∉ l.map Prod.fst := by
  induction l with
  | nil => simp [assocFind]
  | cons e rest ih =>
    obtain ⟨k0, a0⟩ := e
    by_cases hk : k0 = k
    · subst hk
      simp [assocFind]
    · simp only [assocFind, if_neg hk, ih, List.map_cons, List.mem_cons]
      constructor
      · intro h hm
        rcases hm with hm | hm
        · exact hk hm.symm
        · exact h hm
      · intro h hm
        exact h (Or.inr hm)

/-- With pairwise-distinct keys, `assocFind` returns the bound pair. -/
theorem assocFind_of_mem_of_nodupKeys {K A : Type} [DecidableEq K]
    (l : List (K × A)) (hnd : (l.map Prod.fst).Nodup) (k : K) (a : A)
    (h : (k, a) ∈ l) : assocFind l k = some a := by
  induction l with
  | nil => simp at h
  | cons e rest ih =>
    obtain ⟨k0, a0⟩ := e
    simp only [List.map_cons, List.nodup_cons] at hnd
    rcases List.mem_cons.mp h with he | hm
    · simp only [Prod.mk.injEq] at he
      obtain ⟨rfl, rfl⟩ := he
      simp [assocFind]
    · have hk : k0 ≠ k := by
        rintro rfl
        exact hnd.1 (List.mem_map.mpr ⟨(k0, a), hm, rfl⟩)
      simp only [assocFind, if_neg hk]
      exact ih hnd.2 hm

set_option maxRecDepth 8192 in
/-- Helper: every case label of the RValue switch is a named code below
1000, so the codes of `EOpOther` never match an explicit case. -/
theorem rvalueCases_labels_lt (version : Int) :
    ∀ x ∈ (rvalueCases version).map Prod.fst, x < 1000 := by
  have hmap : (rvalueCases version).map Prod.fst
      = (rvalueCases 0).map Prod.fst := rfl
  rw [hmap]
  decide

set_option maxRecDepth 8192 in
/-- C10: `glslangOperatorToRValueOperator` is total: every operator outside
its explicit cases — the operators handled only by the branch switch, and
every other enumerator — does not abort but logs the conversion error and
returns `RValueOperator::Ternary`.  `glslangOperatorToBranchOperator`, by
contrast, maps exactly its ten handled branch operators and hits the
`PANIC_PRECONDITION` abort (modelled `none`) on every other operator. -/
theorem operator_translation_default_behavior :
    (∀ (n : Nat) (version : Int) (rt : GlslType) (a1 : Option GlslType),
      glslangOperatorToRValueOperator (EOpOther n) version rt a1
        = { result := Sum.inl RValueOperator.Ternary, loggedError := true }) ∧
    (∀ (version : Int) (rt : GlslType) (a1 : Option GlslType),
      ∀ op ∈ handledBranchOps,
        glslangOperatorToRValueOperator op version rt a1
          = { result := Sum.inl RValueOperator.Ternary, loggedError := true }) ∧
    glslangOperatorToBranchOperator EOpKill = some .Discard ∧
    glslangOperatorToBranchOperator EOpTerminateInvocation
      = some .TerminateInvocation ∧
    glslangOperatorToBranchOperator EOpDemote = some .Demote ∧
    glslangOperatorToBranchOperator EOpTerminateRayKHR = some .TerminateRayEXT ∧
    glslangOperatorToBranchOperator EOpIgnoreIntersectionKHR
      = some .IgnoreIntersectionEXT ∧
    glslangOperatorToBranchOperator EOpReturn = some .Return ∧
    glslangOperatorToBranchOperator EOpBreak = some .Break ∧
    glslangOperatorToBranchOperator EOpContinue = some .Continue ∧
    glslangOperatorToBranchOperator EOpCase = some .Case ∧
    glslangOperatorToBranchOperator EOpDefault = some .Default ∧
    (∀ op : TOperator, op ∉ handledBranchOps →
      glslangOperatorToBranchOperator op = none) := by
  refine ⟨?_, ?_, rfl, rfl, rfl, rfl, rfl, rfl, rfl, rfl, rfl, rfl, ?_⟩
  · intro n version rt a1
    have hnone : assocFind (rvalueCases version) (EOpOther n).code = none := by
      apply (assocFind_eq_none_iff _ _).mpr
      intro hmem
      have hx := rvalueCases_labels_lt version _ hmem
      simp only [EOpOther] at hx
      omega
    simp [glslangOperatorToRValueOperator, hnone]
  · intro version rt a1 op hop
    simp only [handledBranchOps, List.mem_cons, List.not_mem_nil, or_false] at hop
    rcases hop with rfl | rfl | rfl | rfl | rfl | rfl | rfl | rfl | rfl | rfl <;> rfl
  · intro op hop
    show assocFind branchCases op.code = none
    apply (assocFind_eq_none_iff _ _).mpr
    intro hmem
    apply hop
    rcases op with ⟨c⟩
    have hmap : branchCases.map Prod.fst
        = [328, 553, 216, 554, 287, 432, 59, 173, 60, 214] := rfl
    rw [hmap] at hmem
    simp only [List.mem_cons, List.not_mem_nil, or_false] at hmem
    rcases hmem with rfl | rfl | rfl | rfl | rfl | rfl | rfl | rfl | rfl | rfl <;>
      decide

end FromGlsl

namespace FromGlsl


end FromGlsl

namespace FromGlsl

/-- C8: for both id stores, `insert` is idempotent on the lookup key:
inserting a value (`IdStoreByValue`) or key (`IdStoreByKey`) that is
already present returns the id it was bound to at its first insertion and
leaves the store unchanged, while inserting a fresh value/key returns the
next id `mLastId + 1`, distinct from every id in the store (hence from all
previously returned ids), appending the binding; well-formedness — the
bound ids are exactly `1, 2, 3, ...` in insertion order with distinct
values/keys — holds for the empty store and is preserved, and `getFinal`
maps each assigned id back to its value (and `get` returns the id bound to
a key). -/
theorem idStore_insert_idempotent_fresh_ids
    {V K : Type} [DecidableEq V] [DecidableEq K]
    (s : IdStoreByValue V) (t : IdStoreByKey V K)
    (v : V) (k : K) (val : V) (i : Nat) :
    (IdStoreByValue.empty V).WF ∧
    (assocFind s.mMap v = some i → s.insert v = (i, s)) ∧
    (s.WF → assocFind s.mMap v = none →
      (s.insert v).1 = s.mLastId + 1 ∧
      (∀ j ∈ s.mMap.map (·.2), (s.insert v).1 ≠ j) ∧
      (s.insert v).2.mMap = s.mMap ++ [(v, s.mLastId + 1)] ∧
      (s.insert v).2.WF) ∧
    (s.WF → (v, i) ∈ s.mMap → assocFind s.getFinal i = some v) ∧
    (IdStoreByKey.empty V K).WF ∧
    (∀ e, assocFind t.mMap k = some e → t.insert k val = (e.1, t)) ∧
    (t.WF → assocFind t.mMap k = none →
      (t.insert k val).1 = t.mLastId + 1 ∧
      (∀ j ∈ t.mMap.map (·.2.1), (t.insert k val).1 ≠ j) ∧
      (t.insert k val).2.mMap = t.mMap ++ [(k, (t.mLastId + 1, val))] ∧
      (t.insert k val).2.WF) ∧
    (t.WF → (k, (i, val)) ∈ t.mMap → assocFind t.getFinal i = some val) ∧
    (t.WF → (k, (i, val)) ∈ t.mMap → t.get k = some i) := by
  refine ⟨⟨rfl, rfl, List.nodup_nil⟩, ?_, ?_, ?_,
    ⟨rfl, rfl, List.nodup_nil⟩, ?_, ?_, ?_, ?_⟩
  · intro h
    simp [IdStoreByValue.insert, h]
  · rintro ⟨hids, hlast, hkeys⟩ hnone
    have hlen : s.mLastId = s.mMap.length := hlast
    have heq : s.insert v = (s.mLastId + 1,
        { mLastId := s.mLastId + 1, mMap := s.mMap ++ [(v, s.mLastId + 1)] }) := by
      simp [IdStoreByValue.insert, hnone]
    rw [heq]
    refine ⟨rfl, ?_, rfl, ?_, ?_, ?_⟩
    · intro j hj
      rw [hids] at hj
      have hb := List.mem_range'_1.mp hj
      omega
    · show ((s.mMap ++ [(v, s.mLastId + 1)]).map (·.2))
        = List.range' 1 (s.mMap ++ [(v, s.mLastId + 1)]).length
      rw [List.map_append, hids]
      simp only [List.map_cons, List.map_nil, List.length_append,
        List.length_cons, List.length_nil]
      have hc := @List.range'_concat 1 1 s.mMap.length
      simp only [one_mul] at hc
      rw [hlen]
      rw [show s.mMap.length + (0 + 1) = s.mMap.length + 1 by omega, hc]
      congr 1
      simp
      omega
    · show s.mLastId + 1 = (s.mMap ++ [(v, s.mLastId + 1)]).length
      simp [hlen]
    · show ((s.mMap ++ [(v, s.mLastId + 1)]).map (·.1)).Nodup
      rw [List.map_append]
      have hv : v ∉ s.mMap.map Prod.fst := (assocFind_eq_none_iff _ _).mp hnone
      simp only [List.map_cons, List.map_nil]
      rw [List.nodup_append]
      refine ⟨hkeys, List.nodup_singleton v, ?_⟩
      intro a ha hb
      simp only [List.mem_singleton] at hb
      subst hb
      exact hv ha
  · rintro ⟨hids, hlast, hkeys⟩ hm
    have hnd : (s.getFinal.map Prod.fst).Nodup := by
      have : s.getFinal.map Prod.fst = s.mMap.map (·.2) := by
        simp [IdStoreByValue.getFinal]
      rw [this, hids]
      exact List.nodup_range' 1 s.mMap.length
    exact assocFind_of_mem_of_nodupKeys s.getFinal hnd i v
      (List.mem_map.mpr ⟨(v, i), hm, rfl⟩)
  · intro e h
    simp [IdStoreByKey.insert, h]
  · rintro ⟨hids, hlast, hkeys⟩ hnone
    have hlen : t.mLastId = t.mMap.length := hlast
    have heq : t.insert k val = (t.mLastId + 1,
        { mLastId := t.mLastId + 1,
          mMap := t.mMap ++ [(k, (t.mLastId + 1, val))] }) := by
      simp [IdStoreByKey.insert, hnone]
    rw [heq]
    refine ⟨rfl, ?_, rfl, ?_, ?_, ?_⟩
    · intro j hj
      rw [hids] at hj
      have hb := List.mem_range'_1.mp hj
      omega
    · show ((t.mMap ++ [(k, (t.mLastId + 1, val))]).map (·.2.1))
        = List.range' 1 (t.mMap ++ [(k, (t.mLastId + 1, val))]).length
      rw [List.map_append, hids]
      simp only [List.map_cons, List.map_nil, List.length_append,
        List.length_cons, List.length_nil]
      have hc := @List.range'_concat 1 1 t.mMap.length
      simp only [one_mul] at hc
      rw [hlen]
      rw [show t.mMap.length + (0 + 1) = t.mMap.length + 1 by omega, hc]
      congr 1
      simp
      omega
    · show t.mLastId + 1 = (t.mMap ++ [(k, (t.mLastId + 1, val))]).length
      simp [hlen]
    · show ((t.mMap ++ [(k, (t.mLastId + 1, val))]).map (·.1)).Nodup
      rw [List.map_append]
      have hk : k ∉ t.mMap.map Prod.fst := (assocFind_eq_none_iff _ _).mp hnone
      simp only [List.map_cons, List.map_nil]
      rw [List.nodup_append]
      refine ⟨hkeys, List.nodup_singleton k, ?_⟩
      intro a ha hb
      simp only [List.mem_singleton] at hb
      subst hb
      exact hk ha
  · rintro ⟨hids, hlast, hkeys⟩ hm
    have hnd : (t.getFinal.map Prod.fst).Nodup := by
      have : t.getFinal.map Prod.fst = t.mMap.map (·.2.1) := by
        simp [IdStoreByKey.getFinal]
      rw [this, hids]
      exact List.nodup_range' 1 t.mMap.length
    exact assocFind_of_mem_of_nodupKeys t.getFinal hnd i val
      (List.mem_map.mpr ⟨(k, (i, val)), hm, rfl⟩)
  · rintro ⟨hids, hlast, hkeys⟩ hm
    have h := assocFind_of_mem_of_nodupKeys t.mMap hkeys k (i, val) hm
    simp [IdStoreByKey.get, h]

end FromGlsl

namespace FromGlsl

/-- C8 witness: re-inserting value 10 into the store that assigned it id 1
returns id 1 and leaves the store unchanged. -/
theorem idStore_insert_idempotent_fresh_ids_witness :
    assocFind ([(10, 1), (20, 2)] : List (Nat × Nat)) 10 = some 1 ∧
    IdStoreByValue.insert ⟨2, [(10, 1), (20, 2)]⟩ 10
      = (1, (⟨2, [(10, 1), (20, 2)]⟩ : IdStoreByValue Nat)) := by
  have h := idStore_insert_idempotent_fresh_ids
    (⟨2, [(10, 1), (20, 2)]⟩ : IdStoreByValue Nat)
    (⟨0, []⟩ : IdStoreByKey Nat Nat) 10 0 0 1
  exact ⟨rfl, h.2.1 rfl⟩

end FromGlsl

namespace FromGlsl

set_option maxRecDepth 8192 in
/-- C10 witness: `EOpKill` is handled by the branch switch but falls to the
RValue switch's logging default. -/
theorem operator_translation_default_behavior_witness :
    EOpKill ∈ handledBranchOps ∧
    glslangOperatorToRValueOperator EOpKill 460 ⟨"void", "highp", []⟩ none
      = { result := Sum.inl RValueOperator.Ternary, loggedError := true } := by
  have h := operator_translation_default_behavior
  exact ⟨by decide,
    h.2.1 460 ⟨"void", "highp", []⟩ none EOpKill (by decide)⟩

end FromGlsl

namespace ShaderCompilerService

/-- The callback ids a tick emits form a sublist of the barrier ids. -/
theorem fireBarriers_out_sublist (sys : Sys) (bs : List Barrier) :
    ((fireBarriers sys bs).2).Sublist (bs.map Barrier.id) := by
  induction bs with
  | nil => simp [fireBarriers]
  | cons b rest ih =>
    simp only [fireBarriers, List.map_cons]
    split
    · exact ih.cons₂ b.id
    · exact ih.cons b.id

/-- Every barrier after a tick is an original barrier, possibly fired. -/
theorem fireBarriers_mem (sys : Sys) (bs : List Barrier) :
    ∀ b2 ∈ (fireBarriers sys bs).1,
      ∃ b ∈ bs, b2 = b ∨ b2 = { b with fired := true } := by
  induction bs with
  | nil => simp [fireBarriers]
  | cons b rest ih =>
    simp only [fireBarriers]
    split
    · intro b2 hb2
      rcases List.mem_cons.mp hb2 with rfl | hm
      · exact ⟨b, List.mem_cons_self b rest, Or.inr rfl⟩
      · obtain ⟨b0, hb0, hor⟩ := ih b2 hm
        exact ⟨b0, List.mem_cons_of_mem b hb0, hor⟩
    · intro b2 hb2
      rcases List.mem_cons.mp hb2 with rfl | hm
      · exact ⟨b2, List.mem_cons_self b2 rest, Or.inl rfl⟩
      · obtain ⟨b0, hb0, hor⟩ := ih b2 hm
        exact ⟨b0, List.mem_cons_of_mem b hb0, hor⟩

/-- A callback id is emitted only for a barrier that was waiting and whose
tracked tokens are all terminal. -/
theorem fireBarriers_out_mem (sys : Sys) (bs : List Barrier) (bid : Nat)
    (h : bid ∈ (fireBarriers sys bs).2) :
    ∃ b ∈ bs, b.id = bid ∧ b.fired = false ∧ sys.allTrackedDone b = true := by
  induction bs with
  | nil => simp [fireBarriers] at h
  | cons b rest ih =>
    simp only [fireBarriers] at h
    by_cases hc : (!b.fired && sys.allTrackedDone b) = true
    · rw [if_pos hc] at h
      simp only [Bool.and_eq_true, Bool.not_eq_true'] at hc
      rcases List.mem_cons.mp h with rfl | hm
      · exact ⟨b, List.mem_cons_self b rest, rfl, hc.1, hc.2⟩
      · obtain ⟨b0, hb0, he⟩ := ih hm
        exact ⟨b0, List.mem_cons_of_mem b hb0, he⟩
    · rw [if_neg hc] at h
      obtain ⟨b0, hb0, he⟩ := ih h
      exact ⟨b0, List.mem_cons_of_mem b hb0, he⟩

/-- A waiting barrier whose tracked tokens are all terminal fires. -/
theorem fireBarriers_fires (sys : Sys) (bs : List Barrier) (b : Barrier)
    (hb : b ∈ bs) (hf : b.fired = false) (hd : sys.allTrackedDone b = true) :
    b.id ∈ (fireBarriers sys bs).2 := by
  induction bs with
  | nil => simp at hb
  | cons b0 rest ih =>
    simp only [fireBarriers]
    rcases List.mem_cons.mp hb with rfl | hm
    · rw [if_pos (by simp [hf, hd])]
      exact List.mem_cons_self _ _
    · split
      · exact List.mem_cons_of_mem _ (ih hm)
      · exact ih hm

/-- A tick preserves the barrier ids, in order. -/
theorem fireBarriers_ids (sys : Sys) (bs : List Barrier) :
    ((fireBarriers sys bs).1).map Barrier.id = bs.map Barrier.id := by
  induction bs with
  | nil => simp [fireBarriers]
  | cons b rest ih =>
    simp only [fireBarriers]
    split <;> simp [ih]

end ShaderCompilerService

namespace ShaderCompilerService

/-- With distinct barrier ids, once a tick emits an id every surviving
barrier carrying that id is in the `Fired` state. -/
theorem fireBarriers_fired_after (sys : Sys) (bs : List Barrier) (bid : Nat)
    (hnd : (bs.map Barrier.id).Nodup) (hout : bid ∈ (fireBarriers sys bs).2) :
    ∀ b2 ∈ (fireBarriers sys bs).1, b2.id = bid → b2.fired = true := by
  induction bs with
  | nil => simp [fireBarriers] at hout
  | cons b rest ih =>
    simp only [List.map_cons, List.nodup_cons] at hnd
    obtain ⟨hbn, hndr⟩ := hnd
    simp only [fireBarriers] at hout ⊢
    by_cases hc : (!b.fired && sys.allTrackedDone b) = true
    · rw [if_pos hc] at hout ⊢
      rcases List.mem_cons.mp hout with heq | hm
      · intro b2 hb2 hid
        rcases List.mem_cons.mp hb2 with rfl | hm2
        · rfl
        · exfalso
          apply hbn
          rw [← heq, ← hid, ← fireBarriers_ids sys rest]
          exact List.mem_map.mpr ⟨b2, hm2, rfl⟩
      · intro b2 hb2 hid
        rcases List.mem_cons.mp hb2 with rfl | hm2
        · rfl
        · exact ih hndr hm b2 hm2 hid
    · rw [if_neg hc] at hout ⊢
      intro b2 hb2 hid
      rcases List.mem_cons.mp hb2 with rfl | hm2
      · exfalso
        apply hbn
        rw [hid]
        exact (fireBarriers_out_sublist sys rest).mem hout
      · exact ih hndr hout b2 hm2 hid

/-- Every service event preserves well-formedness of the barrier list. -/
theorem stepSys_WF (sys : Sys) (e : SysEv) (h : SysWF sys) :
    SysWF (stepSys sys e).1 := by
  obtain ⟨hnd, hlt⟩ := h
  cases e with
  | create tid p => exact ⟨hnd, hlt⟩
  | advance tid s => exact ⟨hnd, hlt⟩
  | register p =>
    constructor
    · simp only [stepSys, List.map_append, List.map_cons, List.map_nil]
      rw [List.nodup_append]
      refine ⟨hnd, List.nodup_singleton _, ?_⟩
      intro a ha hb
      simp only [List.mem_singleton] at hb
      subst hb
      obtain ⟨b, hbm, hbid⟩ := List.mem_map.mp ha
      exact absurd (hbid ▸ hlt b hbm) (lt_irrefl _)
    · intro b hb
      simp only [stepSys, List.mem_append, List.mem_singleton] at hb
      rcases hb with hb | rfl
      · exact Nat.lt_succ_of_lt (hlt b hb)
      · exact Nat.lt_succ_self _
  | tick =>
    constructor
    · simpa [stepSys, fireBarriers_ids] using hnd
    · intro b hb
      simp only [stepSys] at hb
      obtain ⟨b0, hb0, hor⟩ := fireBarriers_mem sys sys.barriers b hb
      have : b.id = b0.id := by rcases hor with rfl | rfl <;> rfl
      rw [this]
      exact hlt b0 hb0

/-- The barrier-id counter never decreases. -/
theorem stepSys_nextId_mono (sys : Sys) (e : SysEv) :
    sys.nextBarrierId ≤ (stepSys sys e).1.nextBarrierId := by
  cases e <;> simp [stepSys]

end ShaderCompilerService

namespace ShaderCompilerService

/-- Unfolding one event of `runSys`. -/
theorem runSys_cons (sys : Sys) (e : SysEv) (rest : List SysEv) :
    runSys sys (e :: rest)
      = ((runSys (stepSys sys e).1 rest).1,
         (stepSys sys e).2 ++ (runSys (stepSys sys e).1 rest).2) := rfl

/-- A callback whose barriers are all already fired is never emitted
again, whatever events follow. -/
theorem runSys_no_refire (evs : List SysEv) (sys : Sys) (bid : Nat)
    (hwf : SysWF sys) (hlt : bid < sys.nextBarrierId)
    (hfired : ∀ b ∈ sys.barriers, b.id = bid → b.fired = true) :
    bid ∉ (runSys sys evs).2 := by
  induction evs generalizing sys with
  | nil => simp [runSys]
  | cons e rest ih =>
    rw [runSys_cons]
    simp only [List.mem_append, not_or]
    refine ⟨?_, ?_⟩
    · cases e with
      | create tid p => simp [stepSys]
      | advance tid s => simp [stepSys]
      | register p => simp [stepSys]
      | tick =>
        intro hmem
        simp only [stepSys] at hmem
        obtain ⟨b, hb, hbid, hbf, _⟩ := fireBarriers_out_mem sys sys.barriers bid hmem
        rw [hfired b hb hbid] at hbf
        exact absurd hbf (by decide)
    · apply ih _ (stepSys_WF sys e hwf)
        (lt_of_lt_of_le hlt (stepSys_nextId_mono sys e))
      cases e with
      | create tid p => exact hfired
      | advance tid s => exact hfired
      | register p =>
        intro b hb hid
        simp only [stepSys, List.mem_append, List.mem_singleton] at hb
        rcases hb with hb | rfl
        · exact hfired b hb hid
        · simp only at hid
          omega
      | tick =>
        intro b2 hb2 hid
        simp only [stepSys] at hb2
        obtain ⟨b, hb, hor⟩ := fireBarriers_mem sys sys.barriers b2 hb2
        rcases hor with heq | heq
        · subst heq
          exact hfired b2 hb hid
        · rw [heq]

/-- Over any run from a well-formed state, each barrier id is emitted at
most once. -/
theorem runSys_count_le_one (evs : List SysEv) (sys : Sys) (bid : Nat)
    (hwf : SysWF sys) : ((runSys sys evs).2.count bid) ≤ 1 := by
  induction evs generalizing sys with
  | nil => simp [runSys]
  | cons e rest ih =>
    have hwf2 := stepSys_WF sys e hwf
    rw [runSys_cons, List.count_append]
    cases e with
    | create tid p =>
      have h0 : (stepSys sys (.create tid p)).2 = [] := rfl
      rw [h0]
      simpa using ih _ hwf2
    | advance tid st =>
      have h0 : (stepSys sys (.advance tid st)).2 = [] := rfl
      rw [h0]
      simpa using ih _ hwf2
    | register p =>
      have h0 : (stepSys sys (.register p)).2 = [] := rfl
      rw [h0]
      simpa using ih _ hwf2
    | tick =>
      have hout : (stepSys sys .tick).2 = (fireBarriers sys sys.barriers).2 := rfl
      have hnodup : (fireBarriers sys sys.barriers).2.Nodup :=
        (fireBarriers_out_sublist sys sys.barriers).nodup hwf.1
      by_cases hmem : bid ∈ (fireBarriers sys sys.barriers).2
      · have h1 : (stepSys sys .tick).2.count bid ≤ 1 := by
          rw [hout]
          exact List.nodup_iff_count_le_one.mp hnodup bid
        have hno : bid ∉ (runSys (stepSys sys .tick).1 rest).2 := by
          apply runSys_no_refire rest _ bid hwf2
          · obtain ⟨b, hb, hbid, _, _⟩ :=
              fireBarriers_out_mem sys sys.barriers bid hmem
            have hblt := hwf.2 b hb
            have hnx : (stepSys sys .tick).1.nextBarrierId = sys.nextBarrierId := rfl
            omega
          · intro b2 hb2 hid
            exact fireBarriers_fired_after sys sys.barriers bid hwf.1 hmem b2 hb2 hid
        rw [List.count_eq_zero.mpr hno]
        omega
      · rw [hout, List.count_eq_zero.mpr hmem]
        simpa using ih _ hwf2

end ShaderCompilerService

namespace ShaderCompilerService

/-- C5: a `notifyWhenAllProgramsAreReady` registration never fires its
callback synchronously; it snapshots exactly the tokens existing at
registration time that are non-terminal and at or below the requested
priority (so tokens created later are not tracked); a tick emits the
callback only for a waiting registration whose tracked tokens have all
reached a terminal state, and always does so once they have; over any run
the callback fires at most once; and a registration whose tracked set is
empty at registration time fires on the next `tick()`, not during
registration. -/
theorem notify_fires_once_after_tracked_terminal (sys : Sys) (p : Priority)
    (bid : Nat) (evs : List SysEv) :
    (stepSys sys (.register p)).2 = [] ∧
    (stepSys sys (.register p)).1.barriers
      = sys.barriers ++
        [{ id := sys.nextBarrierId,
           tracked := (sys.tokens.filter
             (fun e => e.2.1.atOrBelow p && !e.2.2.terminal)).map (·.1),
           fired := false }] ∧
    (∀ tid ∈ (sys.tokens.filter
        (fun e => e.2.1.atOrBelow p && !e.2.2.terminal)).map (·.1),
      ∃ pr st, (tid, pr, st) ∈ sys.tokens ∧ st.terminal = false ∧
        pr.atOrBelow p = true) ∧
    (bid ∈ (stepSys sys .tick).2 →
      ∃ b ∈ sys.barriers, b.id = bid ∧ b.fired = false ∧
        sys.allTrackedDone b = true) ∧
    (∀ b ∈ sys.barriers, b.fired = false → sys.allTrackedDone b = true →
      b.id ∈ (stepSys sys .tick).2) ∧
    (SysWF sys → ((runSys sys evs).2.count bid) ≤ 1) ∧
    (sys.tokens.filter (fun e => e.2.1.atOrBelow p && !e.2.2.terminal) = [] →
      sys.nextBarrierId ∈ (stepSys (stepSys sys (.register p)).1 .tick).2) := by
  refine ⟨rfl, rfl, ?_, ?_, ?_, ?_, ?_⟩
  · intro tid h
    obtain ⟨e, he, heq⟩ := List.mem_map.mp h
    obtain ⟨hmem, hcond⟩ := List.mem_filter.mp he
    rcases e with ⟨tid0, pr, st⟩
    simp only [Bool.and_eq_true, Bool.not_eq_true'] at hcond
    cases heq
    exact ⟨pr, st, hmem, hcond.2, hcond.1⟩
  · intro h
    exact fireBarriers_out_mem sys sys.barriers bid h
  · intro b hb hf hd
    exact fireBarriers_fires sys sys.barriers b hb hf hd
  · intro hwf
    exact runSys_count_le_one evs sys bid hwf
  · intro hfil
    have hnb : (stepSys sys (.register p)).1.barriers
        = sys.barriers ++
          [{ id := sys.nextBarrierId, tracked := [], fired := false }] := by
      simp [stepSys, hfil]
    apply fireBarriers_fires (stepSys sys (.register p)).1
      (stepSys sys (.register p)).1.barriers
      { id := sys.nextBarrierId, tracked := [], fired := false }
    · rw [hnb]
      exact List.mem_append_right _ (List.mem_singleton.mpr rfl)
    · rfl
    · rfl

/-- C5 witness: with no tokens at all, a High registration emits nothing
and its callback (id 0) fires on the next tick. -/
theorem notify_fires_once_after_tracked_terminal_witness :
    (Sys.mk [] [] 0).tokens.filter
      (fun e => e.2.1.atOrBelow .High && !e.2.2.terminal) = [] ∧
    (stepSys ⟨[], [], 0⟩ (.register .High)).2 = [] ∧
    (0 : Nat) ∈ (stepSys (stepSys ⟨[], [], 0⟩ (.register .High)).1 .tick).2 := by
  have h := notify_fires_once_after_tracked_terminal ⟨[], [], 0⟩ .High 0 []
  exact ⟨rfl, h.1, h.2.2.2.2.2.2 rfl⟩

end ShaderCompilerService
